import Mathlib

/-!
MinArch host runtime (`src/minarch/main.c`)

A shallow embedding of the libretro front-end in `main.c`: the environment
callback and its option table, the integer scaler, SRAM and save-state
persistence, the video-refresh and input callbacks.

Conventions of the embedding.

* C strings are Lean `String`s, their length in bytes is `utf8ByteSize`; a
  `char*` that may be `NULL` is an `Option String`.
* A fault of the C program (null dereference, write past the end of an array,
  division by zero, use of an uninitialised variable) is the result `none`, or
  the flag `false` next to the trace of what was done before it.
* Console output (`printf`, `puts`, `LOG_info`, `LOG_debug`) is not part of the
  state, and printing a `NULL` string with `%s` is taken as the C library of the
  device does it (it prints `(null)`), not as a fault; `LOG_error` is recorded
  where a function is modelled with an event trace.
-/

namespace MinArch

/-! ## Constants of `libretro.h` and `defines.h`

The two headers are not part of the sources at hand; the values below are the
ones of the libretro ABI (they are repeated in the comments of
`environment_callback`) and of the 640x480 RGB565 target device. -/

/-- Command number of the libretro ABI (`/* 2 */` in the source). -/
def RETRO_ENVIRONMENT_GET_OVERSCAN : Nat := 2
/-- Command number of the libretro ABI (`/* 3 */` in the source). -/
def RETRO_ENVIRONMENT_GET_CAN_DUPE : Nat := 3
/-- Command number of the libretro ABI (`/* 6 */` in the source). -/
def RETRO_ENVIRONMENT_SET_MESSAGE : Nat := 6
/-- Command number of the libretro ABI (`/* 9 */` in the source). -/
def RETRO_ENVIRONMENT_GET_SYSTEM_DIRECTORY : Nat := 9
/-- Command number of the libretro ABI (`/* 10 */` in the source). -/
def RETRO_ENVIRONMENT_SET_PIXEL_FORMAT : Nat := 10
/-- Command number of the libretro ABI (`/* 11 */` in the source). -/
def RETRO_ENVIRONMENT_SET_INPUT_DESCRIPTORS : Nat := 11
/-- Command number of the libretro ABI (`/* 13 */` in the source). -/
def RETRO_ENVIRONMENT_SET_DISK_CONTROL_INTERFACE : Nat := 13
/-- Command number of the libretro ABI (`/* 15 */` in the source). -/
def RETRO_ENVIRONMENT_GET_VARIABLE : Nat := 15
/-- Command number of the libretro ABI (`/* 16 */` in the source). -/
def RETRO_ENVIRONMENT_SET_VARIABLES : Nat := 16
/-- Command number of the libretro ABI (`/* 17 */` in the source). -/
def RETRO_ENVIRONMENT_GET_VARIABLE_UPDATE : Nat := 17
/-- Command number of the libretro ABI (`/* 27 */` in the source). -/
def RETRO_ENVIRONMENT_GET_LOG_INTERFACE : Nat := 27
/-- Command number of the libretro ABI (`/* 31 */` in the source). -/
def RETRO_ENVIRONMENT_GET_SAVE_DIRECTORY : Nat := 31
/-- Command number of the libretro ABI: `51 | RETRO_ENVIRONMENT_EXPERIMENTAL`,
that is `51 + 0x10000`. The source comment says `/* 52 */`, but the next case
label is 52 as well and two equal case labels do not compile, so the header's
value is the one used here. -/
def RETRO_ENVIRONMENT_GET_INPUT_BITMASKS : Nat := 65587
/-- Command number of the libretro ABI (`/* 52 */` in the source). -/
def RETRO_ENVIRONMENT_GET_CORE_OPTIONS_VERSION : Nat := 52
/-- Command number of the libretro ABI (`/* 53 */` in the source). -/
def RETRO_ENVIRONMENT_SET_CORE_OPTIONS : Nat := 53
/-- Command number of the libretro ABI (`/* 54 */` in the source). -/
def RETRO_ENVIRONMENT_SET_CORE_OPTIONS_INTL : Nat := 54
/-- Command number of the libretro ABI (`/* 55 */` in the source). -/
def RETRO_ENVIRONMENT_SET_CORE_OPTIONS_DISPLAY : Nat := 55
/-- Command number of the libretro ABI (`/* 57 */` in the source). -/
def RETRO_ENVIRONMENT_GET_DISK_CONTROL_INTERFACE_VERSION : Nat := 57
/-- Command number of the libretro ABI (`/* 58 */` in the source). -/
def RETRO_ENVIRONMENT_SET_DISK_CONTROL_EXT_INTERFACE : Nat := 58
/-- Command number of the libretro ABI (`/* 62 */` in the source). -/
def RETRO_ENVIRONMENT_SET_AUDIO_BUFFER_STATUS_CALLBACK : Nat := 62
/-- Command number of the libretro ABI (`/* 63 */` in the source). -/
def RETRO_ENVIRONMENT_SET_MINIMUM_AUDIO_LATENCY : Nat := 63

/-- Pixel format `enum retro_pixel_format`, value 0. -/
def RETRO_PIXEL_FORMAT_0RGB1555 : Nat := 0
/-- Pixel format `enum retro_pixel_format`, value 1. -/
def RETRO_PIXEL_FORMAT_XRGB8888 : Nat := 1
/-- Pixel format `enum retro_pixel_format`, value 2. -/
def RETRO_PIXEL_FORMAT_RGB565 : Nat := 2

/-! ## Payloads of the environment callback -/

/-- The record `struct retro_variable`: `key` and `value` are `const char*`. -/
structure retro_variable where
  key : Option String
  value : Option String
deriving DecidableEq

/-- An entry of a `retro_core_option_definition` array before its terminator
(the entry whose `key` is `NULL`, here the end of the list): its `key`, a
string, and its `default_value`, a string or `NULL` (`none`). -/
structure retro_core_option_definition where
  key : String
  default_value : Option String
deriving DecidableEq

/-- An entry of a `retro_input_descriptor` array before its terminator (the
entry whose `description` is `NULL`). -/
structure retro_input_descriptor where
  id : Nat
  description : String
deriving DecidableEq

/-- The record `struct retro_disk_control_callback`: seven function pointers,
each an address (0 for `NULL`). -/
structure retro_disk_control_callback where
  set_eject_state : Nat
  get_eject_state : Nat
  get_image_index : Nat
  set_image_index : Nat
  get_num_images : Nat
  replace_image_index : Nat
  add_image_index : Nat
deriving DecidableEq

/-- The record `struct retro_disk_control_ext_callback`: the seven pointers of
the base record, in the same order, followed by three more. -/
structure retro_disk_control_ext_callback where
  set_eject_state : Nat
  get_eject_state : Nat
  get_image_index : Nat
  set_image_index : Nat
  get_num_images : Nat
  replace_image_index : Nat
  add_image_index : Nat
  set_initial_image : Nat
  get_image_path : Nat
  get_image_label : Nat
deriving DecidableEq

/-- What the `void *data` argument of the environment callback points to. The
callback casts `data` according to the command; a payload of another shape than
the one the command casts to is outside the model (`none`). -/
inductive Data where
  /-- The pointer `data == NULL`. -/
  | null
  /-- A `bool*`. -/
  | bool (b : Bool)
  /-- An `unsigned*`. -/
  | uint (n : Nat)
  /-- A `const char**`; the string pointer it holds may be `NULL`. -/
  | str (s : Option String)
  /-- An `enum retro_pixel_format*`. -/
  | pixel_format (format : Nat)
  /-- A `struct retro_message*`. -/
  | message (msg : String)
  /-- A `struct retro_input_descriptor*` array. -/
  | input_descriptors (vars : List retro_input_descriptor)
  /-- A `struct retro_disk_control_callback*`. -/
  | disk_control (var : retro_disk_control_callback)
  /-- A `struct retro_disk_control_ext_callback*`. -/
  | disk_control_ext (var : retro_disk_control_ext_callback)
  /-- A `struct retro_variable*` to one record (GET_VARIABLE). -/
  | variable (var : retro_variable)
  /-- A `struct retro_variable*` array, ended by the entry whose key is `NULL`. -/
  | variables (vars : List retro_variable)
  /-- A `struct retro_log_callback*`; the field is the name of the sink installed. -/
  | log_callback (log : Option String)
  /-- A `struct retro_core_option_definition**`; the array pointer it holds may be `NULL`. -/
  | core_options (vars : Option (List retro_core_option_definition))
  /-- A `struct retro_core_options_intl*`; its `us` pointer may be `NULL`. -/
  | core_options_intl (us : Option (List retro_core_option_definition))
  /-- A `struct retro_core_option_display*`. -/
  | core_option_display (key : String) (visible : Bool)
  /-- A `struct retro_audio_buffer_status_callback*`; the field is `cb->callback`. -/
  | audio_buffer_status_callback (callback : Option Nat)
deriving DecidableEq

/-! ## State of the environment broker -/

/-- One entry of `tmp_options`: `struct { char key[128]; char value[128]; }`.
The two buffers are modelled by the strings they hold, each of at most 127
bytes when it was written by `strcpy128`. -/
structure OptionSlot where
  key : String
  value : String
deriving DecidableEq

/-- The globals the environment callback reads and writes: `tmp_options[128]`
(entry `i` for `i < 128`), `disk_control_ext`, `core.audio_buffer_status` and
`core.sys_dir`. -/
structure Host where
  tmp_options : Nat → OptionSlot
  disk_control_ext : retro_disk_control_ext_callback
  audio_buffer_status : Option Nat
  sys_dir : String

/-- Zero-initialised statics: every key and value is the empty string, every
pointer is `NULL`. -/
def Host.init : Host where
  tmp_options := fun _ => ⟨"", ""⟩
  disk_control_ext := ⟨0, 0, 0, 0, 0, 0, 0, 0, 0, 0⟩
  audio_buffer_status := none
  sys_dir := ""

/-- Result of one call of the environment callback: the returned bool, the
payload as the callback leaves it, and the globals afterwards. -/
structure EnvResult where
  ret : Bool
  data : Data
  host : Host

/-- The loop of GET_VARIABLE: `for (i = 0; i < 128; i++) if (!strcmp(tmp_options[i].key, key)) ...; break`,
started at index `i` with `n` iterations left; the value of the first entry whose key is `key`. -/
def get_variable_scan (opts : Nat → OptionSlot) (key : String) : Nat → Nat → Option String
  | _, 0 => none
  | i, n + 1 =>
    if (opts i).key = key then some (opts i).value
    else get_variable_scan opts key (i + 1) n

/-- The call `strcpy(dst, src)` with `dst` one of the buffers of 128 bytes of
`tmp_options`: the string the buffer holds afterwards. The call checks nothing:
a `NULL` source is dereferenced, and a source of 128 bytes or more is written,
with its terminator, past the end of the buffer. Both are faults (`none`). -/
def strcpy128 (src : Option String) : Option String :=
  match src with
  | none => none
  | some s => if s.utf8ByteSize < 128 then some s else none

/-- The loop of SET_CORE_OPTIONS_INTL over `vars[i]`, started at index `i`:
the default of `gpsp_save_method` is replaced by `libretro`, then key and value
are copied by `strcpy` into `tmp_options[i]`. A write at an index of 128 or
more is past the end of the array; a fault of either `strcpy` is a fault of the
loop. -/
def set_core_options_intl_loop :
    List retro_core_option_definition → Nat → (Nat → OptionSlot) → Option (Nat → OptionSlot)
  | [], _, opts => some opts
  | var :: vars, i, opts =>
    let default_value : Option String :=
      if "gpsp_save_method" = var.key then some "libretro" else var.default_value
    if i < 128 then
      match strcpy128 (some var.key), strcpy128 default_value with
      | some key, some value =>
        set_core_options_intl_loop vars (i + 1)
          (fun j => if j = i then ⟨key, value⟩ else opts j)
      | _, _ => none
    else none

/-- The function `environment_callback(cmd, data)` of `main.c`, one arm per
`case` of its `switch`, in the order of the source. -/
def environment_callback (cmd : Nat) (data : Data) (h : Host) : Option EnvResult :=
  if cmd = RETRO_ENVIRONMENT_GET_OVERSCAN then
    match data with
    | .null => some ⟨true, .null, h⟩
    | .bool _ => some ⟨true, .bool true, h⟩
    | _ => none
  else if cmd = RETRO_ENVIRONMENT_GET_CAN_DUPE then
    match data with
    | .null => some ⟨true, .null, h⟩
    | .bool _ => some ⟨true, .bool true, h⟩
    | _ => none
  else if cmd = RETRO_ENVIRONMENT_SET_MESSAGE then
    match data with
    | .null => some ⟨true, .null, h⟩
    | .message msg => some ⟨true, .message msg, h⟩
    | _ => none
  else if cmd = RETRO_ENVIRONMENT_GET_SYSTEM_DIRECTORY then
    match data with
    | .null => some ⟨true, .null, h⟩
    | .str _ => some ⟨true, .str (some h.sys_dir), h⟩
    | _ => none
  else if cmd = RETRO_ENVIRONMENT_SET_PIXEL_FORMAT then
    match data with
    | .pixel_format format =>
      if format ≠ RETRO_PIXEL_FORMAT_RGB565 then some ⟨false, .pixel_format format, h⟩
      else some ⟨true, .pixel_format format, h⟩
    | _ => none
  else if cmd = RETRO_ENVIRONMENT_SET_INPUT_DESCRIPTORS then
    match data with
    | .null => some ⟨true, .null, h⟩
    | .input_descriptors vars => some ⟨false, .input_descriptors vars, h⟩
    | _ => none
  else if cmd = RETRO_ENVIRONMENT_SET_DISK_CONTROL_INTERFACE then
    match data with
    | .null => some ⟨true, .null, h⟩
    | .disk_control var =>
      some ⟨true, .disk_control var,
        { h with disk_control_ext :=
            ⟨var.set_eject_state, var.get_eject_state, var.get_image_index,
             var.set_image_index, var.get_num_images, var.replace_image_index,
             var.add_image_index, 0, 0, 0⟩ }⟩
    | _ => none
  else if cmd = RETRO_ENVIRONMENT_GET_VARIABLE then
    match data with
    | .null => some ⟨true, .null, h⟩
    | .variable var =>
      match var.key with
      | none => some ⟨true, .variable var, h⟩
      | some key =>
        match get_variable_scan h.tmp_options key 0 128 with
        | some value => some ⟨true, .variable { var with value := some value }, h⟩
        | none => some ⟨true, .variable var, h⟩
    | _ => none
  else if cmd = RETRO_ENVIRONMENT_SET_VARIABLES then
    match data with
    | .null => some ⟨true, .null, h⟩
    | .variables vars => some ⟨true, .variables vars, h⟩
    | _ => none
  else if cmd = RETRO_ENVIRONMENT_GET_VARIABLE_UPDATE then
    match data with
    | .null => some ⟨true, .null, h⟩
    | .bool _ => some ⟨true, .bool false, h⟩
    | _ => none
  else if cmd = RETRO_ENVIRONMENT_GET_LOG_INTERFACE then
    match data with
    | .null => some ⟨true, .null, h⟩
    | .log_callback _ => some ⟨true, .log_callback (some "LOG_note"), h⟩
    | _ => none
  else if cmd = RETRO_ENVIRONMENT_GET_SAVE_DIRECTORY then
    match data with
    | .null => some ⟨true, .null, h⟩
    | .str _ => some ⟨true, .str none, h⟩
    | _ => none
  else if cmd = RETRO_ENVIRONMENT_GET_INPUT_BITMASKS then
    match data with
    | .null => some ⟨true, .null, h⟩
    | .bool _ => some ⟨true, .bool true, h⟩
    | _ => none
  else if cmd = RETRO_ENVIRONMENT_GET_CORE_OPTIONS_VERSION then
    match data with
    | .null => some ⟨true, .null, h⟩
    | .uint _ => some ⟨true, .uint 1, h⟩
    | _ => none
  else if cmd = RETRO_ENVIRONMENT_SET_CORE_OPTIONS then
    match data with
    | .null => some ⟨true, .null, h⟩
    | .core_options (some vars) => some ⟨true, .core_options (some vars), h⟩
    | _ => none
  else if cmd = RETRO_ENVIRONMENT_SET_CORE_OPTIONS_INTL then
    match data with
    | .null => some ⟨true, .null, h⟩
    | .core_options_intl none => some ⟨true, .core_options_intl none, h⟩
    | .core_options_intl (some vars) =>
      match set_core_options_intl_loop vars 0 h.tmp_options with
      | some opts => some ⟨true, .core_options_intl (some vars), { h with tmp_options := opts }⟩
      | none => none
    | _ => none
  else if cmd = RETRO_ENVIRONMENT_SET_CORE_OPTIONS_DISPLAY then
    match data with
    | .null => some ⟨true, .null, h⟩
    | .core_option_display key visible => some ⟨true, .core_option_display key visible, h⟩
    | _ => none
  else if cmd = RETRO_ENVIRONMENT_GET_DISK_CONTROL_INTERFACE_VERSION then
    match data with
    | .null => some ⟨true, .null, h⟩
    | .uint _ => some ⟨true, .uint 1, h⟩
    | _ => none
  else if cmd = RETRO_ENVIRONMENT_SET_DISK_CONTROL_EXT_INTERFACE then
    match data with
    | .null => some ⟨true, .null, h⟩
    | .disk_control_ext var => some ⟨true, .disk_control_ext var, { h with disk_control_ext := var }⟩
    | _ => none
  else if cmd = RETRO_ENVIRONMENT_SET_AUDIO_BUFFER_STATUS_CALLBACK then
    match data with
    | .null => some ⟨true, .null, { h with audio_buffer_status := none }⟩
    | .audio_buffer_status_callback callback =>
      some ⟨true, .audio_buffer_status_callback callback, { h with audio_buffer_status := callback }⟩
    | _ => none
  else if cmd = RETRO_ENVIRONMENT_SET_MINIMUM_AUDIO_LATENCY then
    match data with
    | .null => some ⟨true, .null, h⟩
    | .uint latency_ms => some ⟨true, .uint latency_ms, h⟩
    | _ => none
  else some ⟨false, data, h⟩


/-! ## Scaler

The destination surface is addressed by byte offsets from its first byte; the
kernels produce the 16-bit stores they perform, in program order. The source
buffer is a function from a byte offset (from the `src` pointer) to the 16-bit
pixel read there. -/

/-- Width of the screen in pixels (`defines.h`, 640x480 device). -/
def SCREEN_WIDTH : Nat := 640
/-- Height of the screen in pixels (`defines.h`, 640x480 device). -/
def SCREEN_HEIGHT : Nat := 480
/-- Bytes per pixel of the RGB565 surface (`defines.h`). -/
def SCREEN_BPP : Nat := 2
/-- Bytes per row of the surface (`defines.h`): `SCREEN_WIDTH * SCREEN_BPP`. -/
def SCREEN_PITCH : Nat := 1280

/-- Arithmetic of C `unsigned`: the value modulo `2^32`. -/
def u32 (n : Nat) : Nat := n % 4294967296

/-- One 16-bit store `*(uint16_t*)(surface + off) = val`. -/
structure Store where
  off : Int
  val : Nat
deriving DecidableEq

/-- Stores of `memcpy(dst, src + srcoff, n)` for an even byte count `n`, as
`n / 2` 16-bit stores. -/
def memcpy16 (dst : Int) (src : Nat → Nat) (srcoff n : Nat) : List Store :=
  (List.range (n / 2)).map fun (k : Nat) => ⟨dst + 2 * (k : Int), src (srcoff + 2 * k)⟩

/-- Stores of `memset(dst, byte, n)` for an even byte count `n`, as `n / 2`
16-bit stores of the doubled byte. -/
def memset16 (dst : Int) (byte n : Nat) : List Store :=
  (List.range (n / 2)).map fun (k : Nat) => ⟨dst + 2 * (k : Int), byte * 256 + byte⟩

/-- The kernel `scale1x(w, h, pitch, src, dst)`: one `memcpy` of `cpy_pitch`
bytes per row; the pointers advance by `dst_stride` and `src_stride` 16-bit
units per row. -/
def scale1x (w h pitch : Nat) (src : Nat → Nat) (dst : Int) : List Store :=
  let src_pitch := w * SCREEN_BPP
  let src_stride := pitch / SCREEN_BPP
  let dst_stride := SCREEN_PITCH / SCREEN_BPP
  let cpy_pitch := min src_pitch SCREEN_PITCH
  (List.range h).flatMap fun y =>
    memcpy16 (dst + 2 * ((y * dst_stride : Nat) : Int)) src (2 * (y * src_stride)) cpy_pitch

/-- The kernel `scale2x(w, h, pitch, src, dst)`: `src_row` starts at byte
`y * pitch` and advances one pixel per `x`, `dst_row` starts at byte
`y * SCREEN_PITCH * 2` and advances two pixels per `x`. -/
def scale2x (w h pitch : Nat) (src : Nat → Nat) (dst : Int) : List Store :=
  (List.range h).flatMap fun y =>
    (List.range w).flatMap fun x =>
      let s := src (u32 (y * pitch) + 2 * x)
      let dst_row : Int := dst + (u32 (y * SCREEN_PITCH * 2) : Nat) + 2 * ((2 * x : Nat) : Int)
      [ ⟨dst_row, s⟩,
        ⟨dst_row + 2 * 1, s⟩,
        ⟨dst_row + 2 * (SCREEN_WIDTH : Int), s⟩,
        ⟨dst_row + 2 * ((SCREEN_WIDTH : Int) + 1), s⟩ ]

/-- The kernel `scale3x(w, h, pitch, src, dst)`, with `row3 = SCREEN_WIDTH * 2`. -/
def scale3x (w h pitch : Nat) (src : Nat → Nat) (dst : Int) : List Store :=
  let row3 : Int := (SCREEN_WIDTH * 2 : Nat)
  (List.range h).flatMap fun y =>
    (List.range w).flatMap fun x =>
      let s := src (u32 (y * pitch) + 2 * x)
      let dst_row : Int := dst + (u32 (y * SCREEN_PITCH * 3) : Nat) + 2 * ((3 * x : Nat) : Int)
      [ ⟨dst_row, s⟩,
        ⟨dst_row + 2 * 1, s⟩,
        ⟨dst_row + 2 * 2, s⟩,
        ⟨dst_row + 2 * (SCREEN_WIDTH : Int), s⟩,
        ⟨dst_row + 2 * ((SCREEN_WIDTH : Int) + 1), s⟩,
        ⟨dst_row + 2 * ((SCREEN_WIDTH : Int) + 2), s⟩,
        ⟨dst_row + 2 * row3, s⟩,
        ⟨dst_row + 2 * (row3 + 1), s⟩,
        ⟨dst_row + 2 * (row3 + 2), s⟩ ]

/-- The kernel `scale4x(w, h, pitch, src, dst)`, with `row3 = SCREEN_WIDTH * 2`
and `row4 = SCREEN_WIDTH * 3`. -/
def scale4x (w h pitch : Nat) (src : Nat → Nat) (dst : Int) : List Store :=
  let row3 : Int := (SCREEN_WIDTH * 2 : Nat)
  let row4 : Int := (SCREEN_WIDTH * 3 : Nat)
  (List.range h).flatMap fun y =>
    (List.range w).flatMap fun x =>
      let s := src (u32 (y * pitch) + 2 * x)
      let dst_row : Int := dst + (u32 (y * SCREEN_PITCH * 4) : Nat) + 2 * ((4 * x : Nat) : Int)
      [ ⟨dst_row, s⟩,
        ⟨dst_row + 2 * 1, s⟩,
        ⟨dst_row + 2 * 2, s⟩,
        ⟨dst_row + 2 * 3, s⟩,
        ⟨dst_row + 2 * (SCREEN_WIDTH : Int), s⟩,
        ⟨dst_row + 2 * ((SCREEN_WIDTH : Int) + 1), s⟩,
        ⟨dst_row + 2 * ((SCREEN_WIDTH : Int) + 2), s⟩,
        ⟨dst_row + 2 * ((SCREEN_WIDTH : Int) + 3), s⟩,
        ⟨dst_row + 2 * row3, s⟩,
        ⟨dst_row + 2 * (row3 + 1), s⟩,
        ⟨dst_row + 2 * (row3 + 2), s⟩,
        ⟨dst_row + 2 * (row3 + 3), s⟩,
        ⟨dst_row + 2 * row4, s⟩,
        ⟨dst_row + 2 * (row4 + 1), s⟩,
        ⟨dst_row + 2 * (row4 + 2), s⟩,
        ⟨dst_row + 2 * (row4 + 3), s⟩ ]

/-- The local `scale` of `scale()`: `MIN(SCREEN_WIDTH / width, SCREEN_HEIGHT / height)`. -/
def scale_factor (width height : Nat) : Nat :=
  let scale_x := SCREEN_WIDTH / width
  let scale_y := SCREEN_HEIGHT / height
  min scale_x scale_y

/-- The local `ox` of `scale()`: `(SCREEN_WIDTH - scale_w) / 2` in `int`. -/
def scale_ox (width height : Nat) : Int :=
  let scale_w := width * scale_factor width height
  Int.tdiv ((SCREEN_WIDTH : Int) - (scale_w : Int)) 2

/-- The local `oy` of `scale()`: `(SCREEN_HEIGHT - scale_h) / 2` in `int`. -/
def scale_oy (width height : Nat) : Int :=
  let scale_h := height * scale_factor width height
  Int.tdiv ((SCREEN_HEIGHT : Int) - (scale_h : Int)) 2

/-- Modelled from the spec: the kernels `scale1x_n16`, `scale2x_n16`,
`scale3x_n16` and `scale4x_n16` that the `switch (scale)` of `scale()` calls
are defined in `scaler_neon.h`, which is missing from the source at hand. The
spec takes the NEON kernels as a replaceable strategy and gives every kernel
one contract, that of plain nearest (each source pixel replicated into an
`s` by `s` block, rows stepped by `pitch`), so each `scaleNx_n16` is taken to
perform the stores of the plain kernel `scaleNx` of `main.c`. The dispatch is
the one of the source: 4, 3 and 2 have an arm of their own, every other value
takes the `default` arm. -/
def scale_kernel (scale width height pitch : Nat) (src : Nat → Nat) (dst : Int) : List Store :=
  if scale = 4 then scale4x width height pitch src dst
  else if scale = 3 then scale3x width height pitch src dst
  else if scale = 2 then scale2x width height pitch src dst
  else scale1x width height pitch src dst

/-- The frame-pacing block of `scale()` (`if (1)`), with `dst` back at the
pointer `scale()` was called with: the 16-row strip is zeroed, the two end
markers are drawn on each row, then the 8-pixel bar of the current `frame`. -/
def scale_frame_bar (dst : Int) (frame : Nat) : List Store :=
  let w := 8
  let h := 16
  let fps := 60
  let x := frame * w
  let dst1 : Int := dst + ((SCREEN_WIDTH - w * fps) / 2 * SCREEN_BPP : Nat)
  memset16 dst1 0 (h * SCREEN_PITCH)
  ++ ((List.range h).flatMap fun y =>
        memset16 (dst1 + (y * SCREEN_PITCH : Nat) - (SCREEN_BPP : Int)) 0xff SCREEN_BPP
        ++ memset16 (dst1 + (y * SCREEN_PITCH : Nat) + (w * fps * SCREEN_BPP : Nat)) 0xff SCREEN_BPP)
  ++ ((List.range h).flatMap fun y =>
        memset16 (dst1 + (x * SCREEN_BPP : Nat) + (y * SCREEN_PITCH : Nat)) 0xff (w * SCREEN_BPP))

/-- The update of the static `frame` of `scale()`: `frame += 1; if (frame >= fps) frame -= fps`. -/
def scale_next_frame (frame : Nat) : Nat :=
  if frame + 1 ≥ 60 then frame + 1 - 60 else frame + 1

/-- The function `scale(src, width, height, pitch, dst)`: the stores it
performs, in order, and the new value of its static `frame`. The two integer
divisions fault when `width` or `height` is zero. -/
def scale (src : Nat → Nat) (width height pitch : Nat) (dst : Int) (frame : Nat) :
    Option (List Store × Nat) :=
  if width = 0 ∨ height = 0 then none
  else
    let ox := scale_ox width height
    let oy := scale_oy width height
    let dst1 := dst + (oy * (SCREEN_PITCH : Int) + ox * (SCREEN_BPP : Int))
    some (scale_kernel (scale_factor width height) width height pitch src dst1
            ++ scale_frame_bar (dst1 - (oy * (SCREEN_PITCH : Int) + ox * (SCREEN_BPP : Int))) frame,
          scale_next_frame frame)

/-- Contents of the surface after a list of stores, by byte offset of the
16-bit cell: a later store to the same offset wins. -/
def apply_stores : List Store → (Int → Nat) → Int → Nat
  | [], mem => mem
  | s :: rest, mem => apply_stores rest (fun a => if a = s.off then s.val else mem a)

/-- Byte offset of the destination pixel in column `x` of row `y`. -/
def pixel_offset (x y : Int) : Int := y * (SCREEN_PITCH : Int) + x * (SCREEN_BPP : Int)

/-! ## Video refresh -/

/-- What `video_refresh_callback` does to the screen, in order. -/
inductive VideoEvent where
  /-- The call `GFX_clearAll()`. -/
  | GFX_clearAll
  /-- The call `scale(data, width, height, pitch, screen->pixels)` and its stores. -/
  | scale (width height pitch : Nat) (stores : List Store)
  /-- The call `GFX_flip(screen)`. -/
  | GFX_flip
deriving DecidableEq

/-- The statics the video path keeps between calls: `fps_ticks`, `last_width`
and `last_height` of `video_refresh_callback`, and `frame` of `scale`. The
sizes are stored as `int` and compared with the `unsigned` arguments; storing
and comparing convert back and forth without loss, so they are naturals here. -/
structure VideoState where
  fps_ticks : Nat
  last_width : Nat
  last_height : Nat
  frame : Nat
deriving DecidableEq

/-- Initial values of the statics: all zero. -/
def VideoState.init : VideoState := ⟨0, 0, 0, 0⟩

/-- The function `video_refresh_callback(data, width, height, pitch)`; `data`
is `none` for a `NULL` frame. The surface `screen->pixels` is at byte offset 0. -/
def video_refresh_callback (st : VideoState) (data : Option (Nat → Nat))
    (width height pitch : Nat) : Option (VideoState × List VideoEvent) :=
  match data with
  | none => some (st, [])
  | some src =>
    let st1 := { st with fps_ticks := st.fps_ticks + 1 }
    let changed : Bool := width ≠ st1.last_width || height ≠ st1.last_height
    let st2 := if changed then { st1 with last_width := width, last_height := height } else st1
    let ev1 := if changed then [VideoEvent.GFX_clearAll] else []
    match scale src width height pitch 0 st2.frame with
    | none => none
    | some (stores, frame) =>
      some ({ st2 with frame := frame },
            ev1 ++ [VideoEvent.scale width height pitch stores, VideoEvent.GFX_flip])

/-! ## Input -/

/-- The virtual buttons of the device (`api.h`). -/
inductive Button where
  | BTN_UP | BTN_DOWN | BTN_LEFT | BTN_RIGHT
  | BTN_A | BTN_B | BTN_X | BTN_Y
  | BTN_START | BTN_SELECT
  | BTN_L1 | BTN_L2 | BTN_R1 | BTN_R2
  | BTN_MENU | BTN_POWER
deriving DecidableEq

/-- The pad as `PAD_poll()` leaves it: the answers of `PAD_isPressed` and
`PAD_justPressed`. -/
structure Pad where
  isPressed : Button → Bool
  justPressed : Button → Bool

/-- Joypad id of the libretro ABI. -/
def RETRO_DEVICE_ID_JOYPAD_B : Nat := 0
/-- Joypad id of the libretro ABI. -/
def RETRO_DEVICE_ID_JOYPAD_Y : Nat := 1
/-- Joypad id of the libretro ABI. -/
def RETRO_DEVICE_ID_JOYPAD_SELECT : Nat := 2
/-- Joypad id of the libretro ABI. -/
def RETRO_DEVICE_ID_JOYPAD_START : Nat := 3
/-- Joypad id of the libretro ABI. -/
def RETRO_DEVICE_ID_JOYPAD_UP : Nat := 4
/-- Joypad id of the libretro ABI. -/
def RETRO_DEVICE_ID_JOYPAD_DOWN : Nat := 5
/-- Joypad id of the libretro ABI. -/
def RETRO_DEVICE_ID_JOYPAD_LEFT : Nat := 6
/-- Joypad id of the libretro ABI. -/
def RETRO_DEVICE_ID_JOYPAD_RIGHT : Nat := 7
/-- Joypad id of the libretro ABI. -/
def RETRO_DEVICE_ID_JOYPAD_A : Nat := 8
/-- Joypad id of the libretro ABI. -/
def RETRO_DEVICE_ID_JOYPAD_X : Nat := 9
/-- Joypad id of the libretro ABI. -/
def RETRO_DEVICE_ID_JOYPAD_L : Nat := 10
/-- Joypad id of the libretro ABI. -/
def RETRO_DEVICE_ID_JOYPAD_R : Nat := 11
/-- Joypad id of the libretro ABI. -/
def RETRO_DEVICE_ID_JOYPAD_L2 : Nat := 12
/-- Joypad id of the libretro ABI. -/
def RETRO_DEVICE_ID_JOYPAD_R2 : Nat := 13
/-- Joypad id of the libretro ABI: the query for the whole mask. -/
def RETRO_DEVICE_ID_JOYPAD_MASK : Nat := 256
/-- Device class of the libretro ABI. -/
def RETRO_DEVICE_JOYPAD : Nat := 1

/-- Which persistence function the hotkey block of `input_poll_callback` calls. -/
inductive Hotkey where
  | nothing
  | State_read
  | State_write
deriving DecidableEq

/-- The statement `if (PAD_isPressed(btn)) buttons |= 1 << id`. -/
def press (pad : Pad) (btn : Button) (id : Nat) (buttons : Nat) : Nat :=
  if pad.isPressed btn then buttons ||| (1 <<< id) else buttons

/-- The function `input_poll_callback()` after `PAD_poll()`: the hotkey it
triggers and the new value of the static `buttons`. -/
def input_poll_callback (pad : Pad) : Hotkey × Nat :=
  let hotkey :=
    if pad.isPressed .BTN_MENU then
      if pad.justPressed .BTN_L1 then Hotkey.State_read
      else if pad.justPressed .BTN_R1 then Hotkey.State_write
      else Hotkey.nothing
    else Hotkey.nothing
  let buttons := 0
  let buttons := press pad .BTN_UP RETRO_DEVICE_ID_JOYPAD_UP buttons
  let buttons := press pad .BTN_DOWN RETRO_DEVICE_ID_JOYPAD_DOWN buttons
  let buttons := press pad .BTN_LEFT RETRO_DEVICE_ID_JOYPAD_LEFT buttons
  let buttons := press pad .BTN_RIGHT RETRO_DEVICE_ID_JOYPAD_RIGHT buttons
  let buttons := press pad .BTN_A RETRO_DEVICE_ID_JOYPAD_A buttons
  let buttons := press pad .BTN_B RETRO_DEVICE_ID_JOYPAD_B buttons
  let buttons := press pad .BTN_X RETRO_DEVICE_ID_JOYPAD_X buttons
  let buttons := press pad .BTN_Y RETRO_DEVICE_ID_JOYPAD_Y buttons
  let buttons := press pad .BTN_START RETRO_DEVICE_ID_JOYPAD_START buttons
  let buttons := press pad .BTN_SELECT RETRO_DEVICE_ID_JOYPAD_SELECT buttons
  let buttons := press pad .BTN_L1 RETRO_DEVICE_ID_JOYPAD_L buttons
  let buttons := press pad .BTN_L2 RETRO_DEVICE_ID_JOYPAD_L2 buttons
  let buttons := press pad .BTN_R1 RETRO_DEVICE_ID_JOYPAD_R buttons
  let buttons := press pad .BTN_R2 RETRO_DEVICE_ID_JOYPAD_R2 buttons
  (hotkey, buttons)

/-- Conversion of an unsigned value to the return type `int16_t`: the low 16
bits, read as two's complement. -/
def to_int16 (n : Nat) : Int :=
  if n % 65536 < 32768 then ((n % 65536 : Nat) : Int) else ((n % 65536 : Nat) : Int) - 65536

/-- The function `input_state_callback(port, device, index, id)` over the
static `buttons` (a `uint32_t`). -/
def input_state_callback (buttons port device index id : Nat) : Int :=
  if port = 0 ∧ device = RETRO_DEVICE_JOYPAD ∧ index = 0 then
    if id = RETRO_DEVICE_ID_JOYPAD_MASK then to_int16 buttons
    else to_int16 ((buttons >>> id) &&& 1)
  else 0

/-! ## Saves and states -/

/-- Mount point of the SD card (`defines.h`; the comment on `Core.sys_dir`
shows the value). -/
def SDCARD_PATH : String := "/mnt/sdcard"
/-- Name of the platform (`defines.h`; the comment on `Core.sys_dir` shows the value). -/
def PLATFORM : String := "rg35xx"

/-- The file system as a map from a path to the bytes of the file there. -/
abbrev FileSystem := String → Option (List Nat)

/-- Result of `fopen(path, "w")`: the file is created or truncated to empty. On
a map from paths to bytes the call always succeeds. -/
def fopen_w (fs : FileSystem) (path : String) : Option FileSystem :=
  some (fun p => if p = path then some [] else fs p)

/-- Result of `fwrite` of `bytes` to the open file at `path`, at its start. -/
def fwrite (fs : FileSystem) (path : String) (bytes : List Nat) : FileSystem :=
  fun p => if p = path then some bytes else fs p

/-- The function `SRAM_getPath`: `SDCARD_PATH "/Saves/%s/%s.sav"` with `core.tag`
and `game.name`. -/
def SRAM_getPath (tag game_name : String) : String :=
  SDCARD_PATH ++ "/Saves/" ++ tag ++ "/" ++ game_name ++ ".sav"

/-- The function `State_getPath`: `SDCARD_PATH "/.userdata/" PLATFORM "/%s-%s/%s.st%i"`
with `core.tag`, `core.name`, `game.name` and `state_slot`. -/
def State_getPath (tag core_name game_name : String) (state_slot : Int) : String :=
  SDCARD_PATH ++ "/.userdata/" ++ PLATFORM ++ "/" ++ tag ++ "-" ++ core_name ++ "/"
    ++ game_name ++ ".st" ++ toString state_slot

/-- What `SRAM_read` and `SRAM_write` leave behind: the plugin's SAVE_RAM
region, the file system, and the messages passed to `LOG_error`. -/
structure SramResult where
  sram : Option (List Nat)
  fs : FileSystem
  errors : List String

/-- The function `SRAM_read()`. `sram_size` is `get_memory_size(SAVE_RAM)` and
`sram` the region `get_memory_data(SAVE_RAM)` points to (`none` for `NULL`).
`fread` copies at most `sram_size` bytes of the file over the start of the region. -/
def SRAM_read (tag game_name : String) (sram_size : Nat) (sram : Option (List Nat))
    (fs : FileSystem) : SramResult :=
  if sram_size = 0 then ⟨sram, fs, []⟩
  else
    let filename := SRAM_getPath tag game_name
    match fs filename with
    | none => ⟨sram, fs, []⟩
    | some file =>
      match sram with
      | none => ⟨none, fs, ["Error reading SRAM data"]⟩
      | some region =>
        let read := file.take sram_size
        let region1 := read ++ region.drop read.length
        if read.length = 0 then ⟨some region1, fs, ["Error reading SRAM data"]⟩
        else ⟨some region1, fs, []⟩

/-- The function `SRAM_write()`. `fwrite` writes the `sram_size` bytes of the
region to the truncated file. -/
def SRAM_write (tag game_name : String) (sram_size : Nat) (sram : Option (List Nat))
    (fs : FileSystem) : SramResult :=
  if sram_size = 0 then ⟨sram, fs, []⟩
  else
    let filename := SRAM_getPath tag game_name
    match fopen_w fs filename with
    | none => ⟨sram, fs, ["Error opening SRAM file"]⟩
    | some fs1 =>
      match sram with
      | none => ⟨none, fs1, ["Error writing SRAM data to file"]⟩
      | some region => ⟨some region, fwrite fs1 filename (region.take sram_size), []⟩

/-- What `State_read` does that can be observed from outside, in order. -/
inductive StateEvent where
  /-- A call of `LOG_error` with this message (the text before the `strerror`
  part and the final newline of the format). -/
  | LOG_error (msg : String)
  /-- The call `core.unserialize(state, state_size)`. -/
  | unserialize (state : List Nat) (state_size : Nat)
deriving DecidableEq

/-- The function `State_read()`: the events up to its `error:` label, in
order, and whether the code after the label is defined. `state_size` is
`core.serialize_size()`, `calloc_ok` tells whether `calloc` returned a buffer,
`unserialize` is the plugin's answer to `core.unserialize`. When `calloc` fails
the code logs `Couldn't allocate memory for state` and jumps to `error:` past
the initialisation of `state_file`, where it tests that variable: the message
is logged, then the function reads an uninitialised pointer (`false`). -/
def State_read (tag core_name game_name : String) (state_slot : Int) (state_size : Nat)
    (calloc_ok : Bool) (unserialize : List Nat → Nat → Bool) (fs : FileSystem) :
    List StateEvent × Bool :=
  if state_size = 0 then ([], true)
  else if !calloc_ok then ([.LOG_error "Couldn't allocate memory for state"], false)
  else
    let filename := State_getPath tag core_name game_name state_slot
    match fs filename with
    | none =>
      if state_slot ≠ 8 then ([.LOG_error ("Error opening state file: " ++ filename)], true)
      else ([], true)
    | some file =>
      let state := file.take state_size
      if state_size ≠ state.length then
        ([.LOG_error ("Error reading state data from file: " ++ filename)], true)
      else if !unserialize state state_size then
        ([.unserialize state state_size,
          .LOG_error ("Error restoring save state: " ++ filename)], true)
      else ([.unserialize state state_size], true)

/-! ## Colour blending macros -/

/-- The macro `cR(A)`: `(((A) & 0xf800) >> 11)`. -/
def cR (A : Nat) : Nat := (A &&& 0xf800) >>> 11
/-- The macro `cG(A)`: `(((A) & 0x7e0) >> 5)`. -/
def cG (A : Nat) : Nat := (A &&& 0x7e0) >>> 5
/-- The macro `cB(A)`: `((A) & 0x1f)`. -/
def cB (A : Nat) : Nat := A &&& 0x1f

/-- The macro `Weight2_3(A, B)`; `<<` binds tighter than `|`. -/
def Weight2_3 (A B : Nat) : Nat :=
  ((((cR A <<< 1) + (cR B * 3)) / 5) &&& 0x1f) <<< 11
    ||| ((((cG A <<< 1) + (cG B * 3)) / 5) &&& 0x3f) <<< 5
    ||| ((((cB A <<< 1) + (cB B * 3)) / 5) &&& 0x1f)

/-- The macro `Weight3_2(A, B)`; `<<` binds tighter than `|`. -/
def Weight3_2 (A B : Nat) : Nat :=
  ((((cR B <<< 1) + (cR A * 3)) / 5) &&& 0x1f) <<< 11
    ||| ((((cG B <<< 1) + (cG A * 3)) / 5) &&& 0x3f) <<< 5
    ||| ((((cB B <<< 1) + (cB A * 3)) / 5) &&& 0x1f)

/-- The red channel of an RGB565 colour as the specification names it: the
top 5 of its 16 bits. -/
def rgb565_R (A : Nat) : Nat := A / 2048
/-- The green channel of an RGB565 colour as the specification names it: the
middle 6 bits. -/
def rgb565_G (A : Nat) : Nat := A / 32 % 64
/-- The blue channel of an RGB565 colour as the specification names it: the
low 5 bits. -/
def rgb565_B (A : Nat) : Nat := A % 32
/-- The RGB565 packing of three channel values as the specification names it,
with channel widths 5/6/5. -/
def rgb565_pack (r g b : Nat) : Nat := r * 2048 + g * 32 + b

/-! ## Sequences of environment calls -/

/-- The globals after a sequence of environment calls `(cmd, data)`, made one
after the other; `none` when one of them faults. -/
def environment_calls : Host → List (Nat × Data) → Option Host
  | h, [] => some h
  | h, (cmd, data) :: rest =>
    match environment_callback cmd data h with
    | some r => environment_calls r.host rest
    | none => none

/-! ## Start-up and shutdown

The effect trace of `main()`: the calls that leave `main.c` (library calls and
calls of plugin entry points), in program order. A call through a function
pointer that `dlsym` left `NULL` is a fault: the trace ends there and `main`
does not return. -/

/-- A C `double`, by its 64 bits; the code only stores these values and passes
them on. -/
abbrev double := Nat

/-- The exit status `EXIT_SUCCESS`. -/
def EXIT_SUCCESS : Int := 0

/-- The shared object at `core_path` as the dynamic loader sees it: whether
`dlopen` returns a handle and which symbols `dlsym` resolves in it. -/
structure SharedObject where
  loads : Bool
  exports : String → Bool

/-- Whether `dlsym(core.handle, symbol)` is non-`NULL`. After a failed `dlopen`
the handle is `NULL` and the lookup goes to the host program, which defines no
`retro_` symbol. -/
def SharedObject.resolves (so : SharedObject) (symbol : String) : Bool :=
  so.loads && so.exports symbol

/-- The symbols `Core_open` looks up with `dlsym`, in the order of the source. -/
def roster : List String :=
  [ "retro_init", "retro_deinit", "retro_get_system_info", "retro_get_system_av_info",
    "retro_set_controller_port_device", "retro_reset", "retro_run", "retro_serialize_size",
    "retro_serialize", "retro_unserialize", "retro_load_game", "retro_load_game_special",
    "retro_unload_game", "retro_get_region", "retro_get_memory_data", "retro_get_memory_size",
    "retro_set_environment", "retro_set_video_refresh", "retro_set_audio_sample",
    "retro_set_audio_sample_batch", "retro_set_input_poll", "retro_set_input_state" ]

/-- One entry of the effect trace. -/
inductive Effect where
  /-- The call `GFX_init()`. -/
  | GFX_init
  /-- The call `dlopen(core_path, RTLD_LAZY)`. -/
  | dlopen (core_path : String)
  /-- A call of `LOG_error` with this message. -/
  | LOG_error (msg : String)
  /-- A call of the plugin through the pointer `dlsym` resolved for `symbol`. -/
  | call (symbol : String)
  /-- The call `system(cmd)`. -/
  | system (cmd : String)
  /-- The call `fopen(path, mode)`. -/
  | fopen (path mode : String)
  /-- A call of `fread` on the file opened last. -/
  | fread
  /-- A call of `fwrite` on the file opened last. -/
  | fwrite
  /-- The call `sync()`. -/
  | sync
  /-- The call `SND_init(sample_rate, fps)`. -/
  | SND_init (sample_rate fps : double)
  /-- The call `GFX_startFrame()`. -/
  | GFX_startFrame
  /-- The call `free(game.data)`. -/
  | free_game_data
  /-- The call `SND_quit()`. -/
  | SND_quit
  /-- The call `dlclose(core.handle)`. -/
  | dlclose
  /-- The call `SDL_FreeSurface(screen)`. -/
  | SDL_FreeSurface
  /-- The call `GFX_quit()`. -/
  | GFX_quit
deriving DecidableEq

/-- The effects of a piece of code and whether it ran to its end (`false`: it
faulted after the effects listed). -/
abbrev Step := List Effect × Bool

/-- A piece of code that performs the effects `es` and cannot fault. -/
def Step.emit (es : List Effect) : Step := (es, true)

/-- A fault. -/
def Step.fault : Step := ([], false)

/-- A call of the plugin through the pointer looked up for `symbol`: a fault
when the pointer is `NULL`. -/
def Step.call (so : SharedObject) (symbol : String) : Step :=
  if so.resolves symbol then ([Effect.call symbol], true) else Step.fault

/-- Sequential composition: `b` runs after `a` unless `a` faulted. -/
def Step.seq (a b : Step) : Step :=
  if a.2 then (a.1 ++ b.1, b.2) else a

/-- The statements of a block, one after the other. -/
def Step.block : List Step → Step
  | [] => Step.emit []
  | a :: rest => Step.seq a (Step.block rest)

/-- The call `strrchr(s, c)` on the characters of `s`: the text before and the
text after the last `c`, or `none` (`NULL`) when `c` does not occur. -/
def strrchr (c : Char) : List Char → Option (List Char × List Char)
  | [] => none
  | x :: xs =>
    match strrchr c xs with
    | some (before, after) => some (x :: before, after)
    | none => if x = c then some ([], xs) else none

/-- The call `basename(path)` for a path that does not end in a slash: the
text after the last slash, the whole path when it has none. -/
def basename (path : String) : String :=
  match strrchr '/' path.data with
  | some (_, after) => String.mk after
  | none => path

/-- The function `Core_getName(in_name, out_name)`: the base name cut at its
last underscore. Without an underscore `strrchr` returns `NULL` and the store
through it faults (`none`). -/
def Core_getName (in_name : String) : Option String :=
  match strrchr '_' (basename in_name).data with
  | some (before, _) => some (String.mk before)
  | none => none

/-- The name `Game_open` stores in `game.name`: `strrchr(path, '/') + 1`.
Without a slash `strrchr` returns `NULL` and the copy from `NULL + 1` faults
(`none`). -/
def Game_name (path : String) : Option String :=
  match strrchr '/' path.data with
  | some (_, after) => some (String.mk after)
  | none => none

/-- Everything outside `main.c` that `main()` depends on: the two program
arguments, the tag `getEmuName` derives from the rom path, the shared object,
the file system, what the plugin reports for SAVE_RAM and in
`retro_system_av_info.timing`, and the number of frames run before
`PAD_justReleased(BTN_POWER)` ends the loop. -/
structure World where
  core_path : String
  rom_path : String
  tag_name : String
  so : SharedObject
  fs : FileSystem
  sram_size : Nat
  sram : Option (List Nat)
  fps : double
  sample_rate : double
  frames : Nat

/-- Effects of `Game_open(rom_path)`. -/
def Game_open (w : World) : Step :=
  match Game_name w.rom_path with
  | none => Step.fault
  | some _ =>
    match w.fs w.rom_path with
    | none =>
      Step.emit [.fopen w.rom_path "r", .LOG_error ("Error opening game: " ++ w.rom_path)]
    | some _ => Step.emit [.fopen w.rom_path "r", .fread]

/-- Effects of `Game_close()`. -/
def Game_close : Step := Step.emit [.free_game_data]

/-- Effects of `SRAM_read()` for the game `game_name`. -/
def SRAM_read_step (w : World) (game_name : String) : Step :=
  Step.seq (Step.call w.so "retro_get_memory_size")
    (if w.sram_size = 0 then Step.emit []
     else
       let filename := SRAM_getPath w.tag_name game_name
       match w.fs filename with
       | none => Step.emit [.fopen filename "r"]
       | some file =>
         Step.block
           [ Step.emit [.fopen filename "r"],
             Step.call w.so "retro_get_memory_data",
             match w.sram with
             | none => Step.emit [.LOG_error "Error reading SRAM data"]
             | some _ =>
               if (file.take w.sram_size).length = 0 then
                 Step.emit [.fread, .LOG_error "Error reading SRAM data"]
               else Step.emit [.fread] ])

/-- Effects of `SRAM_write()` for the game `game_name`; on a map from paths to
bytes `fopen(filename, "w")` succeeds. -/
def SRAM_write_step (w : World) (game_name : String) : Step :=
  Step.seq (Step.call w.so "retro_get_memory_size")
    (if w.sram_size = 0 then Step.emit []
     else
       let filename := SRAM_getPath w.tag_name game_name
       Step.block
         [ Step.emit [.fopen filename "w"],
           Step.call w.so "retro_get_memory_data",
           match w.sram with
           | none => Step.emit [.LOG_error "Error writing SRAM data to file"]
           | some _ => Step.emit [.fwrite],
           Step.emit [.sync] ])

/-- Effects of `Core_open(core_path, tag_name)`: `dlopen`, the lookups (which
leave no trace), `get_system_info`, the name and directory of the core, then
the six callback installers. -/
def Core_open (w : World) : Step :=
  Step.block
    [ Step.emit [.dlopen w.core_path],
      if w.so.loads then Step.emit [] else Step.emit [.LOG_error "dlerror"],
      Step.call w.so "retro_get_system_info",
      match Core_getName w.core_path with
      | none => Step.fault
      | some name =>
        Step.emit [.system ("mkdir -p \"" ++ SDCARD_PATH ++ "/.userdata/" ++ PLATFORM ++ "/"
          ++ w.tag_name ++ "-" ++ name ++ "\"")],
      Step.call w.so "retro_set_environment",
      Step.call w.so "retro_set_video_refresh",
      Step.call w.so "retro_set_audio_sample",
      Step.call w.so "retro_set_audio_sample_batch",
      Step.call w.so "retro_set_input_poll",
      Step.call w.so "retro_set_input_state" ]

/-- Effects of `Core_init()`; afterwards `core.initialized` is 1. -/
def Core_init (w : World) : Step := Step.call w.so "retro_init"

/-- Effects of `Core_load()`: `load_game`, `SRAM_read`, `get_system_av_info`. -/
def Core_load (w : World) (game_name : String) : Step :=
  Step.block
    [ Step.call w.so "retro_load_game",
      SRAM_read_step w game_name,
      Step.call w.so "retro_get_system_av_info" ]

/-- Effects of `Core_unload()`. -/
def Core_unload : Step := Step.emit [.SND_quit]

/-- Effects of `Core_quit()` for the value of `core.initialized`. -/
def Core_quit (w : World) (game_name : String) (initialized : Bool) : Step :=
  if initialized then
    Step.block
      [ SRAM_write_step w game_name,
        Step.call w.so "retro_unload_game",
        Step.call w.so "retro_deinit" ]
  else Step.emit []

/-- Effects of `Core_close()`: `dlclose` when the handle is not `NULL`. -/
def Core_close (w : World) : Step :=
  if w.so.loads then Step.emit [.dlclose] else Step.emit []

/-- Effects of the frame loop when POWER is released after `frames` frames:
each iteration calls `GFX_startFrame` and `core.run`, the last one only
`GFX_startFrame` before the `break`. -/
def frame_loop (w : World) : Nat → Step
  | 0 => Step.emit [.GFX_startFrame]
  | n + 1 => Step.block [Step.emit [.GFX_startFrame], Step.call w.so "retro_run", frame_loop w n]

/-- The function `main()`: its effect trace, and the exit status it returns
(`none` when it faults and does not return). `Core_quit` finds
`core.initialized` set by `Core_init`. -/
def main (w : World) : List Effect × Option Int :=
  let game_name := (Game_name w.rom_path).getD ""
  let run := Step.block
    [ Step.emit [.GFX_init],
      Core_open w,
      Core_init w,
      Game_open w,
      Core_load w game_name,
      Step.emit [.SND_init w.sample_rate w.fps],
      frame_loop w w.frames,
      Game_close,
      Core_unload,
      Core_quit w game_name true,
      Core_close w,
      Step.emit [.SDL_FreeSurface],
      Step.emit [.GFX_quit] ]
  (run.1, if run.2 then some EXIT_SUCCESS else none)

/-- A concrete launch: the gambatte core on a Game Boy Color rom, a plugin that
exports every symbol, no save file on the card, 32 KiB of SAVE_RAM, the bit
patterns of 59.7275005696 fps and 32768 Hz, POWER released after two frames. -/
def gambatte_launch : World where
  core_path := "/mnt/sdcard/.system/rg35xx/cores/gambatte_libretro.so"
  rom_path := "/mnt/sdcard/Roms/GBC/Tetris (World).gb"
  tag_name := "GBC"
  so := ⟨true, fun _ => true⟩
  fs := fun _ => none
  sram_size := 32768
  sram := some (List.replicate 32768 0)
  fps := 4633602715725406318
  sample_rate := 4674736413210574848
  frames := 2

/-- The same launch with a shared object that exports every roster symbol
except `retro_reset`. -/
def gambatte_without_reset : World :=
  { gambatte_launch with so := ⟨true, fun symbol => symbol != "retro_reset"⟩ }

/-- The same launch with a shared object that exports every roster symbol
except `retro_init`. -/
def gambatte_without_init : World :=
  { gambatte_launch with so := ⟨true, fun symbol => symbol != "retro_init"⟩ }

/-! ## Payload shapes and state writing -/

/-- Whether `data` is a payload the libretro ABI documents for the command
`cmd`: the null pointer, or a pointer to a record of the type the arm of `cmd`
casts `data` to. A SET_CORE_OPTIONS payload whose array pointer is `NULL` is not
one of them. -/
def Data.fits (cmd : Nat) : Data → Bool
  | .null => true
  | .bool _ =>
    cmd == RETRO_ENVIRONMENT_GET_OVERSCAN || cmd == RETRO_ENVIRONMENT_GET_CAN_DUPE
      || cmd == RETRO_ENVIRONMENT_GET_VARIABLE_UPDATE
      || cmd == RETRO_ENVIRONMENT_GET_INPUT_BITMASKS
  | .uint _ =>
    cmd == RETRO_ENVIRONMENT_GET_CORE_OPTIONS_VERSION
      || cmd == RETRO_ENVIRONMENT_GET_DISK_CONTROL_INTERFACE_VERSION
      || cmd == RETRO_ENVIRONMENT_SET_MINIMUM_AUDIO_LATENCY
  | .str _ =>
    cmd == RETRO_ENVIRONMENT_GET_SYSTEM_DIRECTORY || cmd == RETRO_ENVIRONMENT_GET_SAVE_DIRECTORY
  | .pixel_format _ => cmd == RETRO_ENVIRONMENT_SET_PIXEL_FORMAT
  | .message _ => cmd == RETRO_ENVIRONMENT_SET_MESSAGE
  | .input_descriptors _ => cmd == RETRO_ENVIRONMENT_SET_INPUT_DESCRIPTORS
  | .disk_control _ => cmd == RETRO_ENVIRONMENT_SET_DISK_CONTROL_INTERFACE
  | .disk_control_ext _ => cmd == RETRO_ENVIRONMENT_SET_DISK_CONTROL_EXT_INTERFACE
  | .variable _ => cmd == RETRO_ENVIRONMENT_GET_VARIABLE
  | .variables _ => cmd == RETRO_ENVIRONMENT_SET_VARIABLES
  | .log_callback _ => cmd == RETRO_ENVIRONMENT_GET_LOG_INTERFACE
  | .core_options vars => cmd == RETRO_ENVIRONMENT_SET_CORE_OPTIONS && vars.isSome
  | .core_options_intl _ => cmd == RETRO_ENVIRONMENT_SET_CORE_OPTIONS_INTL
  | .core_option_display _ _ => cmd == RETRO_ENVIRONMENT_SET_CORE_OPTIONS_DISPLAY
  | .audio_buffer_status_callback _ =>
    cmd == RETRO_ENVIRONMENT_SET_AUDIO_BUFFER_STATUS_CALLBACK

/-- The local `default_value` of the loop of SET_CORE_OPTIONS_INTL, the string
it hands to `strcpy` for an entry: `libretro` for the key `gpsp_save_method`,
the entry's `default_value` (which may be `NULL`) otherwise. -/
def stored_value (var : retro_core_option_definition) : Option String :=
  if "gpsp_save_method" = var.key then some "libretro" else var.default_value

/-- The function `State_write()`: its effects in order and the file system
afterwards. `state_size` is the answer of `core.serialize_size()`, `calloc_ok`
tells whether `calloc` returned a buffer, and `serialize` is the plugin's
`core.serialize` on the zeroed buffer: `none` when it returns false, the bytes
it left in the buffer when it returns true. When `calloc` fails the code jumps
to `error:` past the initialisation of `state_file` and then tests that
variable: a fault. On a map from paths to bytes `fopen(filename, "w")` and
`fwrite` succeed. -/
def State_write (tag core_name game_name : String) (state_slot : Int) (state_size : Nat)
    (calloc_ok : Bool) (serialize : Nat → Option (List Nat)) (fs : FileSystem) :
    Option (List Effect × FileSystem) :=
  if state_size = 0 then some ([.call "retro_serialize_size"], fs)
  else if !calloc_ok then none
  else
    let filename := State_getPath tag core_name game_name state_slot
    match fopen_w fs filename with
    | none =>
      some ([.call "retro_serialize_size", .fopen filename "w",
             .LOG_error ("Error opening state file: " ++ filename), .sync], fs)
    | some fs1 =>
      match serialize state_size with
      | none =>
        some ([.call "retro_serialize_size", .fopen filename "w", .call "retro_serialize",
               .LOG_error ("Error creating save state: " ++ filename), .sync], fs1)
      | some state =>
        some ([.call "retro_serialize_size", .fopen filename "w", .call "retro_serialize",
               .fwrite, .sync],
              fwrite fs1 filename
                ((state ++ List.replicate (state_size - state.length) 0).take state_size))

/-! ## Theorems -/

/-- The scan of GET_VARIABLE returns `value` when an entry at or after `i` has
the key and every entry up to the first such one holds `value`. -/
theorem get_variable_scan_of_first (opts : Nat → OptionSlot) (key value : String) :
    ∀ (n i p : Nat), p < n → (opts (i + p)).key = key →
      (∀ q, q ≤ p → (opts (i + q)).key = key → (opts (i + q)).value = value) →
      get_variable_scan opts key i n = some value := by
  intro n
  induction n with
  | zero => intro i p hp; omega
  | succ n ih =>
    intro i p hp hkey hval
    unfold get_variable_scan
    by_cases h0 : (opts i).key = key
    · have := hval 0 (Nat.zero_le _) (by simpa using h0)
      simp only [Nat.add_zero] at this
      simp [h0, this]
    · simp only [h0, if_false]
      cases p with
      | zero => simp at hkey; exact absurd hkey h0
      | succ p =>
        apply ih (i + 1) p (by omega)
        · have : i + 1 + p = i + (p + 1) := by omega
          rw [this]; exact hkey
        · intro q hq hk
          have e : i + 1 + q = i + (q + 1) := by omega
          rw [e] at hk ⊢
          exact hval (q + 1) (by omega) hk

/-- The scan of GET_VARIABLE finds nothing when no scanned entry has the key. -/
theorem get_variable_scan_none (opts : Nat → OptionSlot) (key : String) :
    ∀ (n i : Nat), (∀ q, q < n → (opts (i + q)).key ≠ key) →
      get_variable_scan opts key i n = none := by
  intro n
  induction n with
  | zero => intro i _; rfl
  | succ n ih =>
    intro i h
    unfold get_variable_scan
    have h0 := h 0 (by omega)
    simp only [Nat.add_zero] at h0
    simp only [h0, if_false]
    apply ih
    intro q hq
    have e : i + 1 + q = i + (q + 1) := by omega
    rw [e]; exact h (q + 1) (by omega)

/-- The value the loop hands to `strcpy` for an entry whose key is not
`gpsp_save_method` is the entry's `default_value`. -/
theorem stored_value_of_ne (var : retro_core_option_definition)
    (h : var.key ≠ "gpsp_save_method") : stored_value var = var.default_value := by
  unfold stored_value
  rw [if_neg (fun e => h e.symm)]

/-- The loop of SET_CORE_OPTIONS_INTL succeeds on an array that fits in the
table and whose keys and stored values are strings of at most 127 bytes,
overwrites the entries `i .. i + length - 1` by position and leaves the others
as they were. -/
theorem set_core_options_intl_loop_spec :
    ∀ (vars : List retro_core_option_definition) (i : Nat) (opts : Nat → OptionSlot),
      i + vars.length ≤ 128 →
      (∀ var ∈ vars, var.key.utf8ByteSize ≤ 127
        ∧ ∃ d, stored_value var = some d ∧ d.utf8ByteSize ≤ 127) →
      ∃ opts1, set_core_options_intl_loop vars i opts = some opts1 ∧
        (∀ j, j < i → opts1 j = opts j) ∧
        (∀ j, i + vars.length ≤ j → opts1 j = opts j) ∧
        (∀ k (hk : k < vars.length), (opts1 (i + k)).key = vars[k].key
          ∧ some (opts1 (i + k)).value = stored_value vars[k]) := by
  intro vars
  induction vars with
  | nil =>
    intro i opts _ _
    exact ⟨opts, rfl, fun _ _ => rfl, fun _ _ => rfl, fun k hk => by simp at hk⟩
  | cons var vars ih =>
    intro i opts hlen hfit
    simp only [List.length_cons] at hlen
    obtain ⟨hkey, d, hd, hdlen⟩ := hfit var (List.mem_cons_self _ _)
    obtain ⟨opts1, h1, hlo, hhi, hmid⟩ := ih (i + 1)
      (fun j => if j = i then ⟨var.key, d⟩ else opts j)
      (by omega) (fun v hv => hfit v (List.mem_cons_of_mem _ hv))
    have hd2 : (if "gpsp_save_method" = var.key then some "libretro" else var.default_value)
        = some d := hd
    refine ⟨opts1, ?_, ?_, ?_, ?_⟩
    · simp only [set_core_options_intl_loop]
      rw [if_pos (by omega), hd2]
      simp only [strcpy128]
      rw [if_pos (by omega), if_pos (by omega)]
      exact h1
    · intro j hj
      rw [hlo j (by omega)]
      simp [Nat.ne_of_lt hj]
    · intro j hj
      simp only [List.length_cons] at hj
      rw [hhi j (by omega)]
      have : j ≠ i := by omega
      simp [this]
    · intro k hk
      cases k with
      | zero =>
        rw [Nat.add_zero, hlo i (by omega)]
        simp [hd]
      | succ k =>
        simp only [List.length_cons] at hk
        have e : i + (k + 1) = i + 1 + k := by omega
        rw [e]
        simpa using hmid k (by omega)

/-- C1: for every pixel-format value `f`, `environment_callback(SET_PIXEL_FORMAT, &f)`
returns true (handled) when `f` is RGB565 and false (unhandled) when `f` is any
other format; XRGB8888, whose value is 1, is refused. The call changes neither
the payload nor the globals. -/
theorem environment_callback_set_pixel_format (f : Nat) (h : Host) :
    environment_callback RETRO_ENVIRONMENT_SET_PIXEL_FORMAT (.pixel_format f) h
      = some ⟨decide (f = RETRO_PIXEL_FORMAT_RGB565), .pixel_format f, h⟩
    ∧ RETRO_PIXEL_FORMAT_XRGB8888 = 1
    ∧ environment_callback RETRO_ENVIRONMENT_SET_PIXEL_FORMAT
        (.pixel_format RETRO_PIXEL_FORMAT_XRGB8888) h
      = some ⟨false, .pixel_format RETRO_PIXEL_FORMAT_XRGB8888, h⟩ := by
  have arm : ∀ g : Nat,
      environment_callback RETRO_ENVIRONMENT_SET_PIXEL_FORMAT (.pixel_format g) h
        = if g ≠ RETRO_PIXEL_FORMAT_RGB565 then some ⟨false, .pixel_format g, h⟩
          else some ⟨true, .pixel_format g, h⟩ := fun _ => rfl
  refine ⟨?_, rfl, ?_⟩
  · rw [arm]
    by_cases hf : f = RETRO_PIXEL_FORMAT_RGB565
    · simp [hf]
    · simp [hf]
  · rw [arm]
    simp [RETRO_PIXEL_FORMAT_XRGB8888, RETRO_PIXEL_FORMAT_RGB565]

/-- The arm of SET_VARIABLES: the list is only printed, the call is handled
and the globals stay as they were. -/
theorem environment_callback_set_variables (vars : List retro_variable) (h : Host) :
    environment_callback RETRO_ENVIRONMENT_SET_VARIABLES (.variables vars) h
      = some ⟨true, .variables vars, h⟩ := rfl

/-- The arm of GET_VARIABLE for a request with a key. -/
theorem environment_callback_get_variable (key : String) (value : Option String) (h : Host) :
    environment_callback RETRO_ENVIRONMENT_GET_VARIABLE (.variable ⟨some key, value⟩) h
      = match get_variable_scan h.tmp_options key 0 128 with
        | some v => some ⟨true, .variable ⟨some key, some v⟩, h⟩
        | none => some ⟨true, .variable ⟨some key, value⟩, h⟩ := rfl

/-- The arm of SET_CORE_OPTIONS_INTL for a record with a `us` array. -/
theorem environment_callback_set_core_options_intl
    (us : List retro_core_option_definition) (h : Host) :
    environment_callback RETRO_ENVIRONMENT_SET_CORE_OPTIONS_INTL (.core_options_intl (some us)) h
      = match set_core_options_intl_loop us 0 h.tmp_options with
        | some opts => some ⟨true, .core_options_intl (some us), { h with tmp_options := opts }⟩
        | none => none := rfl

/-- C2, as the code has it: SET_VARIABLES is handled but stores nothing, so a
following GET_VARIABLE for any key answers exactly as it would have before the
call, whatever the value specs of the list; on the initial table a request for
a non-empty key such as `foo` keeps the value it came with (null). -/
theorem set_variables_leaves_store (h : Host) (vars : List retro_variable)
    (key : String) (value : Option String) :
    (∃ r, environment_callback RETRO_ENVIRONMENT_SET_VARIABLES (.variables vars) h = some r
      ∧ r.ret = true ∧ r.host.tmp_options = h.tmp_options
      ∧ environment_callback RETRO_ENVIRONMENT_GET_VARIABLE (.variable ⟨some key, value⟩) r.host
        = environment_callback RETRO_ENVIRONMENT_GET_VARIABLE (.variable ⟨some key, value⟩) h)
    ∧ (key ≠ "" →
        ∃ r, environment_callback RETRO_ENVIRONMENT_SET_VARIABLES (.variables vars) Host.init
            = some r
          ∧ environment_callback RETRO_ENVIRONMENT_GET_VARIABLE
              (.variable ⟨some key, value⟩) r.host
            = some ⟨true, .variable ⟨some key, value⟩, r.host⟩) := by
  constructor
  · exact ⟨_, environment_callback_set_variables vars h, rfl, rfl, rfl⟩
  · intro hk
    refine ⟨_, environment_callback_set_variables vars Host.init, ?_⟩
    rw [environment_callback_get_variable]
    rw [get_variable_scan_none]
    intro q _
    simpa [Host.init] using fun e => hk e.symm

/-- C2, counterexample: after SET_VARIABLES with the single entry
`foo` / `Foo; on|off` on the initial table, GET_VARIABLE for `foo` is handled
and leaves the value null; it does not write `on`. -/
theorem set_variables_then_get_variable_foo :
    ∃ r1 r2,
      environment_callback RETRO_ENVIRONMENT_SET_VARIABLES
        (.variables [⟨some "foo", some "Foo; on|off"⟩]) Host.init = some r1
      ∧ environment_callback RETRO_ENVIRONMENT_GET_VARIABLE
          (.variable ⟨some "foo", none⟩) r1.host = some r2
      ∧ r2.data = .variable ⟨some "foo", none⟩
      ∧ r2.data ≠ .variable ⟨some "foo", some "on"⟩ := by
  refine ⟨⟨true, .variables [⟨some "foo", some "Foo; on|off"⟩], Host.init⟩,
    ⟨true, .variable ⟨some "foo", none⟩, Host.init⟩,
    environment_callback_set_variables _ _, ?_, rfl, by decide⟩
  rw [environment_callback_get_variable, get_variable_scan_none]
  intro q _
  simp [Host.init]

/-- SET_CORE_OPTIONS_INTL faults on an array whose first entry has a key of
128 bytes or more: `strcpy` writes past the end of `tmp_options[0].key`. -/
theorem set_core_options_intl_long_key (key : String) (d : Option String)
    (vars : List retro_core_option_definition) (h : Host) (hk : 128 ≤ key.utf8ByteSize) :
    environment_callback RETRO_ENVIRONMENT_SET_CORE_OPTIONS_INTL
      (.core_options_intl (some (⟨key, d⟩ :: vars))) h = none := by
  have hl : strcpy128 (some key) = none := by
    simp only [strcpy128]
    rw [if_neg (by omega)]
  have hloop : set_core_options_intl_loop (⟨key, d⟩ :: vars) 0 h.tmp_options = none := by
    simp only [set_core_options_intl_loop, hl]
    split <;> rfl
  rw [environment_callback_set_core_options_intl, hloop]

/-- SET_CORE_OPTIONS_INTL faults on an array whose first entry has a key other
than `gpsp_save_method` and a default that is `NULL` or of 128 bytes or more:
`strcpy` reads through the null pointer or writes past the end of
`tmp_options[0].value`. -/
theorem set_core_options_intl_bad_default (key : String) (d : Option String)
    (vars : List retro_core_option_definition) (h : Host) (hk : key ≠ "gpsp_save_method")
    (hd : ∀ s, d = some s → 128 ≤ s.utf8ByteSize) :
    environment_callback RETRO_ENVIRONMENT_SET_CORE_OPTIONS_INTL
      (.core_options_intl (some (⟨key, d⟩ :: vars))) h = none := by
  have hl : strcpy128 d = none := by
    cases d with
    | none => rfl
    | some s =>
      simp only [strcpy128]
      rw [if_neg (by have := hd s rfl; omega)]
  have hloop : set_core_options_intl_loop (⟨key, d⟩ :: vars) 0 h.tmp_options = none := by
    simp only [set_core_options_intl_loop]
    rw [if_neg (fun e : "gpsp_save_method" = key => hk e.symm), hl]
    cases strcpy128 (some key) <;> simp
  rw [environment_callback_set_core_options_intl, hloop]

/-- A `strcpy` into a buffer of 128 bytes that does not fault copied a
non-null string of at most 127 bytes. -/
theorem strcpy128_eq_some (src : Option String) (s : String) (h : strcpy128 src = some s) :
    src = some s ∧ s.utf8ByteSize ≤ 127 := by
  cases src with
  | none => simp [strcpy128] at h
  | some t =>
    simp only [strcpy128] at h
    by_cases ht : t.utf8ByteSize < 128
    · rw [if_pos ht] at h
      have e := Option.some.inj h
      subst e
      exact ⟨rfl, by omega⟩
    · rw [if_neg ht] at h
      exact absurd h (by simp)

/-- The loop of SET_CORE_OPTIONS_INTL ends without a fault only on an array
that fits in the table from index `i` on and whose keys and stored values are
strings of at most 127 bytes. -/
theorem set_core_options_intl_loop_some :
    ∀ (vars : List retro_core_option_definition) (i : Nat) (opts opts1 : Nat → OptionSlot),
      set_core_options_intl_loop vars i opts = some opts1 →
      (vars = [] ∨ i + vars.length ≤ 128)
      ∧ ∀ var ∈ vars, var.key.utf8ByteSize ≤ 127
        ∧ ∃ d, stored_value var = some d ∧ d.utf8ByteSize ≤ 127 := by
  intro vars
  induction vars with
  | nil => intro i opts opts1 _; exact ⟨Or.inl rfl, fun _ hv => by simp at hv⟩
  | cons var vars ih =>
    intro i opts opts1 h
    simp only [set_core_options_intl_loop] at h
    by_cases hi : i < 128
    · rw [if_pos hi] at h
      cases hk : strcpy128 (some var.key) with
      | none => rw [hk] at h; simp at h
      | some key =>
        cases hd : strcpy128
            (if "gpsp_save_method" = var.key then some "libretro" else var.default_value) with
        | none => rw [hk, hd] at h; simp at h
        | some value =>
          rw [hk, hd] at h
          simp only at h
          obtain ⟨hlen, hfit⟩ := ih (i + 1) _ opts1 h
          have hk2 := strcpy128_eq_some _ _ hk
          have hd2 := strcpy128_eq_some _ _ hd
          have hke : var.key = key := Option.some.inj hk2.1
          refine ⟨Or.inr ?_, ?_⟩
          · simp only [List.length_cons]
            rcases hlen with rfl | hlen
            · simp; omega
            · omega
          · intro v hv
            rcases List.mem_cons.1 hv with rfl | hv
            · exact ⟨by rw [hke]; exact hk2.2, value, hd2.1, hd2.2⟩
            · exact hfit v hv
    · rw [if_neg hi] at h
      exact absurd h (by simp)

/-- SET_CORE_OPTIONS_INTL with a `us` array returns exactly when the array has
at most 128 entries and its keys and stored values are strings of at most 127
bytes; on every other array the arm faults. -/
theorem environment_callback_set_core_options_intl_returns
    (us : List retro_core_option_definition) (h : Host) :
    (∃ r, environment_callback RETRO_ENVIRONMENT_SET_CORE_OPTIONS_INTL
        (.core_options_intl (some us)) h = some r)
    ↔ (us.length ≤ 128 ∧ ∀ var ∈ us, var.key.utf8ByteSize ≤ 127
        ∧ ∃ d, stored_value var = some d ∧ d.utf8ByteSize ≤ 127) := by
  rw [environment_callback_set_core_options_intl]
  constructor
  · rintro ⟨r, hr⟩
    cases hl : set_core_options_intl_loop us 0 h.tmp_options with
    | none => rw [hl] at hr; simp at hr
    | some opts1 =>
      obtain ⟨hlen, hfit⟩ := set_core_options_intl_loop_some us 0 _ _ hl
      refine ⟨?_, hfit⟩
      rcases hlen with rfl | hlen
      · simp
      · omega
  · rintro ⟨hlen, hfit⟩
    obtain ⟨opts1, h1, -⟩ :=
      set_core_options_intl_loop_spec us 0 h.tmp_options (by omega) hfit
    rw [h1]
    exact ⟨_, rfl⟩

/-- The stores of a `memcpy` of `n` bytes: one per 16-bit unit. -/
theorem mem_memcpy16 (s : Store) (dst : Int) (src : Nat → Nat) (srcoff n : Nat) :
    s ∈ memcpy16 dst src srcoff n ↔
      ∃ k, k < n / 2 ∧ s = ⟨dst + 2 * (k : Int), src (srcoff + 2 * k)⟩ := by
  simp [memcpy16, eq_comm]

/-- The stores of a `memset` of `n` bytes: one per 16-bit unit. -/
theorem mem_memset16 (s : Store) (dst : Int) (byte n : Nat) :
    s ∈ memset16 dst byte n ↔
      ∃ k, k < n / 2 ∧ s = ⟨dst + 2 * (k : Int), byte * 256 + byte⟩ := by
  simp [memset16, eq_comm]

/-- The stores of `scale1x`: row `y` of the source is copied, `min(w * 2, SCREEN_PITCH)`
bytes of it, to row `y` below `dst`. -/
theorem mem_scale1x (s : Store) (w h pitch : Nat) (src : Nat → Nat) (dst : Int) :
    s ∈ scale1x w h pitch src dst ↔
      ∃ y, y < h ∧ ∃ k, k < min (w * 2) 1280 / 2 ∧
        s = ⟨dst + 2 * ((y * 640 : Nat) : Int) + 2 * (k : Int),
             src (2 * (y * (pitch / 2)) + 2 * k)⟩ := by
  simp [scale1x, mem_memcpy16, SCREEN_BPP, SCREEN_PITCH]

/-- The stores of `scale2x`: for each source pixel `(x, y)` one store in each of the
4 cells `(2x + i, 2y + j)` of its block, relative to `dst`. -/
theorem mem_scale2x (s : Store) (w h pitch : Nat) (src : Nat → Nat) (dst : Int) :
    s ∈ scale2x w h pitch src dst ↔
      ∃ y, y < h ∧ ∃ x, x < w ∧ ∃ i : Nat, i < 2 ∧ ∃ j : Nat, j < 2 ∧
        s = ⟨dst + (u32 (y * 1280 * 2) : Nat) + 1280 * (j : Int) + 2 * ((2 * x + i : Nat) : Int),
             src (u32 (y * pitch) + 2 * x)⟩ := by
  simp only [scale2x, List.mem_flatMap, List.mem_range, List.mem_cons,
    SCREEN_WIDTH, SCREEN_PITCH, List.not_mem_nil, or_false]
  constructor
  · rintro ⟨y, hy, x, hx, h | h | h | h⟩
    · refine ⟨y, hy, x, hx, 0, by decide, 0, by decide, ?_⟩
      rw [h]; congr 1; push_cast; ring
    · refine ⟨y, hy, x, hx, 1, by decide, 0, by decide, ?_⟩
      rw [h]; congr 1; push_cast; ring
    · refine ⟨y, hy, x, hx, 0, by decide, 1, by decide, ?_⟩
      rw [h]; congr 1; push_cast; ring
    · refine ⟨y, hy, x, hx, 1, by decide, 1, by decide, ?_⟩
      rw [h]; congr 1; push_cast; ring
  · rintro ⟨y, hy, x, hx, i, hi, j, hj, h⟩
    refine ⟨y, hy, x, hx, ?_⟩
    have hi1 : i = 0 ∨ i = 1 := by omega
    have hj1 : j = 0 ∨ j = 1 := by omega
    rcases hi1 with rfl | rfl <;> rcases hj1 with rfl | rfl
    · left; rw [h]; congr 1; push_cast; ring
    · right; right; left; rw [h]; congr 1; push_cast; ring
    · right; left; rw [h]; congr 1; push_cast; ring
    · right; right; right; rw [h]; congr 1; push_cast; ring

/-- The stores of `scale3x`: for each source pixel `(x, y)` one store in each of the
9 cells `(3x + i, 3y + j)` of its block, relative to `dst`. -/
theorem mem_scale3x (s : Store) (w h pitch : Nat) (src : Nat → Nat) (dst : Int) :
    s ∈ scale3x w h pitch src dst ↔
      ∃ y, y < h ∧ ∃ x, x < w ∧ ∃ i : Nat, i < 3 ∧ ∃ j : Nat, j < 3 ∧
        s = ⟨dst + (u32 (y * 1280 * 3) : Nat) + 1280 * (j : Int) + 2 * ((3 * x + i : Nat) : Int),
             src (u32 (y * pitch) + 2 * x)⟩ := by
  simp only [scale3x, List.mem_flatMap, List.mem_range, List.mem_cons,
    SCREEN_WIDTH, SCREEN_PITCH, List.not_mem_nil, or_false]
  constructor
  · rintro ⟨y, hy, x, hx, h | h | h | h | h | h | h | h | h⟩
    · refine ⟨y, hy, x, hx, 0, by decide, 0, by decide, ?_⟩
      rw [h]; congr 1; push_cast; ring
    · refine ⟨y, hy, x, hx, 1, by decide, 0, by decide, ?_⟩
      rw [h]; congr 1; push_cast; ring
    · refine ⟨y, hy, x, hx, 2, by decide, 0, by decide, ?_⟩
      rw [h]; congr 1; push_cast; ring
    · refine ⟨y, hy, x, hx, 0, by decide, 1, by decide, ?_⟩
      rw [h]; congr 1; push_cast; ring
    · refine ⟨y, hy, x, hx, 1, by decide, 1, by decide, ?_⟩
      rw [h]; congr 1; push_cast; ring
    · refine ⟨y, hy, x, hx, 2, by decide, 1, by decide, ?_⟩
      rw [h]; congr 1; push_cast; ring
    · refine ⟨y, hy, x, hx, 0, by decide, 2, by decide, ?_⟩
      rw [h]; congr 1; push_cast; ring
    · refine ⟨y, hy, x, hx, 1, by decide, 2, by decide, ?_⟩
      rw [h]; congr 1; push_cast; ring
    · refine ⟨y, hy, x, hx, 2, by decide, 2, by decide, ?_⟩
      rw [h]; congr 1; push_cast; ring
  · rintro ⟨y, hy, x, hx, i, hi, j, hj, h⟩
    refine ⟨y, hy, x, hx, ?_⟩
    have hi1 : i = 0 ∨ i = 1 ∨ i = 2 := by omega
    have hj1 : j = 0 ∨ j = 1 ∨ j = 2 := by omega
    rcases hi1 with rfl | rfl | rfl <;> rcases hj1 with rfl | rfl | rfl
    · left; rw [h]; congr 1; push_cast; ring
    · right; right; right; left; rw [h]; congr 1; push_cast; ring
    · right; right; right; right; right; right; left; rw [h]; congr 1; push_cast; ring
    · right; left; rw [h]; congr 1; push_cast; ring
    · right; right; right; right; left; rw [h]; congr 1; push_cast; ring
    · right; right; right; right; right; right; right; left; rw [h]; congr 1; push_cast; ring
    · right; right; left; rw [h]; congr 1; push_cast; ring
    · right; right; right; right; right; left; rw [h]; congr 1; push_cast; ring
    · right; right; right; right; right; right; right; right; rw [h]; congr 1; push_cast; ring

/-- The stores of `scale4x`: for each source pixel `(x, y)` one store in each of the
16 cells `(4x + i, 4y + j)` of its block, relative to `dst`. -/
theorem mem_scale4x (s : Store) (w h pitch : Nat) (src : Nat → Nat) (dst : Int) :
    s ∈ scale4x w h pitch src dst ↔
      ∃ y, y < h ∧ ∃ x, x < w ∧ ∃ i : Nat, i < 4 ∧ ∃ j : Nat, j < 4 ∧
        s = ⟨dst + (u32 (y * 1280 * 4) : Nat) + 1280 * (j : Int) + 2 * ((4 * x + i : Nat) : Int),
             src (u32 (y * pitch) + 2 * x)⟩ := by
  simp only [scale4x, List.mem_flatMap, List.mem_range, List.mem_cons,
    SCREEN_WIDTH, SCREEN_PITCH, List.not_mem_nil, or_false]
  constructor
  · rintro ⟨y, hy, x, hx, h | h | h | h | h | h | h | h | h | h | h | h | h | h | h | h⟩
    · refine ⟨y, hy, x, hx, 0, by decide, 0, by decide, ?_⟩
      rw [h]; congr 1; push_cast; ring
    · refine ⟨y, hy, x, hx, 1, by decide, 0, by decide, ?_⟩
      rw [h]; congr 1; push_cast; ring
    · refine ⟨y, hy, x, hx, 2, by decide, 0, by decide, ?_⟩
      rw [h]; congr 1; push_cast; ring
    · refine ⟨y, hy, x, hx, 3, by decide, 0, by decide, ?_⟩
      rw [h]; congr 1; push_cast; ring
    · refine ⟨y, hy, x, hx, 0, by decide, 1, by decide, ?_⟩
      rw [h]; congr 1; push_cast; ring
    · refine ⟨y, hy, x, hx, 1, by decide, 1, by decide, ?_⟩
      rw [h]; congr 1; push_cast; ring
    · refine ⟨y, hy, x, hx, 2, by decide, 1, by decide, ?_⟩
      rw [h]; congr 1; push_cast; ring
    · refine ⟨y, hy, x, hx, 3, by decide, 1, by decide, ?_⟩
      rw [h]; congr 1; push_cast; ring
    · refine ⟨y, hy, x, hx, 0, by decide, 2, by decide, ?_⟩
      rw [h]; congr 1; push_cast; ring
    · refine ⟨y, hy, x, hx, 1, by decide, 2, by decide, ?_⟩
      rw [h]; congr 1; push_cast; ring
    · refine ⟨y, hy, x, hx, 2, by decide, 2, by decide, ?_⟩
      rw [h]; congr 1; push_cast; ring
    · refine ⟨y, hy, x, hx, 3, by decide, 2, by decide, ?_⟩
      rw [h]; congr 1; push_cast; ring
    · refine ⟨y, hy, x, hx, 0, by decide, 3, by decide, ?_⟩
      rw [h]; congr 1; push_cast; ring
    · refine ⟨y, hy, x, hx, 1, by decide, 3, by decide, ?_⟩
      rw [h]; congr 1; push_cast; ring
    · refine ⟨y, hy, x, hx, 2, by decide, 3, by decide, ?_⟩
      rw [h]; congr 1; push_cast; ring
    · refine ⟨y, hy, x, hx, 3, by decide, 3, by decide, ?_⟩
      rw [h]; congr 1; push_cast; ring
  · rintro ⟨y, hy, x, hx, i, hi, j, hj, h⟩
    refine ⟨y, hy, x, hx, ?_⟩
    have hi1 : i = 0 ∨ i = 1 ∨ i = 2 ∨ i = 3 := by omega
    have hj1 : j = 0 ∨ j = 1 ∨ j = 2 ∨ j = 3 := by omega
    rcases hi1 with rfl | rfl | rfl | rfl <;> rcases hj1 with rfl | rfl | rfl | rfl
    · left; rw [h]; congr 1; push_cast; ring
    · right; right; right; right; left; rw [h]; congr 1; push_cast; ring
    · right; right; right; right; right; right; right; right; left; rw [h]; congr 1; push_cast; ring
    · right; right; right; right; right; right; right; right; right; right; right; right; left; rw [h]; congr 1; push_cast; ring
    · right; left; rw [h]; congr 1; push_cast; ring
    · right; right; right; right; right; left; rw [h]; congr 1; push_cast; ring
    · right; right; right; right; right; right; right; right; right; left; rw [h]; congr 1; push_cast; ring
    · right; right; right; right; right; right; right; right; right; right; right; right; right; left; rw [h]; congr 1; push_cast; ring
    · right; right; left; rw [h]; congr 1; push_cast; ring
    · right; right; right; right; right; right; left; rw [h]; congr 1; push_cast; ring
    · right; right; right; right; right; right; right; right; right; right; left; rw [h]; congr 1; push_cast; ring
    · right; right; right; right; right; right; right; right; right; right; right; right; right; right; left; rw [h]; congr 1; push_cast; ring
    · right; right; right; left; rw [h]; congr 1; push_cast; ring
    · right; right; right; right; right; right; right; left; rw [h]; congr 1; push_cast; ring
    · right; right; right; right; right; right; right; right; right; right; right; left; rw [h]; congr 1; push_cast; ring
    · right; right; right; right; right; right; right; right; right; right; right; right; right; right; right; rw [h]; congr 1; push_cast; ring

/-- The stores of the frame-pacing block: the zeroed strip, the two markers of
each row, the bar. -/
theorem mem_scale_frame_bar (s : Store) (dst : Int) (frame : Nat) :
    s ∈ scale_frame_bar dst frame ↔
      (∃ k : Nat, k < 10240 ∧ s = ⟨dst + 160 + 2 * (k : Int), 0⟩)
      ∨ (∃ y : Nat, y < 16 ∧ (s = ⟨dst + 160 + 1280 * (y : Int) - 2, 65535⟩
            ∨ s = ⟨dst + 160 + 1280 * (y : Int) + 960, 65535⟩))
      ∨ (∃ y : Nat, y < 16 ∧ ∃ k : Nat, k < 8 ∧
            s = ⟨dst + 160 + 16 * (frame : Int) + 1280 * (y : Int) + 2 * (k : Int), 65535⟩) := by
  simp only [scale_frame_bar, List.mem_append, List.mem_flatMap, List.mem_range, mem_memset16,
    SCREEN_WIDTH, SCREEN_BPP, SCREEN_PITCH]
  norm_num
  constructor
  · rintro ((⟨k, hk, h⟩ | ⟨y, hy, h | h⟩) | ⟨y, hy, k, hk, h⟩)
    · exact Or.inl ⟨k, hk, h⟩
    · exact Or.inr (Or.inl ⟨y, hy, Or.inl (by rw [h]; congr 1; ring)⟩)
    · exact Or.inr (Or.inl ⟨y, hy, Or.inr (by rw [h]; congr 1; ring)⟩)
    · exact Or.inr (Or.inr ⟨y, hy, k, hk, by rw [h]; congr 1; ring⟩)
  · rintro (⟨k, hk, h⟩ | ⟨y, hy, h | h⟩ | ⟨y, hy, k, hk, h⟩)
    · exact Or.inl (Or.inl ⟨k, hk, h⟩)
    · exact Or.inl (Or.inr ⟨y, hy, Or.inl (by rw [h]; congr 1; ring)⟩)
    · exact Or.inl (Or.inr ⟨y, hy, Or.inr (by rw [h]; congr 1; ring)⟩)
    · exact Or.inr ⟨y, hy, k, hk, by rw [h]; congr 1; ring⟩

/-- The scaled image fits on the screen: `width * scale ≤ SCREEN_WIDTH` and
`height * scale ≤ SCREEN_HEIGHT`. -/
theorem scale_factor_fits (width height : Nat) :
    width * scale_factor width height ≤ 640 ∧ height * scale_factor width height ≤ 480 := by
  unfold scale_factor SCREEN_WIDTH SCREEN_HEIGHT
  constructor
  · calc width * min (640 / width) (480 / height)
        ≤ width * (640 / width) := Nat.mul_le_mul_left _ (Nat.min_le_left _ _)
      _ ≤ 640 := Nat.mul_div_le 640 width
  · calc height * min (640 / width) (480 / height)
        ≤ height * (480 / height) := Nat.mul_le_mul_left _ (Nat.min_le_right _ _)
      _ ≤ 480 := Nat.mul_div_le 480 height

/-- A source no larger than the screen has a factor of at least one. -/
theorem scale_factor_pos (width height : Nat) (hw1 : 1 ≤ width) (hw : width ≤ 640)
    (hh1 : 1 ≤ height) (hh : height ≤ 480) : 1 ≤ scale_factor width height := by
  unfold scale_factor SCREEN_WIDTH SCREEN_HEIGHT
  have h1 : 1 ≤ 640 / width := (Nat.le_div_iff_mul_le (by omega)).2 (by omega)
  have h2 : 1 ≤ 480 / height := (Nat.le_div_iff_mul_le (by omega)).2 (by omega)
  exact Nat.le_min.2 ⟨h1, h2⟩

/-- The offset `ox` is the natural number `(640 - width * scale) / 2`. -/
theorem scale_ox_eq (width height : Nat) :
    scale_ox width height = (((640 - width * scale_factor width height) / 2 : Nat) : Int) := by
  have h := (scale_factor_fits width height).1
  unfold scale_ox SCREEN_WIDTH
  simp only
  rw [Int.tdiv_eq_ediv (by omega) (by omega)]
  omega

/-- The offset `oy` is the natural number `(480 - height * scale) / 2`. -/
theorem scale_oy_eq (width height : Nat) :
    scale_oy width height = (((480 - height * scale_factor width height) / 2 : Nat) : Int) := by
  have h := (scale_factor_fits width height).2
  unfold scale_oy SCREEN_HEIGHT
  simp only
  rw [Int.tdiv_eq_ediv (by omega) (by omega)]
  omega

/-- The function `scale` on a source with non-zero sides, with the offsets as
natural numbers. -/
theorem scale_eq (src : Nat → Nat) (width height pitch frame : Nat)
    (hw1 : 1 ≤ width) (hh1 : 1 ≤ height) :
    scale src width height pitch 0 frame =
      some (scale_kernel (scale_factor width height) width height pitch src
              (0 + (scale_oy width height * 1280 + scale_ox width height * 2))
            ++ scale_frame_bar 0 frame, scale_next_frame frame) := by
  unfold scale
  rw [if_neg (by omega)]
  simp [SCREEN_PITCH, SCREEN_BPP]

/-- C6: for every source with `1 ≤ width ≤ SCREEN_WIDTH` and
`1 ≤ height ≤ SCREEN_HEIGHT` and every value 0..59 of the frame counter,
`scale()` returns, the counter stays in 0..59, and every 16-bit store it
performs (kernel output and frame-pacing bar) lies inside the
`SCREEN_PITCH * SCREEN_HEIGHT` bytes of the 640x480 surface. -/
theorem scale_stores_inside_surface (src : Nat → Nat) (width height pitch frame : Nat)
    (hw1 : 1 ≤ width) (hw : width ≤ SCREEN_WIDTH)
    (hh1 : 1 ≤ height) (hh : height ≤ SCREEN_HEIGHT) (hf : frame < 60) :
    ∃ stores frame1, scale src width height pitch 0 frame = some (stores, frame1)
      ∧ frame1 < 60
      ∧ SCREEN_PITCH = 1280 ∧ SCREEN_WIDTH = 640 ∧ SCREEN_HEIGHT = 480
      ∧ ∀ s ∈ stores, 0 ≤ s.off ∧ s.off + 2 ≤ ((SCREEN_PITCH * SCREEN_HEIGHT : Nat) : Int) := by
  simp only [SCREEN_WIDTH, SCREEN_HEIGHT] at hw hh
  refine ⟨_, _, scale_eq src width height pitch frame hw1 hh1, ?_, rfl, rfl, rfl, ?_⟩
  · unfold scale_next_frame; split <;> omega
  intro s hs
  simp only [SCREEN_PITCH, SCREEN_HEIGHT]
  rw [List.mem_append] at hs
  rcases hs with hs | hs
  · obtain ⟨hW, hH⟩ := scale_factor_fits width height
    have hk := scale_factor_pos width height hw1 hw hh1 hh
    rw [scale_ox_eq, scale_oy_eq] at hs
    generalize scale_factor width height = k at hs hW hH hk
    unfold scale_kernel at hs
    split at hs
    · subst k
      rw [mem_scale4x] at hs
      obtain ⟨y, hy, x, hx, i, hi, j, hj, rfl⟩ := hs
      have hu : u32 (y * 1280 * 4) = y * 1280 * 4 := Nat.mod_eq_of_lt (by omega)
      rw [hu]
      simp only
      omega
    · split at hs
      · subst k
        rw [mem_scale3x] at hs
        obtain ⟨y, hy, x, hx, i, hi, j, hj, rfl⟩ := hs
        have hu : u32 (y * 1280 * 3) = y * 1280 * 3 := Nat.mod_eq_of_lt (by omega)
        rw [hu]
        simp only
        omega
      · split at hs
        · subst k
          rw [mem_scale2x] at hs
          obtain ⟨y, hy, x, hx, i, hi, j, hj, rfl⟩ := hs
          have hu : u32 (y * 1280 * 2) = y * 1280 * 2 := Nat.mod_eq_of_lt (by omega)
          rw [hu]
          simp only
          omega
        · rw [mem_scale1x] at hs
          obtain ⟨y, hy, c, hc, rfl⟩ := hs
          have h1 : width ≤ width * k := Nat.le_mul_of_pos_right _ hk
          have h2 : height ≤ height * k := Nat.le_mul_of_pos_right _ hk
          generalize width * k = W at hW h1
          generalize height * k = H at hH h2
          simp only
          omega
  · rw [mem_scale_frame_bar] at hs
    rcases hs with ⟨k, hk, rfl⟩ | ⟨y, hy, rfl | rfl⟩ | ⟨y, hy, k, hk, rfl⟩ <;> simp only <;> omega

/-- C6 at a concrete input: a 160x144 frame with a pitch of 512 bytes, frame
counter 59. -/
theorem scale_stores_inside_surface_witness :
    ∃ stores frame1, scale (fun _ => 0) 160 144 512 0 59 = some (stores, frame1)
      ∧ frame1 < 60
      ∧ SCREEN_PITCH = 1280 ∧ SCREEN_WIDTH = 640 ∧ SCREEN_HEIGHT = 480
      ∧ ∀ s ∈ stores, 0 ≤ s.off ∧ s.off + 2 ≤ ((SCREEN_PITCH * SCREEN_HEIGHT : Nat) : Int) :=
  scale_stores_inside_surface (fun _ => 0) 160 144 512 59
    (by decide) (by decide) (by decide) (by decide) (by decide)

/-- C4, the code at a 96x64 source: the factor is `min(6, 7) = 6`, not clamped
to 4; the offsets are those of the factor 6, `ox = 32` and `oy = 48`; the
`switch` takes its `default` arm, so the 1x kernel draws the image at byte
offset `48 * SCREEN_PITCH + 32 * SCREEN_BPP`. With the factor clamped to 4 the
offsets would be 128 and 112 and the kernel `scale4x`. -/
theorem scale_small_source_not_clamped (src : Nat → Nat) (pitch frame : Nat) :
    scale_factor 96 64 = 6
    ∧ scale_ox 96 64 = 32 ∧ scale_oy 96 64 = 48
    ∧ scale src 96 64 pitch 0 frame
        = some (scale1x 96 64 pitch src (48 * 1280 + 32 * 2) ++ scale_frame_bar 0 frame,
                scale_next_frame frame)
    ∧ min (max (min (SCREEN_WIDTH / 96) (SCREEN_HEIGHT / 64)) 1) 4 = 4
    ∧ (SCREEN_WIDTH - 96 * 4) / 2 = 128 ∧ (SCREEN_HEIGHT - 64 * 4) / 2 = 112 := by
  refine ⟨by decide, by decide, by decide, ?_, by decide, by decide, by decide⟩
  rw [scale_eq src 96 64 pitch frame (by decide) (by decide)]
  have h1 : scale_factor 96 64 = 6 := by decide
  have h2 : scale_ox 96 64 = 32 := by decide
  have h3 : scale_oy 96 64 = 48 := by decide
  rw [h1, h2, h3]
  simp [scale_kernel]

/-- Stores of a concatenation are applied one list after the other. -/
theorem apply_stores_append (l1 l2 : List Store) (mem : Int → Nat) :
    apply_stores (l1 ++ l2) mem = apply_stores l2 (apply_stores l1 mem) := by
  induction l1 generalizing mem with
  | nil => rfl
  | cons s l1 ih => simp only [List.cons_append, apply_stores]; exact ih _

/-- A cell no store of the list addresses keeps its contents. -/
theorem apply_stores_of_not_mem (l : List Store) (mem : Int → Nat) (b : Int)
    (h : ∀ s ∈ l, s.off ≠ b) : apply_stores l mem b = mem b := by
  induction l generalizing mem with
  | nil => rfl
  | cons s l ih =>
    simp only [apply_stores]
    rw [ih _ (fun t ht => h t (List.mem_cons_of_mem _ ht))]
    have := h s (List.mem_cons_self _ _)
    simp [Ne.symm this]

/-- A cell that the list addresses, always with the value `v`, holds `v` afterwards. -/
theorem apply_stores_of_forall (l : List Store) (mem : Int → Nat) (b : Int) (v : Nat)
    (hex : ∃ s ∈ l, s.off = b) (hall : ∀ s ∈ l, s.off = b → s.val = v) :
    apply_stores l mem b = v := by
  induction l generalizing mem with
  | nil => obtain ⟨s, hs, _⟩ := hex; simp at hs
  | cons s l ih =>
    simp only [apply_stores]
    by_cases hl : ∃ t ∈ l, t.off = b
    · exact ih _ hl (fun t ht => hall t (List.mem_cons_of_mem _ ht))
    · have hn : ∀ t ∈ l, t.off ≠ b := fun t ht e => hl ⟨t, ht, e⟩
      rw [apply_stores_of_not_mem l _ b hn]
      obtain ⟨t, ht, hb⟩ := hex
      rcases List.mem_cons.1 ht with rfl | ht
      · simp [hb, ← hall t (List.mem_cons_self _ _) hb]
      · exact absurd hb (hn t ht)

/-- The frame-pacing block addresses exactly the cells of the pixels with
linear index 79 up to 10319 (from pixel 79 of row 0 to pixel 79 of row 16). -/
theorem scale_frame_bar_off (s : Store) (frame : Nat) (hf : frame < 60)
    (hs : s ∈ scale_frame_bar 0 frame) : 2 * 79 ≤ s.off ∧ s.off < 2 * 10320 := by
  rw [mem_scale_frame_bar] at hs
  rcases hs with ⟨k, hk, rfl⟩ | ⟨y, hy, rfl | rfl⟩ | ⟨y, hy, k, hk, rfl⟩ <;> simp only <;> omega

/-- What the kernel chosen by `scale()` leaves in the cell of pixel `(i, j)` of
the scaled image, for a factor between 1 and 4. -/
theorem scale_kernel_pixel (src : Nat → Nat) (width height pitch k : Nat) (dst : Int)
    (mem : Int → Nat) (hk1 : 1 ≤ k) (hk4 : k ≤ 4) (hW : width * k ≤ 640) (hH : height * k ≤ 480)
    (hp2 : pitch % 2 = 0) (hpw : height * pitch < 4294967296)
    (i j : Nat) (hi : i < width * k) (hj : j < height * k) :
    apply_stores (scale_kernel k width height pitch src dst) mem
        (dst + 1280 * (j : Int) + 2 * (i : Int))
      = src (j / k * pitch + 2 * (i / k)) := by
  have hmul : ∀ y, y < height → u32 (y * pitch) = y * pitch := by
    intro y hy
    apply Nat.mod_eq_of_lt
    calc y * pitch ≤ height * pitch := Nat.mul_le_mul_right _ (Nat.le_of_lt hy)
      _ < 4294967296 := hpw
  have hk : k = 1 ∨ k = 2 ∨ k = 3 ∨ k = 4 := by omega
  apply apply_stores_of_forall
  · rcases hk with rfl | rfl | rfl | rfl
    · refine ⟨⟨dst + 1280 * (j : Int) + 2 * (i : Int), src (j / 1 * pitch + 2 * (i / 1))⟩, ?_, rfl⟩
      simp only [scale_kernel]
      norm_num
      rw [mem_scale1x]
      refine ⟨j, by omega, i, by omega, ?_⟩
      congr 1
      · push_cast; ring
      · congr 1
        have : 2 * (pitch / 2) = pitch := by omega
        rw [← Nat.mul_assoc, Nat.mul_comm 2 j, Nat.mul_assoc, this]
    · refine ⟨⟨dst + 1280 * (j : Int) + 2 * (i : Int), src (j / 2 * pitch + 2 * (i / 2))⟩, ?_, rfl⟩
      simp only [scale_kernel]
      norm_num
      rw [mem_scale2x]
      refine ⟨j / 2, by omega, i / 2, by omega, i % 2, by omega, j % 2, by omega, ?_⟩
      have hu : u32 (j / 2 * 1280 * 2) = j / 2 * 1280 * 2 := Nat.mod_eq_of_lt (by omega)
      rw [hu, hmul (j / 2) (by omega)]
      congr 1
      omega
    · refine ⟨⟨dst + 1280 * (j : Int) + 2 * (i : Int), src (j / 3 * pitch + 2 * (i / 3))⟩, ?_, rfl⟩
      simp only [scale_kernel]
      norm_num
      rw [mem_scale3x]
      refine ⟨j / 3, by omega, i / 3, by omega, i % 3, by omega, j % 3, by omega, ?_⟩
      have hu : u32 (j / 3 * 1280 * 3) = j / 3 * 1280 * 3 := Nat.mod_eq_of_lt (by omega)
      rw [hu, hmul (j / 3) (by omega)]
      congr 1
      omega
    · refine ⟨⟨dst + 1280 * (j : Int) + 2 * (i : Int), src (j / 4 * pitch + 2 * (i / 4))⟩, ?_, rfl⟩
      simp only [scale_kernel]
      norm_num
      rw [mem_scale4x]
      refine ⟨j / 4, by omega, i / 4, by omega, i % 4, by omega, j % 4, by omega, ?_⟩
      have hu : u32 (j / 4 * 1280 * 4) = j / 4 * 1280 * 4 := Nat.mod_eq_of_lt (by omega)
      rw [hu, hmul (j / 4) (by omega)]
      congr 1
      omega
  · intro s hs hoff
    rcases hk with rfl | rfl | rfl | rfl
    · simp only [scale_kernel] at hs
      norm_num at hs
      rw [mem_scale1x] at hs
      obtain ⟨y, hy, c, hc, rfl⟩ := hs
      simp only at hoff ⊢
      have hy' : y = j := by omega
      have hc' : c = i := by omega
      subst hy' hc'
      congr 1
      have : 2 * (pitch / 2) = pitch := by omega
      rw [Nat.div_one, Nat.div_one, ← Nat.mul_assoc, Nat.mul_comm 2 y, Nat.mul_assoc, this]
    · simp only [scale_kernel] at hs
      norm_num at hs
      rw [mem_scale2x] at hs
      obtain ⟨y, hy, x, hx, a, ha, b, hb, rfl⟩ := hs
      have hu : u32 (y * 1280 * 2) = y * 1280 * 2 := Nat.mod_eq_of_lt (by omega)
      rw [hu] at hoff
      simp only at hoff ⊢
      rw [hmul y hy]
      have hy' : y = j / 2 := by omega
      have hx' : x = i / 2 := by omega
      rw [hy', hx']
    · simp only [scale_kernel] at hs
      norm_num at hs
      rw [mem_scale3x] at hs
      obtain ⟨y, hy, x, hx, a, ha, b, hb, rfl⟩ := hs
      have hu : u32 (y * 1280 * 3) = y * 1280 * 3 := Nat.mod_eq_of_lt (by omega)
      rw [hu] at hoff
      simp only at hoff ⊢
      rw [hmul y hy]
      have hy' : y = j / 3 := by omega
      have hx' : x = i / 3 := by omega
      rw [hy', hx']
    · simp only [scale_kernel] at hs
      norm_num at hs
      rw [mem_scale4x] at hs
      obtain ⟨y, hy, x, hx, a, ha, b, hb, rfl⟩ := hs
      have hu : u32 (y * 1280 * 4) = y * 1280 * 4 := Nat.mod_eq_of_lt (by omega)
      rw [hu] at hoff
      simp only at hoff ⊢
      rw [hmul y hy]
      have hy' : y = j / 4 := by omega
      have hx' : x = i / 4 := by omega
      rw [hy', hx']

/-- C5, as the code has it: for a source with `1 ≤ width ≤ SCREEN_WIDTH`,
`1 ≤ height ≤ SCREEN_HEIGHT`, an even `pitch` (of any size, so also every even
`pitch ≥ width * 2`) whose rows are addressable with 32-bit offsets, and a factor `s = min(SCREEN_WIDTH / width,
SCREEN_HEIGHT / height)` of at most 4, after one call of `scale()` every
destination pixel `(ox + i, oy + j)` with `i < width * s` and `j < height * s`
that lies outside the frame-pacing strip (the pixels of linear index 79 to
10319, rows 0 to 15 from column 79 and the first 80 pixels of row 16) equals
the source pixel at column `i / s` of row `j / s`. -/
theorem scale_pixels_outside_frame_bar (src : Nat → Nat) (width height pitch frame : Nat)
    (mem : Int → Nat)
    (hw1 : 1 ≤ width) (hw : width ≤ SCREEN_WIDTH)
    (hh1 : 1 ≤ height) (hh : height ≤ SCREEN_HEIGHT)
    (hp2 : pitch % 2 = 0) (hpw : height * pitch < 4294967296)
    (hs : scale_factor width height ≤ 4) (hf : frame < 60)
    (i j : Nat) (hi : i < width * scale_factor width height)
    (hj : j < height * scale_factor width height)
    (hout : (scale_oy width height + j) * 640 + (scale_ox width height + i) < 79
      ∨ 10320 ≤ (scale_oy width height + j) * 640 + (scale_ox width height + i)) :
    ∃ stores frame1, scale src width height pitch 0 frame = some (stores, frame1)
      ∧ apply_stores stores mem
          (pixel_offset (scale_ox width height + i) (scale_oy width height + j))
        = src (j / scale_factor width height * pitch + 2 * (i / scale_factor width height)) := by
  simp only [SCREEN_WIDTH, SCREEN_HEIGHT] at hw hh
  refine ⟨_, _, scale_eq src width height pitch frame hw1 hh1, ?_⟩
  obtain ⟨hW, hH⟩ := scale_factor_fits width height
  have hk := scale_factor_pos width height hw1 hw hh1 hh
  rw [apply_stores_append, apply_stores_of_not_mem]
  · have e : pixel_offset (scale_ox width height + i) (scale_oy width height + j)
        = (0 + (scale_oy width height * 1280 + scale_ox width height * 2))
            + 1280 * (j : Int) + 2 * (i : Int) := by
      simp only [pixel_offset, SCREEN_PITCH, SCREEN_BPP]; push_cast; ring
    rw [e]
    exact scale_kernel_pixel src width height pitch _ _ mem hk hs hW hH hp2 hpw i j hi hj
  · intro s hs' e
    have := scale_frame_bar_off s frame hf hs'
    rw [e] at this
    simp only [pixel_offset, SCREEN_PITCH, SCREEN_BPP] at this
    push_cast at this
    omega

/-- C5 at a concrete input: pixel `(80, 24)` of the screen for a 160x144 source
with a pitch of 512 bytes, the top-left pixel of the scaled image. -/
theorem scale_pixels_outside_frame_bar_witness :
    ∃ stores frame1, scale (fun b => b % 7) 160 144 512 0 0 = some (stores, frame1)
      ∧ apply_stores stores (fun _ => 0)
          (pixel_offset (scale_ox 160 144 + (0 : Nat)) (scale_oy 160 144 + (0 : Nat)))
        = (fun b => b % 7) (0 / scale_factor 160 144 * 512 + 2 * (0 / scale_factor 160 144)) :=
  scale_pixels_outside_frame_bar (fun b => b % 7) 160 144 512 0 (fun _ => 0)
    (by decide) (by decide) (by decide) (by decide) (by decide) (by decide)
    (by decide) (by decide) 0 0 (by decide) (by decide) (by decide)

/-- C5, counterexample: a 640x480 source (factor 1, offsets 0) whose pixels all
hold 0x1212, with a pitch of 1280 bytes and the frame counter at 0. After
`scale()` the destination pixel `(100, 5)` of the rectangle holds 0, written by
the frame-pacing strip, and not the source pixel at column 100 of row 5. -/
theorem scale_full_screen_pixel_overwritten :
    ∃ stores frame1, scale (fun _ => 4626) 640 480 1280 0 0 = some (stores, frame1)
      ∧ scale_factor 640 480 = 1 ∧ scale_ox 640 480 = 0 ∧ scale_oy 640 480 = 0
      ∧ apply_stores stores (fun _ => 4626) (pixel_offset (0 + 100) (0 + 5)) = 0
      ∧ (fun _ : Nat => 4626) (5 / 1 * 1280 + 2 * (100 / 1)) = 4626 := by
  refine ⟨_, _, scale_eq _ 640 480 1280 0 (by decide) (by decide), by decide, by decide,
    by decide, ?_, rfl⟩
  rw [apply_stores_append]
  apply apply_stores_of_forall
  · refine ⟨⟨6600, 0⟩, ?_, by decide⟩
    rw [mem_scale_frame_bar]
    exact Or.inl ⟨3220, by decide, by norm_num⟩
  · intro s hs e
    rw [mem_scale_frame_bar] at hs
    simp only [pixel_offset, SCREEN_PITCH, SCREEN_BPP] at e
    rcases hs with ⟨k, hk, rfl⟩ | ⟨y, hy, rfl | rfl⟩ | ⟨y, hy, k, hk, rfl⟩
    · rfl
    · simp only at e; omega
    · simp only at e; omega
    · simp only at e; omega

/-- C7: with the file system a map from paths to bytes, for every non-zero
SAVE_RAM size `n` and every byte pattern `b` of length `n` in the plugin's
SAVE_RAM region, `SRAM_write`, then a reset of the region to arbitrary contents
`junk` of the same size, then `SRAM_read` with the same tag and game name leaves
the region equal to `b`; neither call logs an error. -/
theorem SRAM_write_then_read (fs : FileSystem) (tag game_name : String) (n : Nat)
    (b junk : List Nat) (hn : n ≠ 0) (hb : b.length = n) (hjunk : junk.length = n) :
    (SRAM_read tag game_name n (some junk) (SRAM_write tag game_name n (some b) fs).fs).sram
      = some b
    ∧ (SRAM_write tag game_name n (some b) fs).errors = []
    ∧ (SRAM_read tag game_name n (some junk) (SRAM_write tag game_name n (some b) fs).fs).errors
      = [] := by
  subst hb
  have hb0 : b ≠ [] := by
    intro h; apply hn; simp [h]
  have hd : List.drop b.length junk = [] := by
    rw [← hjunk]; exact List.drop_length junk
  simp [SRAM_read, SRAM_write, hn, fopen_w, fwrite, hb0, hd]

/-- C7 at a concrete input: four bytes of SAVE_RAM, an empty file system. -/
theorem SRAM_write_then_read_witness :
    (SRAM_read "GBC" "Tetris (World).gb" 4 (some [0, 0, 0, 0])
        (SRAM_write "GBC" "Tetris (World).gb" 4 (some [1, 2, 3, 255]) (fun _ => none)).fs).sram
      = some [1, 2, 3, 255]
    ∧ (SRAM_write "GBC" "Tetris (World).gb" 4 (some [1, 2, 3, 255]) (fun _ => none)).errors = []
    ∧ (SRAM_read "GBC" "Tetris (World).gb" 4 (some [0, 0, 0, 0])
        (SRAM_write "GBC" "Tetris (World).gb" 4 (some [1, 2, 3, 255]) (fun _ => none)).fs).errors
      = [] :=
  SRAM_write_then_read (fun _ => none) "GBC" "Tetris (World).gb" 4 [1, 2, 3, 255] [0, 0, 0, 0]
    (by decide) (by decide) (by decide)

/-- C8, as the code has it: for every slot in 0..9 and every non-zero
`serialize_size`, when the state file of the slot does not exist: if the buffer
was allocated, `State_read` returns and logs an error if and only if the slot
is not 8; if the allocation failed, it logs `Couldn't allocate memory for
state` and no other error, whatever the slot, 8 included, and then tests the
uninitialised `state_file`. In every case it does not call the plugin's
`unserialize`. -/
theorem State_read_missing_file (tag core_name game_name : String) (state_slot : Int)
    (state_size : Nat) (calloc_ok : Bool) (unserialize : List Nat → Nat → Bool)
    (fs : FileSystem)
    (hslot : 0 ≤ state_slot ∧ state_slot ≤ 9) (hsize : state_size ≠ 0)
    (hfile : fs (State_getPath tag core_name game_name state_slot) = none) :
    ∃ events ok,
      State_read tag core_name game_name state_slot state_size calloc_ok unserialize fs
        = (events, ok)
      ∧ (calloc_ok = true →
          ok = true ∧ ((∃ msg, StateEvent.LOG_error msg ∈ events) ↔ state_slot ≠ 8))
      ∧ (calloc_ok = false →
          ok = false ∧ events = [.LOG_error "Couldn't allocate memory for state"])
      ∧ ∀ state size, StateEvent.unserialize state size ∉ events := by
  cases calloc_ok with
  | false =>
    refine ⟨[.LOG_error "Couldn't allocate memory for state"], false, ?_, by simp, by simp,
      by simp⟩
    simp [State_read, hsize]
  | true =>
    by_cases h8 : state_slot = 8
    · subst h8
      refine ⟨[], true, ?_, by simp, by simp, by simp⟩
      simp [State_read, hsize, hfile]
    · refine ⟨[.LOG_error ("Error opening state file: "
          ++ State_getPath tag core_name game_name state_slot)], true, ?_, by simp [h8],
        by simp, by simp⟩
      simp [State_read, hsize, hfile, h8]

/-- C8 at a concrete input: slot 3 on an empty file system, the buffer
allocated. -/
theorem State_read_missing_file_witness :
    ∃ events ok,
      State_read "GBC" "gambatte" "Tetris (World).gb" 3 1024 true (fun _ _ => true)
        (fun _ => none) = (events, ok)
      ∧ (true = true →
          ok = true ∧ ((∃ msg, StateEvent.LOG_error msg ∈ events) ↔ (3 : Int) ≠ 8))
      ∧ (true = false →
          ok = false ∧ events = [.LOG_error "Couldn't allocate memory for state"])
      ∧ ∀ state size, StateEvent.unserialize state size ∉ events :=
  State_read_missing_file "GBC" "gambatte" "Tetris (World).gb" 3 1024 true (fun _ _ => true)
    (fun _ => none) (by decide) (by decide) rfl

/-- C8, counterexample: slot 8, a state of 1024 bytes, no state file on the
card, and `calloc` returns `NULL`. The claim has no error logged for slot 8;
the code logs `Couldn't allocate memory for state`. -/
theorem State_read_slot_8_calloc_fails :
    (fun _ => none : FileSystem) (State_getPath "GBC" "gambatte" "Tetris (World).gb" 8) = none
    ∧ (State_read "GBC" "gambatte" "Tetris (World).gb" 8 1024 false (fun _ _ => true)
        (fun _ => none)).1 = [.LOG_error "Couldn't allocate memory for state"]
    ∧ StateEvent.LOG_error "Couldn't allocate memory for state"
        ∈ (State_read "GBC" "gambatte" "Tetris (World).gb" 8 1024 false (fun _ _ => true)
            (fun _ => none)).1 := by
  refine ⟨rfl, rfl, ?_⟩
  decide

/-- One call of `video_refresh_callback` with non-null data and non-zero
sides: the statics afterwards hold the sizes of this call, and the screen is
cleared first exactly when the sizes differ from the stored ones. -/
theorem video_refresh_callback_eq (st : VideoState) (src : Nat → Nat) (w h p : Nat)
    (hw : 1 ≤ w) (hh : 1 ≤ h) :
    video_refresh_callback st (some src) w h p
      = some (⟨st.fps_ticks + 1, w, h, scale_next_frame st.frame⟩,
          (if w ≠ st.last_width ∨ h ≠ st.last_height then [VideoEvent.GFX_clearAll] else [])
            ++ [VideoEvent.scale w h p
                  (scale_kernel (scale_factor w h) w h p src
                      (0 + (scale_oy w h * 1280 + scale_ox w h * 2))
                    ++ scale_frame_bar 0 st.frame),
                VideoEvent.GFX_flip]) := by
  by_cases hc : w ≠ st.last_width ∨ h ≠ st.last_height
  · simp [video_refresh_callback, hc, scale_eq src w h p _ hw hh]
  · have hc1 : w = st.last_width := by
      by_contra hne; exact hc (Or.inl hne)
    have hc2 : h = st.last_height := by
      by_contra hne; exact hc (Or.inr hne)
    simp [video_refresh_callback, scale_eq src w h p _ hw hh, ← hc1, ← hc2]

/-- C9: take two calls of `video_refresh_callback` with non-null data and
non-zero sides, the second being the next non-null call after the first (calls
with null data in between change nothing and draw nothing). The second call
performs `GFX_clearAll` exactly once, as its first action and so before
`scale`, when its `(width, height)` differs from that of the first call, and
does not clear when they are equal. -/
theorem video_refresh_clears_on_size_change (st : VideoState) (src1 src2 : Nat → Nat)
    (w1 h1 p1 w2 h2 p2 : Nat) (hw1 : 1 ≤ w1) (hh1 : 1 ≤ h1) (hw2 : 1 ≤ w2) (hh2 : 1 ≤ h2) :
    ∃ st1 ev1 st2 stores,
      video_refresh_callback st (some src1) w1 h1 p1 = some (st1, ev1)
      ∧ (∀ w h p, video_refresh_callback st1 none w h p = some (st1, []))
      ∧ video_refresh_callback st1 (some src2) w2 h2 p2
          = some (st2,
              (if w2 ≠ w1 ∨ h2 ≠ h1 then [VideoEvent.GFX_clearAll] else [])
                ++ [VideoEvent.scale w2 h2 p2 stores, VideoEvent.GFX_flip]) :=
  ⟨_, _, _, _, video_refresh_callback_eq st src1 w1 h1 p1 hw1 hh1, fun _ _ _ => rfl,
    video_refresh_callback_eq _ src2 w2 h2 p2 hw2 hh2⟩

/-- C9 at a concrete input: a 160x144 frame followed by a 256x224 frame, from
the initial statics. -/
theorem video_refresh_clears_on_size_change_witness :
    ∃ st1 ev1 st2 stores,
      video_refresh_callback VideoState.init (some (fun _ => 0)) 160 144 320
        = some (st1, ev1)
      ∧ (∀ w h p, video_refresh_callback st1 none w h p = some (st1, []))
      ∧ video_refresh_callback st1 (some (fun _ => 0)) 256 224 512
          = some (st2,
              (if 256 ≠ 160 ∨ 224 ≠ 144 then [VideoEvent.GFX_clearAll] else [])
                ++ [VideoEvent.scale 256 224 512 stores, VideoEvent.GFX_flip]) :=
  video_refresh_clears_on_size_change VideoState.init (fun _ => 0) (fun _ => 0)
    160 144 320 256 224 512 (by decide) (by decide) (by decide) (by decide)

/-- One `buttons |= 1 << id` with `id < 14` keeps the mask below `2^14`. -/
theorem press_lt (pad : Pad) (btn : Button) (id buttons : Nat) (hid : id < 14)
    (hb : buttons < 2 ^ 14) : press pad btn id buttons < 2 ^ 14 := by
  unfold press
  split
  · apply Nat.or_lt_two_pow hb
    rw [Nat.one_shiftLeft]
    exact Nat.pow_lt_pow_right (by decide) hid
  · exact hb

/-- The mask `input_poll_callback` leaves in `buttons` only has bits 0 to 13. -/
theorem input_poll_callback_lt (pad : Pad) : (input_poll_callback pad).2 < 2 ^ 14 := by
  unfold input_poll_callback
  simp only
  repeat (first
    | exact (by decide : (0 : Nat) < 2 ^ 14)
    | apply press_lt _ _ _ _ (by decide))

/-- C10: for every button mask `m` that `input_poll_callback` leaves in
`buttons` (the initial mask 0 is the one of an idle pad), and for port 0,
device JOYPAD, index 0: `input_state_callback` with id
`RETRO_DEVICE_ID_JOYPAD_MASK` returns the whole mask `m`, and with any other
joypad id in 0..15 returns 1 if bit `id` of `m` is set and 0 otherwise. -/
theorem input_state_callback_mask_and_bits (pad : Pad) (id : Nat) (hid : id < 16) :
    input_state_callback (input_poll_callback pad).2 0 RETRO_DEVICE_JOYPAD 0
        RETRO_DEVICE_ID_JOYPAD_MASK
      = (((input_poll_callback pad).2 : Nat) : Int)
    ∧ input_state_callback (input_poll_callback pad).2 0 RETRO_DEVICE_JOYPAD 0 id
      = (if (input_poll_callback pad).2.testBit id then 1 else 0)
    ∧ (input_poll_callback ⟨fun _ => false, fun _ => false⟩).2 = 0 := by
  have hm := input_poll_callback_lt pad
  generalize (input_poll_callback pad).2 = m at hm
  refine ⟨?_, ?_, by decide⟩
  · simp only [input_state_callback, to_int16]
    have : m % 65536 = m := Nat.mod_eq_of_lt (by omega)
    simp [this]
    omega
  · have hne : id ≠ RETRO_DEVICE_ID_JOYPAD_MASK := by
      unfold RETRO_DEVICE_ID_JOYPAD_MASK; omega
    simp only [input_state_callback, if_neg hne, to_int16, Nat.and_one_is_mod,
      Nat.testBit_to_div_mod, Nat.shiftRight_eq_div_pow]
    have h2 : m / 2 ^ id % 2 < 2 := Nat.mod_lt _ (by decide)
    have : m / 2 ^ id % 2 % 65536 = m / 2 ^ id % 2 := Nat.mod_eq_of_lt (by omega)
    rw [this]
    rcases Nat.mod_two_eq_zero_or_one (m / 2 ^ id) with h | h <;> simp [h]

/-- C10 at a concrete input: A and R2 held, query of id 8 (A). -/
theorem input_state_callback_mask_and_bits_witness :
    input_state_callback
        (input_poll_callback ⟨fun b => b = .BTN_A ∨ b = .BTN_R2, fun _ => false⟩).2 0
        RETRO_DEVICE_JOYPAD 0 RETRO_DEVICE_ID_JOYPAD_MASK
      = (((input_poll_callback ⟨fun b => b = .BTN_A ∨ b = .BTN_R2, fun _ => false⟩).2 : Nat) : Int)
    ∧ input_state_callback
        (input_poll_callback ⟨fun b => b = .BTN_A ∨ b = .BTN_R2, fun _ => false⟩).2 0
        RETRO_DEVICE_JOYPAD 0 8
      = (if (input_poll_callback
              ⟨fun b => b = .BTN_A ∨ b = .BTN_R2, fun _ => false⟩).2.testBit 8 then 1 else 0)
    ∧ (input_poll_callback ⟨fun _ => false, fun _ => false⟩).2 = 0 :=
  input_state_callback_mask_and_bits ⟨fun b => b = .BTN_A ∨ b = .BTN_R2, fun _ => false⟩ 8
    (by decide)

/-- A call through a resolved pointer is one trace entry and does not fault. -/
theorem Step.call_of_resolves (so : SharedObject) (symbol : String)
    (h : so.resolves symbol = true) : Step.call so symbol = ([Effect.call symbol], true) := by
  simp [Step.call, h]

/-- Sequencing after a piece of code that ran to its end. -/
theorem Step.seq_of_ok (es : List Effect) (b : Step) :
    Step.seq (es, true) b = (es ++ b.1, b.2) := by
  simp [Step.seq]

/-- A shared object that loads and exports the roster resolves each roster symbol. -/
theorem resolves_of_roster (so : SharedObject) (hl : so.loads = true)
    (he : ∀ s ∈ roster, so.exports s = true) (s : String) (hs : s ∈ roster) :
    so.resolves s = true := by
  simp [SharedObject.resolves, hl, he s hs]

/-- The frame loop runs to its end when `retro_run` resolves. -/
theorem frame_loop_ok (w : World) (h : w.so.resolves "retro_run" = true) (n : Nat) :
    (frame_loop w n).2 = true := by
  induction n with
  | zero => rfl
  | succ n ih =>
    simp [frame_loop, Step.block, Step.emit, Step.seq, Step.call_of_resolves _ _ h, ih]

/-- The frame loop starts with `GFX_startFrame`. -/
theorem frame_loop_head (w : World) (n : Nat) :
    ∃ rest, (frame_loop w n).1 = Effect.GFX_startFrame :: rest := by
  cases n with
  | zero => exact ⟨[], rfl⟩
  | succ n =>
    simp only [frame_loop, Step.block, Step.emit, Step.seq_of_ok]
    exact ⟨_, rfl⟩

/-- The frame loop ends with the `GFX_startFrame` of the iteration that breaks. -/
theorem frame_loop_last (w : World) (h : w.so.resolves "retro_run" = true) (n : Nat) :
    ∃ before, (frame_loop w n).1 = before ++ [Effect.GFX_startFrame] := by
  induction n with
  | zero => exact ⟨[], rfl⟩
  | succ n ih =>
    obtain ⟨before, hb⟩ := ih
    refine ⟨Effect.GFX_startFrame :: Effect.call "retro_run" :: before, ?_⟩
    simp [frame_loop, Step.block, Step.emit, Step.seq, Step.call_of_resolves _ _ h, hb,
      frame_loop_ok w h n]

/-- `Game_open` runs to its end when the rom path has a slash. -/
theorem Game_open_ok (w : World) (name : String) (h : Game_name w.rom_path = some name) :
    (Game_open w).2 = true := by
  unfold Game_open
  rw [h]
  simp only
  split <;> rfl

/-- `SRAM_read` runs to its end when the two memory entry points resolve. -/
theorem SRAM_read_step_ok (w : World) (g : String)
    (h1 : w.so.resolves "retro_get_memory_size" = true)
    (h2 : w.so.resolves "retro_get_memory_data" = true) :
    (SRAM_read_step w g).2 = true := by
  unfold SRAM_read_step
  rw [Step.call_of_resolves _ _ h1, Step.seq_of_ok]
  simp only
  split
  · rfl
  · split
    · rfl
    · simp only [Step.block, Step.emit, Step.seq_of_ok, Step.call_of_resolves _ _ h2]
      split
      · rfl
      · split <;> rfl

/-- `SRAM_write` runs to its end when the two memory entry points resolve. -/
theorem SRAM_write_step_ok (w : World) (g : String)
    (h1 : w.so.resolves "retro_get_memory_size" = true)
    (h2 : w.so.resolves "retro_get_memory_data" = true) :
    (SRAM_write_step w g).2 = true := by
  unfold SRAM_write_step
  rw [Step.call_of_resolves _ _ h1, Step.seq_of_ok]
  simp only
  split
  · rfl
  · simp only [Step.block, Step.emit, Step.seq_of_ok, Step.call_of_resolves _ _ h2]
    split <;> rfl

/-- The whole run of `main()` for a shared object that loads and exports the
roster, a core path with an underscore in its base name and a rom path with a
slash: start-up, frame loop and shutdown, and the exit status `EXIT_SUCCESS`. -/
theorem main_eq (w : World) (name game_name : String)
    (hl : w.so.loads = true) (he : ∀ s ∈ roster, w.so.exports s = true)
    (hcore : Core_getName w.core_path = some name)
    (hrom : Game_name w.rom_path = some game_name) :
    main w =
      ([ Effect.GFX_init, .dlopen w.core_path, .call "retro_get_system_info",
         .system ("mkdir -p \"" ++ SDCARD_PATH ++ "/.userdata/" ++ PLATFORM ++ "/"
            ++ w.tag_name ++ "-" ++ name ++ "\""),
         .call "retro_set_environment", .call "retro_set_video_refresh",
         .call "retro_set_audio_sample", .call "retro_set_audio_sample_batch",
         .call "retro_set_input_poll", .call "retro_set_input_state",
         .call "retro_init" ]
        ++ (Game_open w).1
        ++ [.call "retro_load_game"]
        ++ (SRAM_read_step w game_name).1
        ++ [.call "retro_get_system_av_info", .SND_init w.sample_rate w.fps]
        ++ (frame_loop w w.frames).1
        ++ [.free_game_data, .SND_quit]
        ++ (SRAM_write_step w game_name).1
        ++ [.call "retro_unload_game", .call "retro_deinit", .dlclose, .SDL_FreeSurface,
            .GFX_quit],
       some EXIT_SUCCESS) := by
  have r := resolves_of_roster w.so hl he
  have hgo := Game_open_ok w game_name hrom
  have hsr := SRAM_read_step_ok w game_name (r _ (by decide)) (r _ (by decide))
  have hsw := SRAM_write_step_ok w game_name (r _ (by decide)) (r _ (by decide))
  have hfl := frame_loop_ok w (r _ (by decide)) w.frames
  simp [main, Core_open, Core_init, Core_load, Core_quit, Core_close, Core_unload, Game_close,
    Step.block, Step.emit, Step.seq, hl, hcore, hrom, hgo, hsr, hsw, hfl,
    Step.call_of_resolves _ _ (r "retro_get_system_info" (by decide)),
    Step.call_of_resolves _ _ (r "retro_set_environment" (by decide)),
    Step.call_of_resolves _ _ (r "retro_set_video_refresh" (by decide)),
    Step.call_of_resolves _ _ (r "retro_set_audio_sample" (by decide)),
    Step.call_of_resolves _ _ (r "retro_set_audio_sample_batch" (by decide)),
    Step.call_of_resolves _ _ (r "retro_set_input_poll" (by decide)),
    Step.call_of_resolves _ _ (r "retro_set_input_state" (by decide)),
    Step.call_of_resolves _ _ (r "retro_init" (by decide)),
    Step.call_of_resolves _ _ (r "retro_load_game" (by decide)),
    Step.call_of_resolves _ _ (r "retro_get_system_av_info" (by decide)),
    Step.call_of_resolves _ _ (r "retro_unload_game" (by decide)),
    Step.call_of_resolves _ _ (r "retro_deinit" (by decide))]

/-- C11: for a shared object that loads and exports the roster, a core path
with an underscore in its base name and a rom path with a slash, the effect
trace of `main()` up to the first frame is, in this order: graphics init;
plugin open (`dlopen`, `get_system_info`, the core directory, the six callback
installers); plugin `init`; game open; plugin `load_game`; `SRAM_read` (which
starts with `get_memory_size`); `get_system_av_info`; `SND_init` with the
sample rate and fps the plugin reported; then the first `GFX_startFrame`. All
six installers come before `retro_init`. -/
theorem main_startup_order (w : World) (name game_name : String)
    (hl : w.so.loads = true) (he : ∀ s ∈ roster, w.so.exports s = true)
    (hcore : Core_getName w.core_path = some name)
    (hrom : Game_name w.rom_path = some game_name) :
    ∃ game_rest sram_rest rest,
      (Game_open w).1 = Effect.fopen w.rom_path "r" :: game_rest
      ∧ (SRAM_read_step w game_name).1 = Effect.call "retro_get_memory_size" :: sram_rest
      ∧ (main w).1 =
        [ Effect.GFX_init, .dlopen w.core_path, .call "retro_get_system_info",
          .system ("mkdir -p \"" ++ SDCARD_PATH ++ "/.userdata/" ++ PLATFORM ++ "/"
            ++ w.tag_name ++ "-" ++ name ++ "\""),
          .call "retro_set_environment", .call "retro_set_video_refresh",
          .call "retro_set_audio_sample", .call "retro_set_audio_sample_batch",
          .call "retro_set_input_poll", .call "retro_set_input_state",
          .call "retro_init" ]
        ++ (Game_open w).1
        ++ [.call "retro_load_game"]
        ++ (SRAM_read_step w game_name).1
        ++ [.call "retro_get_system_av_info", .SND_init w.sample_rate w.fps,
            .GFX_startFrame]
        ++ rest := by
  have r := resolves_of_roster w.so hl he
  obtain ⟨loop_rest, hloop⟩ := frame_loop_head w w.frames
  have hg : ∃ game_rest, (Game_open w).1 = Effect.fopen w.rom_path "r" :: game_rest := by
    unfold Game_open
    rw [hrom]
    simp only
    split
    · exact ⟨_, rfl⟩
    · exact ⟨_, rfl⟩
  have hs : ∃ sram_rest,
      (SRAM_read_step w game_name).1 = Effect.call "retro_get_memory_size" :: sram_rest := by
    unfold SRAM_read_step
    rw [Step.call_of_resolves _ _ (r _ (by decide)), Step.seq_of_ok]
    exact ⟨_, rfl⟩
  obtain ⟨game_rest, hg⟩ := hg
  obtain ⟨sram_rest, hs⟩ := hs
  refine ⟨game_rest, sram_rest,
    loop_rest ++ [.free_game_data, .SND_quit] ++ (SRAM_write_step w game_name).1
      ++ [.call "retro_unload_game", .call "retro_deinit", .dlclose, .SDL_FreeSurface,
          .GFX_quit], hg, hs, ?_⟩
  rw [main_eq w name game_name hl he hcore hrom, hloop]
  simp only [List.append_assoc, List.cons_append, List.nil_append]

/-- C11 at a concrete input: the gambatte launch. -/
theorem main_startup_order_witness :
    ∃ game_rest sram_rest rest,
      (Game_open gambatte_launch).1 = Effect.fopen gambatte_launch.rom_path "r" :: game_rest
      ∧ (SRAM_read_step gambatte_launch "Tetris (World).gb").1
          = Effect.call "retro_get_memory_size" :: sram_rest
      ∧ (main gambatte_launch).1 =
        [ Effect.GFX_init, .dlopen gambatte_launch.core_path, .call "retro_get_system_info",
          .system ("mkdir -p \"" ++ SDCARD_PATH ++ "/.userdata/" ++ PLATFORM ++ "/"
            ++ gambatte_launch.tag_name ++ "-" ++ "gambatte" ++ "\""),
          .call "retro_set_environment", .call "retro_set_video_refresh",
          .call "retro_set_audio_sample", .call "retro_set_audio_sample_batch",
          .call "retro_set_input_poll", .call "retro_set_input_state",
          .call "retro_init" ]
        ++ (Game_open gambatte_launch).1
        ++ [.call "retro_load_game"]
        ++ (SRAM_read_step gambatte_launch "Tetris (World).gb").1
        ++ [.call "retro_get_system_av_info",
            .SND_init gambatte_launch.sample_rate gambatte_launch.fps, .GFX_startFrame]
        ++ rest :=
  main_startup_order gambatte_launch "gambatte" "Tetris (World).gb" rfl (fun _ _ => rfl)
    (by decide) (by decide)

/-- C12: for a shared object that loads and exports the roster, a core path
with an underscore in its base name and a rom path with a slash, `main()`
returns `EXIT_SUCCESS` and its effect trace after the frame loop is, in this
order: close game (`free`); shut down audio; `SRAM_write` (which starts with
`get_memory_size`); plugin `unload_game`; plugin `deinit`; `dlclose`; free the
screen; shut down graphics. -/
theorem main_shutdown_order (w : World) (name game_name : String)
    (hl : w.so.loads = true) (he : ∀ s ∈ roster, w.so.exports s = true)
    (hcore : Core_getName w.core_path = some name)
    (hrom : Game_name w.rom_path = some game_name) :
    ∃ startup sram_rest,
      (SRAM_write_step w game_name).1 = Effect.call "retro_get_memory_size" :: sram_rest
      ∧ (main w).2 = some EXIT_SUCCESS
      ∧ (main w).1 =
        startup ++ (frame_loop w w.frames).1
        ++ [.free_game_data, .SND_quit]
        ++ (SRAM_write_step w game_name).1
        ++ [.call "retro_unload_game", .call "retro_deinit", .dlclose, .SDL_FreeSurface,
            .GFX_quit] := by
  have r := resolves_of_roster w.so hl he
  have hs : ∃ sram_rest,
      (SRAM_write_step w game_name).1 = Effect.call "retro_get_memory_size" :: sram_rest := by
    unfold SRAM_write_step
    rw [Step.call_of_resolves _ _ (r _ (by decide)), Step.seq_of_ok]
    exact ⟨_, rfl⟩
  obtain ⟨sram_rest, hs⟩ := hs
  refine ⟨[ Effect.GFX_init, .dlopen w.core_path, .call "retro_get_system_info",
        .system ("mkdir -p \"" ++ SDCARD_PATH ++ "/.userdata/" ++ PLATFORM ++ "/"
          ++ w.tag_name ++ "-" ++ name ++ "\""),
        .call "retro_set_environment", .call "retro_set_video_refresh",
        .call "retro_set_audio_sample", .call "retro_set_audio_sample_batch",
        .call "retro_set_input_poll", .call "retro_set_input_state",
        .call "retro_init" ]
      ++ (Game_open w).1 ++ [.call "retro_load_game"] ++ (SRAM_read_step w game_name).1
      ++ [.call "retro_get_system_av_info", .SND_init w.sample_rate w.fps],
    sram_rest, hs, ?_, ?_⟩
  · rw [main_eq w name game_name hl he hcore hrom]
  · rw [main_eq w name game_name hl he hcore hrom]

/-- C12 at a concrete input: the gambatte launch. -/
theorem main_shutdown_order_witness :
    ∃ startup sram_rest,
      (SRAM_write_step gambatte_launch "Tetris (World).gb").1
          = Effect.call "retro_get_memory_size" :: sram_rest
      ∧ (main gambatte_launch).2 = some EXIT_SUCCESS
      ∧ (main gambatte_launch).1 =
        startup ++ (frame_loop gambatte_launch gambatte_launch.frames).1
        ++ [.free_game_data, .SND_quit]
        ++ (SRAM_write_step gambatte_launch "Tetris (World).gb").1
        ++ [.call "retro_unload_game", .call "retro_deinit", .dlclose, .SDL_FreeSurface,
            .GFX_quit] :=
  main_shutdown_order gambatte_launch "gambatte" "Tetris (World).gb" rfl (fun _ _ => rfl)
    (by decide) (by decide)

/-- C19, the code on two shared objects with an unresolved roster symbol.
Without `retro_reset`, which `main()` never calls, every plugin entry point is
called as usual and `main()` returns `EXIT_SUCCESS`. Without `retro_init`,
`Core_open` still calls `get_system_info` and the six installers; the fault
comes only with the call of `init`. -/
theorem main_with_unresolved_symbol :
    "retro_reset" ∈ roster ∧ "retro_init" ∈ roster
    ∧ gambatte_without_reset.so.resolves "retro_reset" = false
    ∧ gambatte_without_init.so.resolves "retro_init" = false
    ∧ main gambatte_without_reset =
        ([ Effect.GFX_init,
           .dlopen "/mnt/sdcard/.system/rg35xx/cores/gambatte_libretro.so",
           .call "retro_get_system_info",
           .system "mkdir -p \"/mnt/sdcard/.userdata/rg35xx/GBC-gambatte\"",
           .call "retro_set_environment", .call "retro_set_video_refresh",
           .call "retro_set_audio_sample", .call "retro_set_audio_sample_batch",
           .call "retro_set_input_poll", .call "retro_set_input_state",
           .call "retro_init",
           .fopen "/mnt/sdcard/Roms/GBC/Tetris (World).gb" "r",
           .LOG_error "Error opening game: /mnt/sdcard/Roms/GBC/Tetris (World).gb",
           .call "retro_load_game",
           .call "retro_get_memory_size",
           .fopen "/mnt/sdcard/Saves/GBC/Tetris (World).gb.sav" "r",
           .call "retro_get_system_av_info",
           .SND_init 4674736413210574848 4633602715725406318,
           .GFX_startFrame, .call "retro_run",
           .GFX_startFrame, .call "retro_run",
           .GFX_startFrame,
           .free_game_data, .SND_quit,
           .call "retro_get_memory_size",
           .fopen "/mnt/sdcard/Saves/GBC/Tetris (World).gb.sav" "w",
           .call "retro_get_memory_data", .fwrite, .sync,
           .call "retro_unload_game", .call "retro_deinit",
           .dlclose, .SDL_FreeSurface, .GFX_quit ],
         some EXIT_SUCCESS)
    ∧ main gambatte_without_init =
        ([ Effect.GFX_init,
           .dlopen "/mnt/sdcard/.system/rg35xx/cores/gambatte_libretro.so",
           .call "retro_get_system_info",
           .system "mkdir -p \"/mnt/sdcard/.userdata/rg35xx/GBC-gambatte\"",
           .call "retro_set_environment", .call "retro_set_video_refresh",
           .call "retro_set_audio_sample", .call "retro_set_audio_sample_batch",
           .call "retro_set_input_poll", .call "retro_set_input_state" ],
         none) := by
  refine ⟨by decide, by decide, by decide, by decide, by decide, by decide⟩

/-- C13: for every command number that is not the number of one of the 21
commands of the environment table (GET_INPUT_BITMASKS has the number
`51 + 0x10000` of the ABI), `environment_callback` returns false (unhandled)
for every data argument, null or not, and leaves the payload and the globals
(option store, disk-control record, audio-buffer-status callback) unchanged. -/
theorem environment_callback_unknown_command (cmd : Nat) (data : Data) (h : Host)
    (hcmd : cmd ∉
      [ RETRO_ENVIRONMENT_GET_OVERSCAN, RETRO_ENVIRONMENT_GET_CAN_DUPE,
        RETRO_ENVIRONMENT_SET_MESSAGE, RETRO_ENVIRONMENT_GET_SYSTEM_DIRECTORY,
        RETRO_ENVIRONMENT_SET_PIXEL_FORMAT, RETRO_ENVIRONMENT_SET_INPUT_DESCRIPTORS,
        RETRO_ENVIRONMENT_SET_DISK_CONTROL_INTERFACE, RETRO_ENVIRONMENT_GET_VARIABLE,
        RETRO_ENVIRONMENT_SET_VARIABLES, RETRO_ENVIRONMENT_GET_VARIABLE_UPDATE,
        RETRO_ENVIRONMENT_GET_LOG_INTERFACE, RETRO_ENVIRONMENT_GET_SAVE_DIRECTORY,
        RETRO_ENVIRONMENT_GET_INPUT_BITMASKS, RETRO_ENVIRONMENT_GET_CORE_OPTIONS_VERSION,
        RETRO_ENVIRONMENT_SET_CORE_OPTIONS, RETRO_ENVIRONMENT_SET_CORE_OPTIONS_INTL,
        RETRO_ENVIRONMENT_SET_CORE_OPTIONS_DISPLAY,
        RETRO_ENVIRONMENT_GET_DISK_CONTROL_INTERFACE_VERSION,
        RETRO_ENVIRONMENT_SET_DISK_CONTROL_EXT_INTERFACE,
        RETRO_ENVIRONMENT_SET_AUDIO_BUFFER_STATUS_CALLBACK,
        RETRO_ENVIRONMENT_SET_MINIMUM_AUDIO_LATENCY ]) :
    environment_callback cmd data h = some ⟨false, data, h⟩ := by
  simp only [List.mem_cons, List.mem_singleton, List.not_mem_nil, not_or, or_false] at hcmd
  obtain ⟨h1, h2, h3, h4, h5, h6, h7, h8, h9, h10, h11, h12, h13, h14, h15, h16, h17, h18,
    h19, h20, h21⟩ := hcmd
  unfold environment_callback
  rw [if_neg h1, if_neg h2, if_neg h3, if_neg h4, if_neg h5, if_neg h6, if_neg h7, if_neg h8,
    if_neg h9, if_neg h10, if_neg h11, if_neg h12, if_neg h13, if_neg h14, if_neg h15,
    if_neg h16, if_neg h17, if_neg h18, if_neg h19, if_neg h20, if_neg h21]

/-- C13 at a concrete input: command 8 (SET_PERFORMANCE_LEVEL, a `TODO` of the
source) with an `unsigned` payload. -/
theorem environment_callback_unknown_command_witness :
    environment_callback 8 (.uint 3) Host.init = some ⟨false, .uint 3, Host.init⟩ :=
  environment_callback_unknown_command 8 (.uint 3) Host.init (by decide)

/-- C14: for every `us` array of at most 128 entries with pairwise distinct
keys, none of them `gpsp_save_method`, and keys and default values that are
strings of at most 127 bytes, SET_CORE_OPTIONS_INTL is handled and a following
GET_VARIABLE for the key of any entry of the array writes that entry's
`default_value`, whatever the table held before. -/
theorem set_core_options_intl_then_get_variable (h : Host)
    (us : List retro_core_option_definition) (value : Option String)
    (hlen : us.length ≤ 128)
    (hdistinct : (us.map retro_core_option_definition.key).Nodup)
    (hgpsp : ∀ var ∈ us, var.key ≠ "gpsp_save_method")
    (hbytes : ∀ var ∈ us, var.key.utf8ByteSize ≤ 127
      ∧ ∃ d, var.default_value = some d ∧ d.utf8ByteSize ≤ 127)
    (var : retro_core_option_definition) (hvar : var ∈ us) :
    ∃ r, environment_callback RETRO_ENVIRONMENT_SET_CORE_OPTIONS_INTL
          (.core_options_intl (some us)) h = some r
      ∧ r.ret = true
      ∧ environment_callback RETRO_ENVIRONMENT_GET_VARIABLE
          (.variable ⟨some var.key, value⟩) r.host
        = some ⟨true, .variable ⟨some var.key, var.default_value⟩, r.host⟩ := by
  have hfit : ∀ v ∈ us, v.key.utf8ByteSize ≤ 127
      ∧ ∃ d, stored_value v = some d ∧ d.utf8ByteSize ≤ 127 := by
    intro v hv
    rw [stored_value_of_ne v (hgpsp v hv)]
    exact hbytes v hv
  obtain ⟨opts1, h1, -, -, hmid⟩ :=
    set_core_options_intl_loop_spec us 0 h.tmp_options (by omega) hfit
  obtain ⟨p, hp, hpe⟩ := List.getElem_of_mem hvar
  obtain ⟨d, hd, -⟩ := (hbytes var hvar).2
  refine ⟨⟨true, .core_options_intl (some us), { h with tmp_options := opts1 }⟩, ?_, rfl, ?_⟩
  · rw [environment_callback_set_core_options_intl, h1]
  · rw [environment_callback_get_variable]
    have hs : get_variable_scan opts1 var.key 0 128 = some d := by
      apply get_variable_scan_of_first opts1 var.key d 128 0 p (by omega)
      · have := (hmid p hp).1
        simp only [Nat.zero_add] at this ⊢
        rw [this, hpe]
      · intro q hq hk
        have hq' : q < us.length := by omega
        have := hmid q hq'
        simp only [Nat.zero_add] at this hk ⊢
        rw [this.1] at hk
        have hqp : q = p := by
          have hq2 : q < (us.map retro_core_option_definition.key).length := by simpa using hq'
          have hp2 : p < (us.map retro_core_option_definition.key).length := by simpa using hp
          have e : (us.map retro_core_option_definition.key)[q]
              = (us.map retro_core_option_definition.key)[p] := by
            simp only [List.getElem_map]
            rw [hk, hpe]
          exact (List.Nodup.getElem_inj_iff hdistinct).1 e
        subst hqp
        have hv := this.2
        rw [hpe, stored_value_of_ne var (hgpsp var hvar), hd] at hv
        exact Option.some.inj hv
    simp only [hs, hd]

/-- C14 at a concrete input: two options on the initial table, query of the second. -/
theorem set_core_options_intl_then_get_variable_witness :
    ∃ r, environment_callback RETRO_ENVIRONMENT_SET_CORE_OPTIONS_INTL
          (.core_options_intl (some
            [⟨"gambatte_gb_colorization", some "disabled"⟩,
             ⟨"gambatte_gb_bootloader", some "enabled"⟩]))
          Host.init = some r
      ∧ r.ret = true
      ∧ environment_callback RETRO_ENVIRONMENT_GET_VARIABLE
          (.variable ⟨some "gambatte_gb_bootloader", none⟩) r.host
        = some ⟨true, .variable ⟨some "gambatte_gb_bootloader", some "enabled"⟩, r.host⟩ :=
  set_core_options_intl_then_get_variable Host.init
    [⟨"gambatte_gb_colorization", some "disabled"⟩, ⟨"gambatte_gb_bootloader", some "enabled"⟩]
    none (by decide) (by decide) (by decide)
    (by
      intro var hv
      simp only [List.mem_cons, List.mem_singleton, List.not_mem_nil, or_false] at hv
      rcases hv with rfl | rfl
      · exact ⟨by decide, "disabled", rfl, by decide⟩
      · exact ⟨by decide, "enabled", rfl, by decide⟩)
    ⟨"gambatte_gb_bootloader", some "enabled"⟩ (by decide)

/-- The arm of SET_CORE_OPTIONS for a non-null array: the list is only
printed, the call is handled and the globals stay as they were. -/
theorem environment_callback_set_core_options (vars : List retro_core_option_definition)
    (h : Host) :
    environment_callback RETRO_ENVIRONMENT_SET_CORE_OPTIONS (.core_options (some vars)) h
      = some ⟨true, .core_options (some vars), h⟩ := rfl

/-- C15, as the code has it: of the three calls only SET_CORE_OPTIONS_INTL
writes the option store. For every `us` array, every SET_VARIABLES list and
every SET_CORE_OPTIONS array, the outcome of SET_CORE_OPTIONS_INTL and one of
the other two calls, in either order, is the outcome of SET_CORE_OPTIONS_INTL
alone, so a following GET_VARIABLE for a key of `us` writes the value
SET_CORE_OPTIONS_INTL seeded even when it was not the last call;
SET_VARIABLES and SET_CORE_OPTIONS in either order leave the store as it was.
For a `us` array of at most 128 entries whose keys and stored values are
strings of at most 127 bytes, the outcome of SET_CORE_OPTIONS_INTL is a
store. -/
theorem only_core_options_intl_writes_store (h : Host)
    (us defs : List retro_core_option_definition) (vars : List retro_variable) :
    environment_calls h
        [(RETRO_ENVIRONMENT_SET_CORE_OPTIONS_INTL, .core_options_intl (some us)),
         (RETRO_ENVIRONMENT_SET_VARIABLES, .variables vars)]
      = environment_calls h
        [(RETRO_ENVIRONMENT_SET_CORE_OPTIONS_INTL, .core_options_intl (some us))]
    ∧ environment_calls h
        [(RETRO_ENVIRONMENT_SET_VARIABLES, .variables vars),
         (RETRO_ENVIRONMENT_SET_CORE_OPTIONS_INTL, .core_options_intl (some us))]
      = environment_calls h
        [(RETRO_ENVIRONMENT_SET_CORE_OPTIONS_INTL, .core_options_intl (some us))]
    ∧ environment_calls h
        [(RETRO_ENVIRONMENT_SET_CORE_OPTIONS_INTL, .core_options_intl (some us)),
         (RETRO_ENVIRONMENT_SET_CORE_OPTIONS, .core_options (some defs))]
      = environment_calls h
        [(RETRO_ENVIRONMENT_SET_CORE_OPTIONS_INTL, .core_options_intl (some us))]
    ∧ environment_calls h
        [(RETRO_ENVIRONMENT_SET_CORE_OPTIONS, .core_options (some defs)),
         (RETRO_ENVIRONMENT_SET_CORE_OPTIONS_INTL, .core_options_intl (some us))]
      = environment_calls h
        [(RETRO_ENVIRONMENT_SET_CORE_OPTIONS_INTL, .core_options_intl (some us))]
    ∧ environment_calls h
        [(RETRO_ENVIRONMENT_SET_VARIABLES, .variables vars),
         (RETRO_ENVIRONMENT_SET_CORE_OPTIONS, .core_options (some defs))] = some h
    ∧ environment_calls h
        [(RETRO_ENVIRONMENT_SET_CORE_OPTIONS, .core_options (some defs)),
         (RETRO_ENVIRONMENT_SET_VARIABLES, .variables vars)] = some h
    ∧ (us.length ≤ 128 →
        (∀ var ∈ us, var.key.utf8ByteSize ≤ 127
          ∧ ∃ d, stored_value var = some d ∧ d.utf8ByteSize ≤ 127) →
        ∃ h1, environment_calls h
          [(RETRO_ENVIRONMENT_SET_CORE_OPTIONS_INTL, .core_options_intl (some us))]
            = some h1) := by
  refine ⟨?_, ?_, ?_, ?_, ?_, ?_, ?_⟩
  · simp only [environment_calls, environment_callback_set_core_options_intl,
      environment_callback_set_variables]
  · simp only [environment_calls, environment_callback_set_core_options_intl,
      environment_callback_set_variables]
  · simp only [environment_calls, environment_callback_set_core_options_intl,
      environment_callback_set_core_options]
  · simp only [environment_calls, environment_callback_set_core_options_intl,
      environment_callback_set_core_options]
  · simp only [environment_calls, environment_callback_set_variables,
      environment_callback_set_core_options]
  · simp only [environment_calls, environment_callback_set_variables,
      environment_callback_set_core_options]
  · intro hlen hfit
    obtain ⟨opts1, h1, -, -, -⟩ :=
      set_core_options_intl_loop_spec us 0 h.tmp_options (by omega) hfit
    refine ⟨{ h with tmp_options := opts1 }, ?_⟩
    simp only [environment_calls, environment_callback_set_core_options_intl, h1]

/-- C15 at a concrete input: one option and one variable on the initial
table; every order of two of the calls ends in the store that
SET_CORE_OPTIONS_INTL alone leaves, or in the initial one. -/
theorem only_core_options_intl_writes_store_witness :
    ∃ h1,
      environment_calls Host.init
          [(RETRO_ENVIRONMENT_SET_CORE_OPTIONS_INTL,
            .core_options_intl (some [⟨"foo", some "off"⟩]))]
        = some h1
      ∧ environment_calls Host.init
          [(RETRO_ENVIRONMENT_SET_CORE_OPTIONS_INTL,
            .core_options_intl (some [⟨"foo", some "off"⟩])),
           (RETRO_ENVIRONMENT_SET_VARIABLES, .variables [⟨some "foo", some "Foo; on|off"⟩])]
        = some h1
      ∧ environment_calls Host.init
          [(RETRO_ENVIRONMENT_SET_VARIABLES, .variables [⟨some "foo", some "Foo; on|off"⟩]),
           (RETRO_ENVIRONMENT_SET_CORE_OPTIONS_INTL,
            .core_options_intl (some [⟨"foo", some "off"⟩]))]
        = some h1
      ∧ environment_calls Host.init
          [(RETRO_ENVIRONMENT_SET_CORE_OPTIONS_INTL,
            .core_options_intl (some [⟨"foo", some "off"⟩])),
           (RETRO_ENVIRONMENT_SET_CORE_OPTIONS, .core_options (some [⟨"foo", some "on"⟩]))]
        = some h1
      ∧ environment_calls Host.init
          [(RETRO_ENVIRONMENT_SET_CORE_OPTIONS, .core_options (some [⟨"foo", some "on"⟩])),
           (RETRO_ENVIRONMENT_SET_CORE_OPTIONS_INTL,
            .core_options_intl (some [⟨"foo", some "off"⟩]))]
        = some h1
      ∧ environment_calls Host.init
          [(RETRO_ENVIRONMENT_SET_VARIABLES, .variables [⟨some "foo", some "Foo; on|off"⟩]),
           (RETRO_ENVIRONMENT_SET_CORE_OPTIONS, .core_options (some [⟨"foo", some "on"⟩]))]
        = some Host.init
      ∧ environment_calls Host.init
          [(RETRO_ENVIRONMENT_SET_CORE_OPTIONS, .core_options (some [⟨"foo", some "on"⟩])),
           (RETRO_ENVIRONMENT_SET_VARIABLES, .variables [⟨some "foo", some "Foo; on|off"⟩])]
        = some Host.init := by
  obtain ⟨e1, e2, e3, e4, e5, e6, hs⟩ :=
    only_core_options_intl_writes_store Host.init [⟨"foo", some "off"⟩] [⟨"foo", some "on"⟩]
      [⟨some "foo", some "Foo; on|off"⟩]
  obtain ⟨h1, hh⟩ := hs (by decide) (by
    intro var hv
    simp only [List.mem_singleton] at hv
    subst hv
    exact ⟨by decide, "off", rfl, by decide⟩)
  exact ⟨h1, hh, e1.trans hh, e2.trans hh, e3.trans hh, e4.trans hh, e5, e6⟩

/-- C15, counterexample: on the initial table SET_CORE_OPTIONS_INTL seeds `foo`
with `off`, then SET_VARIABLES is called with `foo` / `Foo; on|off`. The last
writer would be SET_VARIABLES with the default `on`, but GET_VARIABLE for `foo`
writes `off`. -/
theorem get_variable_after_intl_then_variables :
    (environment_calls Host.init
        [(RETRO_ENVIRONMENT_SET_CORE_OPTIONS_INTL,
          .core_options_intl (some [⟨"foo", some "off"⟩])),
         (RETRO_ENVIRONMENT_SET_VARIABLES, .variables [⟨some "foo", some "Foo; on|off"⟩])]).bind
      (fun h2 =>
        (environment_callback RETRO_ENVIRONMENT_GET_VARIABLE (.variable ⟨some "foo", none⟩)
          h2).map (fun r => r.data))
      = some (.variable ⟨some "foo", some "off"⟩)
    ∧ (Data.variable ⟨some "foo", some "off"⟩) ≠ .variable ⟨some "foo", some "on"⟩ := by
  constructor
  · rfl
  · decide

/-- C18, as the code has it: GET_VARIABLE with a key is always handled. When
none of the 128 entries of the table holds the key, the request's value stays
as it came (null); when some entry holds it, the value points to the value
string of the first such entry. An entry that was never written holds the
empty key and the empty value. -/
theorem get_variable_by_table_contents (h : Host) (key : String) (value : Option String) :
    ((∀ i, i < 128 → (h.tmp_options i).key ≠ key) →
      environment_callback RETRO_ENVIRONMENT_GET_VARIABLE (.variable ⟨some key, value⟩) h
        = some ⟨true, .variable ⟨some key, value⟩, h⟩)
    ∧ (∀ i, i < 128 → (h.tmp_options i).key = key →
        (∀ j, j < i → (h.tmp_options j).key ≠ key) →
        environment_callback RETRO_ENVIRONMENT_GET_VARIABLE (.variable ⟨some key, value⟩) h
          = some ⟨true, .variable ⟨some key, some (h.tmp_options i).value⟩, h⟩)
    ∧ (∀ i, Host.init.tmp_options i = ⟨"", ""⟩) := by
  refine ⟨?_, ?_, fun _ => rfl⟩
  · intro hn
    rw [environment_callback_get_variable, get_variable_scan_none]
    intro q hq
    simpa using hn q hq
  · intro i hi hk hfirst
    rw [environment_callback_get_variable]
    rw [get_variable_scan_of_first h.tmp_options key (h.tmp_options i).value 128 0 i hi
      (by simpa using hk)]
    intro q hq hkq
    simp only [Nat.zero_add] at hkq ⊢
    rcases Nat.lt_or_eq_of_le hq with hlt | heq
    · exact absurd hkq (hfirst q hlt)
    · rw [heq]

/-- C18, counterexample: on the initial table, where no SET call has stored
anything, GET_VARIABLE for the empty key does not leave the value null: the
first entry has the empty key, and the value points to its empty value string. -/
theorem get_variable_empty_key_on_initial_table :
    environment_callback RETRO_ENVIRONMENT_GET_VARIABLE (.variable ⟨some "", none⟩) Host.init
      = some ⟨true, .variable ⟨some "", some ""⟩, Host.init⟩
    ∧ (Data.variable ⟨some "", some ""⟩) ≠ .variable ⟨some "", none⟩ := by
  constructor
  · rfl
  · decide

/-- The macro `cR` extracts bits 11 to 15. -/
theorem cR_eq (A : Nat) : cR A = A / 2048 % 32 := by
  unfold cR
  have e : (0xf800 : Nat) = (2 ^ 5 - 1) <<< 11 := by decide
  apply Nat.eq_of_testBit_eq
  intro j
  rw [e, show (2048 : Nat) = 2 ^ 11 from rfl, show (32 : Nat) = 2 ^ 5 from rfl,
    ← Nat.shiftRight_eq_div_pow]
  simp only [Nat.testBit_shiftRight, Nat.testBit_and, Nat.testBit_shiftLeft,
    Nat.testBit_two_pow_sub_one, Nat.testBit_mod_two_pow]
  by_cases hj : j < 5 <;> simp [hj, Bool.and_comm]

/-- The macro `cG` extracts bits 5 to 10. -/
theorem cG_eq (A : Nat) : cG A = A / 32 % 64 := by
  unfold cG
  have e : (0x7e0 : Nat) = (2 ^ 6 - 1) <<< 5 := by decide
  apply Nat.eq_of_testBit_eq
  intro j
  rw [e, show (32 : Nat) = 2 ^ 5 from rfl, show (64 : Nat) = 2 ^ 6 from rfl,
    ← Nat.shiftRight_eq_div_pow]
  simp only [Nat.testBit_shiftRight, Nat.testBit_and, Nat.testBit_shiftLeft,
    Nat.testBit_two_pow_sub_one, Nat.testBit_mod_two_pow]
  by_cases hj : j < 6 <;> simp [hj, Bool.and_comm]

/-- The macro `cB` extracts bits 0 to 4. -/
theorem cB_eq (A : Nat) : cB A = A % 32 := by
  unfold cB
  exact Nat.and_pow_two_sub_one_eq_mod A 5

/-- The shifts and ors of the `Weight` macros pack channel values that fit
their 5, 6 and 5 bits. -/
theorem pack_eq (r g b : Nat) (hr : r < 32) (hg : g < 64) (hb : b < 32) :
    (r &&& 0x1f) <<< 11 ||| (g &&& 0x3f) <<< 5 ||| (b &&& 0x1f) = rgb565_pack r g b := by
  have e1 : r &&& 0x1f = r := Nat.and_pow_two_sub_one_of_lt_two_pow (n := 5) hr
  have e2 : g &&& 0x3f = g := Nat.and_pow_two_sub_one_of_lt_two_pow (n := 6) hg
  have e3 : b &&& 0x1f = b := Nat.and_pow_two_sub_one_of_lt_two_pow (n := 5) hb
  rw [e1, e2, e3]
  unfold rgb565_pack
  have s1 : r <<< 11 ||| g <<< 5 = 2 ^ 5 * (r * 64 + g) := by
    have : r <<< 11 = 2 ^ 11 * r := by rw [Nat.shiftLeft_eq]; ring
    rw [this, Nat.shiftLeft_eq]
    have h6 := Nat.mul_add_lt_is_or (i := 11) (b := g * 2 ^ 5) (by omega) r
    rw [← h6]; ring
  rw [s1, ← Nat.mul_add_lt_is_or (i := 5) hb]
  ring

/-- C16: for all 16-bit RGB565 colours `A` and `B`, `Weight2_3(A, B)` is the
RGB565 packing of `((2*R(A) + 3*R(B)) / 5, (2*G(A) + 3*G(B)) / 5,
(2*B(A) + 3*B(B)) / 5)` with integer division and 5/6/5-bit channels, and
`Weight3_2(A, B)` equals `Weight2_3(B, A)`. -/
theorem Weight2_3_eq_pack (A B : Nat) (hA : A < 65536) (hB : B < 65536) :
    Weight2_3 A B
      = rgb565_pack ((2 * rgb565_R A + 3 * rgb565_R B) / 5)
          ((2 * rgb565_G A + 3 * rgb565_G B) / 5)
          ((2 * rgb565_B A + 3 * rgb565_B B) / 5)
    ∧ Weight3_2 A B = Weight2_3 B A := by
  refine ⟨?_, rfl⟩
  unfold Weight2_3
  rw [cR_eq, cR_eq, cG_eq, cG_eq, cB_eq, cB_eq]
  have s1 : ∀ x : Nat, x <<< 1 = x * 2 := fun x => by rw [Nat.shiftLeft_eq, Nat.pow_one]
  simp only [s1]
  have rA : A / 2048 % 32 = A / 2048 := Nat.mod_eq_of_lt (by omega)
  have rB : B / 2048 % 32 = B / 2048 := Nat.mod_eq_of_lt (by omega)
  rw [rA, rB, pack_eq _ _ _ (by omega) (by omega) (by omega)]
  unfold rgb565_R rgb565_G rgb565_B
  congr 2 <;> omega

/-- C16 at a concrete input: a dark colour blended towards white. -/
theorem Weight2_3_eq_pack_witness :
    Weight2_3 0x1234 0xffff
      = rgb565_pack ((2 * rgb565_R 0x1234 + 3 * rgb565_R 0xffff) / 5)
          ((2 * rgb565_G 0x1234 + 3 * rgb565_G 0xffff) / 5)
          ((2 * rgb565_B 0x1234 + 3 * rgb565_B 0xffff) / 5)
    ∧ Weight3_2 0x1234 0xffff = Weight2_3 0xffff 0x1234 :=
  Weight2_3_eq_pack 0x1234 0xffff (by decide) (by decide)

/-- C17: for every tag and game name `SRAM_getPath` produces exactly
`SDCARD_PATH`, `/Saves/`, the tag, `/`, the name and `.sav`, one after the
other, with the characters of the name copied verbatim; for the tag `GBC` and
the name `Tetris (World).gb`, which is what `Game_open` keeps of the rom path
`/mnt/sdcard/Roms/GBC/Tetris (World).gb`, the path is
`/mnt/sdcard/Saves/GBC/Tetris (World).gb.sav`. -/
theorem SRAM_getPath_eq (tag game_name : String) :
    SRAM_getPath tag game_name = SDCARD_PATH ++ "/Saves/" ++ tag ++ "/" ++ game_name ++ ".sav"
    ∧ (SRAM_getPath tag game_name).data
        = SDCARD_PATH.data ++ "/Saves/".data ++ tag.data ++ ['/'] ++ game_name.data
            ++ ['.', 's', 'a', 'v']
    ∧ SRAM_getPath "GBC" "Tetris (World).gb" = "/mnt/sdcard/Saves/GBC/Tetris (World).gb.sav"
    ∧ Game_name "/mnt/sdcard/Roms/GBC/Tetris (World).gb" = some "Tetris (World).gb" := by
  refine ⟨rfl, ?_, by decide, by decide⟩
  simp only [SRAM_getPath, String.data_append]

/-- C20, as the code has it: given `SCREEN_PITCH = SCREEN_WIDTH * SCREEN_BPP`,
for each factor 2, 3 and 4 and all `w`, `h`, `pitch` (so also every
`pitch ≥ w * 2`) whose row offsets fit the 32-bit `unsigned` arithmetic of the
kernels (`y * pitch < 2^32` and `y * SCREEN_PITCH * s < 2^32` for every row
`y < h`), the stores of the plain kernel `scale<s>x` are exactly these: for
every `x < w`, `y < h`, and `i, j < s`, the 16-bit source pixel at byte offset
`y * pitch + x * 2` into the destination pixel `(s*x + i, s*y + j)` below `dst`. -/
theorem plain_kernel_stores (w h pitch : Nat) (src : Nat → Nat) (dst : Int) (s : Store)
    (hsrc : ∀ y, y < h → y * pitch < 4294967296) :
    SCREEN_PITCH = SCREEN_WIDTH * SCREEN_BPP
    ∧
    ((∀ y, y < h → y * SCREEN_PITCH * 2 < 4294967296) →
      (s ∈ scale2x w h pitch src dst ↔
        ∃ x y i j : Nat, x < w ∧ y < h ∧ i < 2 ∧ j < 2 ∧
          s = ⟨dst + pixel_offset ((2 * x + i : Nat) : Int) ((2 * y + j : Nat) : Int),
               src (y * pitch + x * 2)⟩))
    ∧
    ((∀ y, y < h → y * SCREEN_PITCH * 3 < 4294967296) →
      (s ∈ scale3x w h pitch src dst ↔
        ∃ x y i j : Nat, x < w ∧ y < h ∧ i < 3 ∧ j < 3 ∧
          s = ⟨dst + pixel_offset ((3 * x + i : Nat) : Int) ((3 * y + j : Nat) : Int),
               src (y * pitch + x * 2)⟩))
    ∧
    ((∀ y, y < h → y * SCREEN_PITCH * 4 < 4294967296) →
      (s ∈ scale4x w h pitch src dst ↔
        ∃ x y i j : Nat, x < w ∧ y < h ∧ i < 4 ∧ j < 4 ∧
          s = ⟨dst + pixel_offset ((4 * x + i : Nat) : Int) ((4 * y + j : Nat) : Int),
               src (y * pitch + x * 2)⟩)) := by
  have hscreen : ∀ y N : Nat, y * SCREEN_PITCH * N = y * 1280 * N := fun _ _ => rfl
  simp only [hscreen]
  refine ⟨rfl, ?_, ?_, ?_⟩
  · intro hdst
    rw [mem_scale2x]
    constructor
    · rintro ⟨y, hy, x, hx, i, hi, j, hj, rfl⟩
      refine ⟨x, y, i, j, hx, hy, hi, hj, ?_⟩
      have hu : u32 (y * 1280 * 2) = y * 1280 * 2 := Nat.mod_eq_of_lt (hdst y hy)
      have hv : u32 (y * pitch) = y * pitch := Nat.mod_eq_of_lt (hsrc y hy)
      rw [hu, hv, Nat.mul_comm x 2]
      congr 1
      simp only [pixel_offset, SCREEN_PITCH, SCREEN_BPP]
      push_cast
      ring
    · rintro ⟨x, y, i, j, hx, hy, hi, hj, rfl⟩
      refine ⟨y, hy, x, hx, i, hi, j, hj, ?_⟩
      have hu : u32 (y * 1280 * 2) = y * 1280 * 2 := Nat.mod_eq_of_lt (hdst y hy)
      have hv : u32 (y * pitch) = y * pitch := Nat.mod_eq_of_lt (hsrc y hy)
      rw [hu, hv, Nat.mul_comm x 2]
      congr 1
      simp only [pixel_offset, SCREEN_PITCH, SCREEN_BPP]
      push_cast
      ring
  · intro hdst
    rw [mem_scale3x]
    constructor
    · rintro ⟨y, hy, x, hx, i, hi, j, hj, rfl⟩
      refine ⟨x, y, i, j, hx, hy, hi, hj, ?_⟩
      have hu : u32 (y * 1280 * 3) = y * 1280 * 3 := Nat.mod_eq_of_lt (hdst y hy)
      have hv : u32 (y * pitch) = y * pitch := Nat.mod_eq_of_lt (hsrc y hy)
      rw [hu, hv, Nat.mul_comm x 2]
      congr 1
      simp only [pixel_offset, SCREEN_PITCH, SCREEN_BPP]
      push_cast
      ring
    · rintro ⟨x, y, i, j, hx, hy, hi, hj, rfl⟩
      refine ⟨y, hy, x, hx, i, hi, j, hj, ?_⟩
      have hu : u32 (y * 1280 * 3) = y * 1280 * 3 := Nat.mod_eq_of_lt (hdst y hy)
      have hv : u32 (y * pitch) = y * pitch := Nat.mod_eq_of_lt (hsrc y hy)
      rw [hu, hv, Nat.mul_comm x 2]
      congr 1
      simp only [pixel_offset, SCREEN_PITCH, SCREEN_BPP]
      push_cast
      ring
  · intro hdst
    rw [mem_scale4x]
    constructor
    · rintro ⟨y, hy, x, hx, i, hi, j, hj, rfl⟩
      refine ⟨x, y, i, j, hx, hy, hi, hj, ?_⟩
      have hu : u32 (y * 1280 * 4) = y * 1280 * 4 := Nat.mod_eq_of_lt (hdst y hy)
      have hv : u32 (y * pitch) = y * pitch := Nat.mod_eq_of_lt (hsrc y hy)
      rw [hu, hv, Nat.mul_comm x 2]
      congr 1
      simp only [pixel_offset, SCREEN_PITCH, SCREEN_BPP]
      push_cast
      ring
    · rintro ⟨x, y, i, j, hx, hy, hi, hj, rfl⟩
      refine ⟨y, hy, x, hx, i, hi, j, hj, ?_⟩
      have hu : u32 (y * 1280 * 4) = y * 1280 * 4 := Nat.mod_eq_of_lt (hdst y hy)
      have hv : u32 (y * pitch) = y * pitch := Nat.mod_eq_of_lt (hsrc y hy)
      rw [hu, hv, Nat.mul_comm x 2]
      congr 1
      simp only [pixel_offset, SCREEN_PITCH, SCREEN_BPP]
      push_cast
      ring

/-- C20 at a concrete input: a 160x144 source with a pitch of 512 bytes and
the first store of `scale3x`. -/
theorem plain_kernel_stores_witness :
    SCREEN_PITCH = SCREEN_WIDTH * SCREEN_BPP
    ∧
    ((∀ y, y < 144 → y * SCREEN_PITCH * 2 < 4294967296) →
      ((⟨0, 0⟩ : Store) ∈ scale2x 160 144 512 (fun b => b % 7) 0 ↔
        ∃ x y i j : Nat, x < 160 ∧ y < 144 ∧ i < 2 ∧ j < 2 ∧
          (⟨0, 0⟩ : Store) = ⟨0 + pixel_offset ((2 * x + i : Nat) : Int) ((2 * y + j : Nat) : Int),
               (fun b => b % 7) (y * 512 + x * 2)⟩))
    ∧
    ((∀ y, y < 144 → y * SCREEN_PITCH * 3 < 4294967296) →
      ((⟨0, 0⟩ : Store) ∈ scale3x 160 144 512 (fun b => b % 7) 0 ↔
        ∃ x y i j : Nat, x < 160 ∧ y < 144 ∧ i < 3 ∧ j < 3 ∧
          (⟨0, 0⟩ : Store) = ⟨0 + pixel_offset ((3 * x + i : Nat) : Int) ((3 * y + j : Nat) : Int),
               (fun b => b % 7) (y * 512 + x * 2)⟩))
    ∧
    ((∀ y, y < 144 → y * SCREEN_PITCH * 4 < 4294967296) →
      ((⟨0, 0⟩ : Store) ∈ scale4x 160 144 512 (fun b => b % 7) 0 ↔
        ∃ x y i j : Nat, x < 160 ∧ y < 144 ∧ i < 4 ∧ j < 4 ∧
          (⟨0, 0⟩ : Store) = ⟨0 + pixel_offset ((4 * x + i : Nat) : Int) ((4 * y + j : Nat) : Int),
               (fun b => b % 7) (y * 512 + x * 2)⟩)) :=
  plain_kernel_stores 160 144 512 (fun b => b % 7) 0 ⟨0, 0⟩ (fun y hy => by omega)

/-- C20, counterexample: `scale2x` on a source of width 1, height 4 and a pitch
of 2147483646 bytes (at least `w * 2`), whose pixel at byte offset
`3 * 2147483646 = 6442450938` (column 0 of row 3) is 1 and whose other pixels
are 0. The kernel computes the row offset `3 * pitch` in 32-bit `unsigned`
arithmetic, reads byte offset 2147483642 and stores 0 into the destination
pixel `(0, 6)`; it never stores the source pixel 1 there. -/
theorem scale2x_row_offset_wraps :
    2147483646 ≥ 1 * 2
    ∧ 3 * 2147483646 + 0 * 2 = 6442450938
    ∧ u32 (3 * 2147483646) = 2147483642
    ∧ (⟨pixel_offset 0 6, 0⟩ : Store)
        ∈ scale2x 1 4 2147483646 (fun b => if b = 6442450938 then 1 else 0) 0
    ∧ (⟨pixel_offset 0 6, 1⟩ : Store)
        ∉ scale2x 1 4 2147483646 (fun b => if b = 6442450938 then 1 else 0) 0 := by
  refine ⟨by decide, by decide, by decide, ?_, ?_⟩
  · rw [mem_scale2x]
    refine ⟨3, by decide, 0, by decide, 0, by decide, 0, by decide, ?_⟩
    decide
  · rw [mem_scale2x]
    rintro ⟨y, hy, x, hx, i, hi, j, hj, e⟩
    have hval := congrArg Store.val e
    simp only at hval
    have hx0 : x = 0 := by omega
    subst hx0
    have hy4 : y = 0 ∨ y = 1 ∨ y = 2 ∨ y = 3 := by omega
    rcases hy4 with rfl | rfl | rfl | rfl <;> simp [u32] at hval

/-- C21, as the code has it: for every command of the environment table other
than SET_PIXEL_FORMAT and SET_INPUT_DESCRIPTORS and every data argument, null
or of the shape the ABI documents for the command, `environment_callback`
returns true (handled); a `us` array of SET_CORE_OPTIONS_INTL has at most 128
entries, keys of at most 127 bytes and stored values (the default, or
`libretro` for `gpsp_save_method`) that are non-null strings of at most 127
bytes, since on any other array the unchecked `strcpy` calls of that arm
fault. SET_INPUT_DESCRIPTORS returns true for null data and false for every
non-null descriptor list. -/
theorem environment_callback_handled (cmd : Nat) (data : Data) (h : Host)
    (hcmd : cmd ∈
      [ RETRO_ENVIRONMENT_GET_OVERSCAN, RETRO_ENVIRONMENT_GET_CAN_DUPE,
        RETRO_ENVIRONMENT_SET_MESSAGE, RETRO_ENVIRONMENT_GET_SYSTEM_DIRECTORY,
        RETRO_ENVIRONMENT_SET_DISK_CONTROL_INTERFACE, RETRO_ENVIRONMENT_GET_VARIABLE,
        RETRO_ENVIRONMENT_SET_VARIABLES, RETRO_ENVIRONMENT_GET_VARIABLE_UPDATE,
        RETRO_ENVIRONMENT_GET_LOG_INTERFACE, RETRO_ENVIRONMENT_GET_SAVE_DIRECTORY,
        RETRO_ENVIRONMENT_GET_INPUT_BITMASKS, RETRO_ENVIRONMENT_GET_CORE_OPTIONS_VERSION,
        RETRO_ENVIRONMENT_SET_CORE_OPTIONS, RETRO_ENVIRONMENT_SET_CORE_OPTIONS_INTL,
        RETRO_ENVIRONMENT_SET_CORE_OPTIONS_DISPLAY,
        RETRO_ENVIRONMENT_GET_DISK_CONTROL_INTERFACE_VERSION,
        RETRO_ENVIRONMENT_SET_DISK_CONTROL_EXT_INTERFACE,
        RETRO_ENVIRONMENT_SET_AUDIO_BUFFER_STATUS_CALLBACK,
        RETRO_ENVIRONMENT_SET_MINIMUM_AUDIO_LATENCY ])
    (hfit : Data.fits cmd data = true)
    (hlen : ∀ us, data = .core_options_intl (some us) →
      us.length ≤ 128 ∧ ∀ var ∈ us, var.key.utf8ByteSize ≤ 127
        ∧ ∃ d, stored_value var = some d ∧ d.utf8ByteSize ≤ 127) :
    (∃ r, environment_callback cmd data h = some r ∧ r.ret = true)
    ∧ environment_callback RETRO_ENVIRONMENT_SET_INPUT_DESCRIPTORS .null h
        = some ⟨true, .null, h⟩
    ∧ ∀ vars, environment_callback RETRO_ENVIRONMENT_SET_INPUT_DESCRIPTORS
        (.input_descriptors vars) h = some ⟨false, .input_descriptors vars, h⟩ := by
  refine ⟨?_, rfl, fun _ => rfl⟩
  simp only [List.mem_cons, List.mem_singleton, List.not_mem_nil, or_false] at hcmd
  rcases data with _ | b | n | s | f | msg | vars | var | var | var | vars | log | vars | us
    | ⟨key, visible⟩ | callback
  · -- null
    rcases hcmd with rfl | rfl | rfl | rfl | rfl | rfl | rfl | rfl | rfl | rfl | rfl | rfl | rfl
      | rfl | rfl | rfl | rfl | rfl | rfl <;> exact ⟨_, rfl, rfl⟩
  · -- bool
    simp only [Data.fits, Bool.or_eq_true, beq_iff_eq] at hfit
    rcases hfit with ((rfl | rfl) | rfl) | rfl <;> exact ⟨_, rfl, rfl⟩
  · -- uint
    simp only [Data.fits, Bool.or_eq_true, beq_iff_eq] at hfit
    rcases hfit with (rfl | rfl) | rfl <;> exact ⟨_, rfl, rfl⟩
  · -- str
    simp only [Data.fits, Bool.or_eq_true, beq_iff_eq] at hfit
    rcases hfit with rfl | rfl <;> exact ⟨_, rfl, rfl⟩
  · -- pixel_format
    simp only [Data.fits, beq_iff_eq] at hfit
    subst hfit
    exact absurd hcmd (by decide)
  · -- message
    simp only [Data.fits, beq_iff_eq] at hfit
    subst hfit; exact ⟨_, rfl, rfl⟩
  · -- input_descriptors
    simp only [Data.fits, beq_iff_eq] at hfit
    subst hfit
    exact absurd hcmd (by decide)
  · -- disk_control
    simp only [Data.fits, beq_iff_eq] at hfit
    subst hfit; exact ⟨_, rfl, rfl⟩
  · -- disk_control_ext
    simp only [Data.fits, beq_iff_eq] at hfit
    subst hfit; exact ⟨_, rfl, rfl⟩
  · -- variable
    simp only [Data.fits, beq_iff_eq] at hfit
    subst hfit
    obtain ⟨key, value⟩ := var
    cases key with
    | none => exact ⟨_, rfl, rfl⟩
    | some key =>
      rw [environment_callback_get_variable]
      split <;> exact ⟨_, rfl, rfl⟩
  · -- variables
    simp only [Data.fits, beq_iff_eq] at hfit
    subst hfit; exact ⟨_, rfl, rfl⟩
  · -- log_callback
    simp only [Data.fits, beq_iff_eq] at hfit
    subst hfit; exact ⟨_, rfl, rfl⟩
  · -- core_options
    simp only [Data.fits, Bool.and_eq_true, beq_iff_eq] at hfit
    obtain ⟨rfl, hv⟩ := hfit
    cases vars with
    | none => simp at hv
    | some vars => exact ⟨_, rfl, rfl⟩
  · -- core_options_intl
    simp only [Data.fits, beq_iff_eq] at hfit
    subst hfit
    cases us with
    | none => exact ⟨_, rfl, rfl⟩
    | some us =>
      obtain ⟨opts1, h1, -⟩ :=
        set_core_options_intl_loop_spec us 0 h.tmp_options
          (by have := (hlen us rfl).1; omega) (hlen us rfl).2
      rw [environment_callback_set_core_options_intl, h1]
      exact ⟨_, rfl, rfl⟩
  · -- core_option_display
    simp only [Data.fits, beq_iff_eq] at hfit
    subst hfit; exact ⟨_, rfl, rfl⟩
  · -- audio_buffer_status_callback
    simp only [Data.fits, beq_iff_eq] at hfit
    subst hfit; exact ⟨_, rfl, rfl⟩

/-- C21 at a concrete input: SET_CORE_OPTIONS_INTL with a `us` array of two
options on the initial table. -/
theorem environment_callback_handled_witness :
    (∃ r, environment_callback RETRO_ENVIRONMENT_SET_CORE_OPTIONS_INTL
        (.core_options_intl (some [⟨"gambatte_gb_colorization", some "disabled"⟩,
          ⟨"gpsp_save_method", none⟩]))
        Host.init = some r ∧ r.ret = true)
    ∧ environment_callback RETRO_ENVIRONMENT_SET_INPUT_DESCRIPTORS .null Host.init
        = some ⟨true, .null, Host.init⟩
    ∧ ∀ vars, environment_callback RETRO_ENVIRONMENT_SET_INPUT_DESCRIPTORS
        (.input_descriptors vars) Host.init = some ⟨false, .input_descriptors vars, Host.init⟩ :=
  environment_callback_handled RETRO_ENVIRONMENT_SET_CORE_OPTIONS_INTL
    (.core_options_intl (some [⟨"gambatte_gb_colorization", some "disabled"⟩,
      ⟨"gpsp_save_method", none⟩]))
    Host.init (by decide) (by decide)
    (by
      intro us e
      simp only [Data.core_options_intl.injEq, Option.some.injEq] at e
      subst e
      refine ⟨by decide, ?_⟩
      intro var hv
      simp only [List.mem_cons, List.mem_singleton, List.not_mem_nil, or_false] at hv
      rcases hv with rfl | rfl
      · exact ⟨by decide, "disabled", rfl, by decide⟩
      · exact ⟨by decide, "libretro", rfl, by decide⟩)

/-- C21, counterexample: SET_INPUT_DESCRIPTORS with the non-null list of one
descriptor (id 0, `B`), ended by the zeroed entry, returns false (unhandled). -/
theorem set_input_descriptors_unhandled :
    environment_callback RETRO_ENVIRONMENT_SET_INPUT_DESCRIPTORS
        (.input_descriptors [⟨0, "B"⟩]) Host.init
      = some ⟨false, .input_descriptors [⟨0, "B"⟩], Host.init⟩
    ∧ Data.fits RETRO_ENVIRONMENT_SET_INPUT_DESCRIPTORS (.input_descriptors [⟨0, "B"⟩]) = true :=
  ⟨rfl, rfl⟩

/-- C22, as the code has it: for a shared object that loads and exports the
roster and a core path with an underscore in its base name, `Core_open` runs
to its end and its effect trace is `dlopen`, then the plugin's
`get_system_info`, then the creation of the core directory, then the six
callback installers in the order `set_environment`, `set_video_refresh`,
`set_audio_sample`, `set_audio_sample_batch`, `set_input_poll`,
`set_input_state`: `get_system_info` is called before every installer. -/
theorem Core_open_trace (w : World) (name : String)
    (hl : w.so.loads = true) (he : ∀ s ∈ roster, w.so.exports s = true)
    (hcore : Core_getName w.core_path = some name) :
    Core_open w =
      ([ Effect.dlopen w.core_path, .call "retro_get_system_info",
         .system ("mkdir -p \"" ++ SDCARD_PATH ++ "/.userdata/" ++ PLATFORM ++ "/"
            ++ w.tag_name ++ "-" ++ name ++ "\""),
         .call "retro_set_environment", .call "retro_set_video_refresh",
         .call "retro_set_audio_sample", .call "retro_set_audio_sample_batch",
         .call "retro_set_input_poll", .call "retro_set_input_state" ], true) := by
  have r := resolves_of_roster w.so hl he
  simp [Core_open, Step.block, Step.emit, Step.seq, hl, hcore,
    Step.call_of_resolves _ _ (r "retro_get_system_info" (by decide)),
    Step.call_of_resolves _ _ (r "retro_set_environment" (by decide)),
    Step.call_of_resolves _ _ (r "retro_set_video_refresh" (by decide)),
    Step.call_of_resolves _ _ (r "retro_set_audio_sample" (by decide)),
    Step.call_of_resolves _ _ (r "retro_set_audio_sample_batch" (by decide)),
    Step.call_of_resolves _ _ (r "retro_set_input_poll" (by decide)),
    Step.call_of_resolves _ _ (r "retro_set_input_state" (by decide))]

/-- C22 at a concrete input: the gambatte launch. -/
theorem Core_open_trace_witness :
    Core_open gambatte_launch =
      ([ Effect.dlopen gambatte_launch.core_path, .call "retro_get_system_info",
         .system ("mkdir -p \"" ++ SDCARD_PATH ++ "/.userdata/" ++ PLATFORM ++ "/"
            ++ gambatte_launch.tag_name ++ "-" ++ "gambatte" ++ "\""),
         .call "retro_set_environment", .call "retro_set_video_refresh",
         .call "retro_set_audio_sample", .call "retro_set_audio_sample_batch",
         .call "retro_set_input_poll", .call "retro_set_input_state" ], true) :=
  Core_open_trace gambatte_launch "gambatte" rfl (fun _ _ => rfl) (by decide)

/-- C22, counterexample: in the effect trace of `Core_open` for the gambatte
launch the call of `get_system_info` is entry 1 and the six installers are
entries 3 to 8: none of them is called before `get_system_info`. -/
theorem Core_open_get_system_info_first :
    (Core_open gambatte_launch).1.indexOf (Effect.call "retro_get_system_info") = 1
    ∧ (Core_open gambatte_launch).1.indexOf (Effect.call "retro_set_environment") = 3
    ∧ (Core_open gambatte_launch).1.indexOf (Effect.call "retro_set_video_refresh") = 4
    ∧ (Core_open gambatte_launch).1.indexOf (Effect.call "retro_set_audio_sample") = 5
    ∧ (Core_open gambatte_launch).1.indexOf (Effect.call "retro_set_audio_sample_batch") = 6
    ∧ (Core_open gambatte_launch).1.indexOf (Effect.call "retro_set_input_poll") = 7
    ∧ (Core_open gambatte_launch).1.indexOf (Effect.call "retro_set_input_state") = 8
    ∧ (Core_open gambatte_launch).1.length = 9 := by
  decide

/-- C23: for every non-zero `serialize_size` and every existing state file of
the current slot, a `State_write` (with its buffer allocated) in which
`serialize` returns false returns after these effects, in order:
`serialize_size`, `fopen` of the state file for writing, `serialize`, the
error message, `sync`. The file is opened, and so truncated, before `serialize`
is called, nothing is written to it, and afterwards it is empty: a non-empty
state saved before is lost. Every other file is as it was. -/
theorem State_write_serialize_fails (tag core_name game_name : String) (state_slot : Int)
    (state_size : Nat) (serialize : Nat → Option (List Nat)) (fs : FileSystem)
    (old : List Nat) (hsize : state_size ≠ 0)
    (hfile : fs (State_getPath tag core_name game_name state_slot) = some old)
    (hfail : serialize state_size = none) :
    ∃ fs1,
      State_write tag core_name game_name state_slot state_size true serialize fs
        = some ([ Effect.call "retro_serialize_size",
                  .fopen (State_getPath tag core_name game_name state_slot) "w",
                  .call "retro_serialize",
                  .LOG_error ("Error creating save state: "
                    ++ State_getPath tag core_name game_name state_slot),
                  .sync ], fs1)
      ∧ fs1 (State_getPath tag core_name game_name state_slot) = some []
      ∧ (old ≠ [] → fs1 (State_getPath tag core_name game_name state_slot)
          ≠ fs (State_getPath tag core_name game_name state_slot))
      ∧ ∀ path, path ≠ State_getPath tag core_name game_name state_slot → fs1 path = fs path := by
  refine ⟨fun p => if p = State_getPath tag core_name game_name state_slot then some []
    else fs p, ?_, by simp, ?_, fun path hp => by simp [hp]⟩
  · simp [State_write, hsize, fopen_w, hfail]
  · intro hold
    rw [hfile]
    simpa using fun e => hold e

/-- C23 at a concrete input: slot 0, a state of 4 bytes on the card, a plugin
whose `serialize` fails. -/
theorem State_write_serialize_fails_witness :
    ∃ fs1,
      State_write "GBC" "gambatte" "Tetris (World).gb" 0 4 true (fun _ => none)
          (fun p => if p = State_getPath "GBC" "gambatte" "Tetris (World).gb" 0
            then some [1, 2, 3, 4] else none)
        = some ([ Effect.call "retro_serialize_size",
                  .fopen (State_getPath "GBC" "gambatte" "Tetris (World).gb" 0) "w",
                  .call "retro_serialize",
                  .LOG_error ("Error creating save state: "
                    ++ State_getPath "GBC" "gambatte" "Tetris (World).gb" 0),
                  .sync ], fs1)
      ∧ fs1 (State_getPath "GBC" "gambatte" "Tetris (World).gb" 0) = some []
      ∧ (([1, 2, 3, 4] : List Nat) ≠ [] →
          fs1 (State_getPath "GBC" "gambatte" "Tetris (World).gb" 0)
            ≠ (fun p => if p = State_getPath "GBC" "gambatte" "Tetris (World).gb" 0
                then some [1, 2, 3, 4] else none)
              (State_getPath "GBC" "gambatte" "Tetris (World).gb" 0))
      ∧ ∀ path, path ≠ State_getPath "GBC" "gambatte" "Tetris (World).gb" 0 →
          fs1 path = (fun p => if p = State_getPath "GBC" "gambatte" "Tetris (World).gb" 0
            then some [1, 2, 3, 4] else none) path :=
  State_write_serialize_fails "GBC" "gambatte" "Tetris (World).gb" 0 4 (fun _ => none)
    (fun p => if p = State_getPath "GBC" "gambatte" "Tetris (World).gb" 0
      then some [1, 2, 3, 4] else none)
    [1, 2, 3, 4] (by decide) (by simp) rfl

/-- C24, as the code has it. Two calls of SET_CORE_OPTIONS_INTL, with a first
array of `m ≤ 128` entries and a second of `n < m` entries, both with keys of
at most 127 bytes and stored values (the default, or `libretro` for
`gpsp_save_method`) that are non-null strings of at most 127 bytes, leave the
entries of the second array in slots `0 .. n-1`, the entries `n .. m-1` of the
first array in their slots, and the slots from `m` on as they were before the
two calls. So a key held at a position `p ≥ n` of the first array and absent
from the second is still answered by GET_VARIABLE, with the value stored at the
first such position (the value answered after the first call when that is the
key's first position in the array); and a key held only at positions below `n`
of the first array and absent from the second is no longer found, provided no
slot from `m` on held it before the calls (on the initial table: provided the
key is not empty). -/
theorem set_core_options_intl_twice (h : Host)
    (first second : List retro_core_option_definition) (value : Option String)
    (hm : first.length ≤ 128) (hn : second.length < first.length)
    (hfirst : ∀ var ∈ first, var.key.utf8ByteSize ≤ 127
      ∧ ∃ d, stored_value var = some d ∧ d.utf8ByteSize ≤ 127)
    (hsecond : ∀ var ∈ second, var.key.utf8ByteSize ≤ 127
      ∧ ∃ d, stored_value var = some d ∧ d.utf8ByteSize ≤ 127) :
    ∃ h1 h2,
      environment_calls h
        [(RETRO_ENVIRONMENT_SET_CORE_OPTIONS_INTL, .core_options_intl (some first))] = some h1
      ∧ environment_calls h
        [(RETRO_ENVIRONMENT_SET_CORE_OPTIONS_INTL, .core_options_intl (some first)),
         (RETRO_ENVIRONMENT_SET_CORE_OPTIONS_INTL, .core_options_intl (some second))] = some h2
      ∧ (∀ i (hi : i < second.length),
          (h2.tmp_options i).key = second[i].key
            ∧ some (h2.tmp_options i).value = stored_value second[i])
      ∧ (∀ i (hi : i < first.length), second.length ≤ i →
          (h2.tmp_options i).key = first[i].key
            ∧ some (h2.tmp_options i).value = stored_value first[i])
      ∧ (∀ i, first.length ≤ i → h2.tmp_options i = h.tmp_options i)
      ∧ (∀ p (hp : p < first.length), second.length ≤ p →
          (∀ var ∈ second, var.key ≠ first[p].key) →
          (∀ q (hq : q < first.length), second.length ≤ q → q < p →
            first[q].key ≠ first[p].key) →
          environment_callback RETRO_ENVIRONMENT_GET_VARIABLE
              (.variable ⟨some first[p].key, value⟩) h2
            = some ⟨true, .variable ⟨some first[p].key, stored_value first[p]⟩, h2⟩)
      ∧ (∀ p (hp : p < first.length),
          (∀ q (hq : q < first.length), q < p → first[q].key ≠ first[p].key) →
          environment_callback RETRO_ENVIRONMENT_GET_VARIABLE
              (.variable ⟨some first[p].key, value⟩) h1
            = some ⟨true, .variable ⟨some first[p].key, stored_value first[p]⟩, h1⟩)
      ∧ (∀ p (hp : p < first.length), p < second.length →
          (∀ var ∈ second, var.key ≠ first[p].key) →
          (∀ q (hq : q < first.length), second.length ≤ q → first[q].key ≠ first[p].key) →
          (∀ i, first.length ≤ i → i < 128 → (h.tmp_options i).key ≠ first[p].key) →
          environment_callback RETRO_ENVIRONMENT_GET_VARIABLE
              (.variable ⟨some first[p].key, value⟩) h2
            = some ⟨true, .variable ⟨some first[p].key, value⟩, h2⟩) := by
  obtain ⟨opts1, e1, -, hhi1, hmid1⟩ :=
    set_core_options_intl_loop_spec first 0 h.tmp_options (by omega) hfirst
  obtain ⟨opts2, e2, -, hhi2, hmid2⟩ :=
    set_core_options_intl_loop_spec second 0 opts1 (by omega) hsecond
  simp only [Nat.zero_add] at hhi1 hmid1 hhi2 hmid2
  have s2 : ∀ i (hi : i < second.length),
      (opts2 i).key = second[i].key ∧ some (opts2 i).value = stored_value second[i] :=
    fun i hi => hmid2 i hi
  have s1 : ∀ i (hi : i < first.length), second.length ≤ i →
      (opts2 i).key = first[i].key ∧ some (opts2 i).value = stored_value first[i] :=
    fun i hi hni => by
      rw [hhi2 i hni]; exact hmid1 i hi
  have s0 : ∀ i, first.length ≤ i → opts2 i = h.tmp_options i := fun i hmi => by
    rw [hhi2 i (by omega), hhi1 i hmi]
  refine ⟨{ h with tmp_options := opts1 },
    { h with tmp_options := opts2 }, ?_, ?_, s2, s1, s0, ?_, ?_, ?_⟩
  · simp only [environment_calls, environment_callback_set_core_options_intl, e1]
  · simp only [environment_calls, environment_callback_set_core_options_intl, e1, e2]
  · intro p hp hnp hsec hfst
    rw [environment_callback_get_variable]
    have hs : get_variable_scan opts2 first[p].key 0 128 = some (opts2 p).value := by
      apply get_variable_scan_of_first opts2 _ _ 128 0 p (by omega)
      · simp only [Nat.zero_add]; exact (s1 p hp hnp).1
      · intro q hq hk
        simp only [Nat.zero_add] at hk ⊢
        by_cases hqn : q < second.length
        · rw [(s2 q hqn).1] at hk
          exact absurd hk (hsec _ (List.getElem_mem _))
        · have hqm : q < first.length := by omega
          rcases Nat.lt_or_eq_of_le hq with hlt | heq
          · rw [(s1 q hqm (by omega)).1] at hk
            exact absurd hk (hfst q hqm (by omega) hlt)
          · subst heq; rfl
    rw [hs]
    simp only
    rw [(s1 p hp hnp).2]
  · intro p hp hfst
    rw [environment_callback_get_variable]
    have hs : get_variable_scan opts1 first[p].key 0 128 = some (opts1 p).value := by
      apply get_variable_scan_of_first opts1 _ _ 128 0 p (by omega)
      · simp only [Nat.zero_add]; exact (hmid1 p hp).1
      · intro q hq hk
        simp only [Nat.zero_add] at hk ⊢
        have hqm : q < first.length := by omega
        rcases Nat.lt_or_eq_of_le hq with hlt | heq
        · rw [(hmid1 q hqm).1] at hk
          exact absurd hk (hfst q hqm hlt)
        · subst heq; rfl
    rw [hs]
    simp only
    rw [(hmid1 p hp).2]
  · intro p hp _ hsec hfst hrest
    rw [environment_callback_get_variable]
    have hs : get_variable_scan opts2 first[p].key 0 128 = none := by
      apply get_variable_scan_none
      intro q hq
      simp only [Nat.zero_add]
      by_cases hqn : q < second.length
      · rw [(s2 q hqn).1]
        exact hsec _ (List.getElem_mem _)
      · by_cases hqm : q < first.length
        · rw [(s1 q hqm (by omega)).1]
          exact hfst q hqm (by omega)
        · rw [s0 q (by omega)]
          exact hrest q (by omega) hq
    simp only [hs]

/-- C24 at a concrete input: a first array of three options, a second of one,
on the initial table. -/
theorem set_core_options_intl_twice_witness :
    ∃ h1 h2,
      environment_calls Host.init
        [(RETRO_ENVIRONMENT_SET_CORE_OPTIONS_INTL,
          .core_options_intl (some [⟨"a", some "1"⟩, ⟨"b", some "2"⟩, ⟨"c", some "3"⟩]))]
        = some h1
      ∧ environment_calls Host.init
        [(RETRO_ENVIRONMENT_SET_CORE_OPTIONS_INTL,
          .core_options_intl (some [⟨"a", some "1"⟩, ⟨"b", some "2"⟩, ⟨"c", some "3"⟩])),
         (RETRO_ENVIRONMENT_SET_CORE_OPTIONS_INTL,
          .core_options_intl (some [⟨"d", some "4"⟩]))] = some h2
      ∧ environment_callback RETRO_ENVIRONMENT_GET_VARIABLE (.variable ⟨some "c", none⟩) h2
          = some ⟨true, .variable ⟨some "c", some "3"⟩, h2⟩
      ∧ environment_callback RETRO_ENVIRONMENT_GET_VARIABLE (.variable ⟨some "c", none⟩) h1
          = some ⟨true, .variable ⟨some "c", some "3"⟩, h1⟩
      ∧ environment_callback RETRO_ENVIRONMENT_GET_VARIABLE (.variable ⟨some "a", none⟩) h2
          = some ⟨true, .variable ⟨some "a", none⟩, h2⟩ := by
  obtain ⟨h1, h2, e1, e2, -, -, -, p1, p1b, p2⟩ :=
    set_core_options_intl_twice Host.init
      [⟨"a", some "1"⟩, ⟨"b", some "2"⟩, ⟨"c", some "3"⟩] [⟨"d", some "4"⟩]
      none (by decide) (by decide)
      (by
        intro var hv
        simp only [List.mem_cons, List.mem_singleton, List.not_mem_nil, or_false] at hv
        rcases hv with rfl | rfl | rfl
        · exact ⟨by decide, "1", rfl, by decide⟩
        · exact ⟨by decide, "2", rfl, by decide⟩
        · exact ⟨by decide, "3", rfl, by decide⟩)
      (by
        intro var hv
        simp only [List.mem_singleton] at hv
        subst hv
        exact ⟨by decide, "4", rfl, by decide⟩)
  refine ⟨h1, h2, e1, e2, ?_, ?_, ?_⟩
  · exact p1 2 (by decide) (by decide) (by decide) (by decide)
  · exact p1b 2 (by decide) (by decide)
  · exact p2 0 (by decide) (by decide) (by decide) (by decide)
      (fun i _ _ => by simp [Host.init])

/-- C24, counterexample: on the initial table, a first array
`["" = x, b = 2]` and a second array `[c = 3]`. The empty key is held only at
position 0 of the first array, below the length 1 of the second, and is absent
from the second; yet after the two calls GET_VARIABLE for it is answered from
slot 2, which was never written: the value is a pointer to an empty string,
not null. -/
theorem get_variable_empty_key_after_two_calls :
    (environment_calls Host.init
        [(RETRO_ENVIRONMENT_SET_CORE_OPTIONS_INTL,
          .core_options_intl (some [⟨"", some "x"⟩, ⟨"b", some "2"⟩])),
         (RETRO_ENVIRONMENT_SET_CORE_OPTIONS_INTL,
          .core_options_intl (some [⟨"c", some "3"⟩]))]).bind
      (fun h2 =>
        (environment_callback RETRO_ENVIRONMENT_GET_VARIABLE (.variable ⟨some "", none⟩)
          h2).map (fun r => r.data))
      = some (.variable ⟨some "", some ""⟩)
    ∧ (Data.variable ⟨some "", some ""⟩) ≠ .variable ⟨some "", none⟩ := by
  constructor
  · rfl
  · decide

end MinArch
